import Mathlib

/-!
# cprobe / plugins/dm8 : metric probes of the DM8 exporter

A shallow embedding of the collectors under `plugins/dm8` and the properties
their specification states about them.

Modelling conventions
* Go `string` values are Lean `String`s (sequences of Unicode code points, i.e.
  Go strings holding valid UTF-8); the `strings` package functions used by the
  code are defined on the underlying `List Char`.
* A `float64` is carried as its IEEE-754 bit pattern; the collectors only move
  such values around, no floating-point arithmetic is performed on them.
* `sql.NullString` / `sql.NullFloat64` keep their two Go fields.
* A `Collect` method becomes a function from what the database answers (and, for
  cache-aware probes, the Result Cache and the current time) to the samples sent
  on the channel, the SQL statements issued and the new cache. A Go panic
  (`MustNewConstMetric` on a label-count mismatch) is the `none` result.
-/

namespace Dm8

/-! ## Data model -/

/-- A Go `float64`, carried as its 64-bit IEEE-754 pattern. -/
structure Float64 where
  bits : Nat
deriving DecidableEq, Repr

/-- The constant `1` of type `float64`. -/
def Float64.one : Float64 := ⟨0x3FF0000000000000⟩

/-- The constant `0` of type `float64`. -/
def Float64.zero : Float64 := ⟨0⟩

/-- Go's `sql.NullString`. -/
structure NullString where
  String : String
  Valid : Bool
deriving DecidableEq, Repr

/-- Go's `sql.NullFloat64`. -/
structure NullFloat64 where
  Float64 : Float64
  Valid : Bool
deriving DecidableEq, Repr

/-- Errors a database call can return; `DeadlineExceeded` is the context deadline. -/
inductive DbError where
  | DeadlineExceeded
  | Other (msg : String)
deriving DecidableEq, Repr

/-- The rows of a successful query: every `rows.Next()` step yields a row whose
`Scan` either succeeds or fails, and `rows.Err()` is read after the iteration. -/
structure Rows (α : Type) where
  scanned : List (Except DbError α)
  err : Option DbError

/-- The outcome of `db.QueryContext`. -/
abbrev QueryOutcome (α : Type) := Except DbError (Rows α)

/-- Prometheus `Desc`: fully-qualified name, help text and ordered label names. -/
structure Desc where
  fqName : String
  help : String
  variableLabels : List String
deriving DecidableEq, Repr

/-- Prometheus value kinds. -/
inductive ValueType where
  | CounterValue
  | GaugeValue
deriving DecidableEq, Repr

/-- A constant metric (sample): descriptor, kind, value, positional label values. -/
structure Metric where
  desc : Desc
  valueType : ValueType
  value : Float64
  labelValues : List String
deriving DecidableEq, Repr

/-- Prometheus `NewDesc` with no constant labels. -/
def NewDesc (fqName help : String) (variableLabels : List String) : Desc :=
  ⟨fqName, help, variableLabels⟩

/-- Prometheus `MustNewConstMetric`: panics (`none`) when the number of label
values differs from the number of label names of the descriptor. -/
def MustNewConstMetric (desc : Desc) (valueType : ValueType) (value : Float64)
    (labelValues : List String) : Option Metric :=
  if labelValues.length = desc.variableLabels.length then
    some ⟨desc, valueType, value, labelValues⟩
  else none

/-- The label value a sample carries under a label name: label values are
positional, the i-th value belongs to the i-th label name of the descriptor. -/
def Metric.label (m : Metric) (name : String) : Option String :=
  (m.desc.variableLabels.zip m.labelValues).lookup name

/-- Package-level names of `dm8` that are declared outside the files at hand:
the `Hostname` variable, the float formatter and the SQL text constants. -/
structure Pkg where
  Hostname : String
  NullFloat64ToString : NullFloat64 → String
  QuerySystemInfoSqlStr : String
  QueryInstanceErrorLogSql : String
  QueryVersionInfoSqlStr : String
  QueryTablespaceInfoSqlStr : String
  QueryTablespaceFileSqlStr : String

/-- Modelled from the spec: `NullStringToString` is declared outside the files at
hand; section 4.1 gives it as invalid to the empty string, valid to the
underlying value unchanged. -/
def NullStringToString (ns : NullString) : String :=
  if ns.Valid then ns.String else ""

/-- Modelled from the spec: `NullFloat64ToFloat64` is declared outside the files at
hand; section 4.1 gives it as invalid to 0.0, valid to the underlying value. -/
def NullFloat64ToFloat64 (nf : NullFloat64) : Float64 :=
  if nf.Valid then nf.Float64 else Float64.zero

/-- What a probe that does not touch the Result Cache produces in one cycle. -/
structure Emitted where
  metrics : List Metric
  queries : List String
deriving DecidableEq, Repr

/-! ## collector.go : metric names -/

def dmdbms_tablespace_file_total_info : String := "dmdbms_tablespace_file_total_info"
def dmdbms_tablespace_file_free_info : String := "dmdbms_tablespace_file_free_info"
def dmdbms_tablespace_size_total_info : String := "dmdbms_tablespace_size_total_info"
def dmdbms_tablespace_size_free_info : String := "dmdbms_tablespace_size_free_info"
def dmdbms_version : String := "dmdbms_version"
def dmdbms_instance_log_error_info : String := "dmdbms_instance_log_error_info"
def dmdbms_system_cpu_info : String := "dmdbms_system_cpu_info"
def dmdbms_system_memory_info : String := "dmdbms_system_memory_info"
def dmdbms_system_base_info : String := "dmdbms_system_base_info"

/-! ## db_system_info_collector.go -/

/-- Go struct `SystemInfo`. -/
structure SystemInfo where
  NCpu : NullFloat64
  TotalPhySize : NullFloat64
  TotalVirSize : NullFloat64
  TotalDiskSize : NullFloat64
deriving DecidableEq, Repr

/-- The zero value of `SystemInfo` (`var info SystemInfo`). -/
def SystemInfo.zero : SystemInfo :=
  ⟨⟨Float64.zero, false⟩, ⟨Float64.zero, false⟩, ⟨Float64.zero, false⟩, ⟨Float64.zero, false⟩⟩

/-- Go struct `DBSystemInfoCollector` (the three descriptors). -/
structure DBSystemInfoCollector where
  systemBaseInfoDesc : Desc
  cpuInfoDesc : Desc
  memoryInfoDesc : Desc

/-- `NewDBSystemInfoCollector`. -/
def NewDBSystemInfoCollector : DBSystemInfoCollector where
  systemBaseInfoDesc := NewDesc dmdbms_system_base_info
    "Database system base information metrics (always 1 with system info in labels)"
    ["host_name", "n_cpu", "total_phy_size", "total_vir_size", "total_disk_size"]
  cpuInfoDesc := NewDesc dmdbms_system_cpu_info "Number of CPU cores" ["host_name"]
  memoryInfoDesc := NewDesc dmdbms_system_memory_info
    "Total physical memory size in bytes" ["host_name"]

/-- `DBSystemInfoCollector.Collect`, the part after the row has been read:
the base-info sample, then the CPU and memory samples when their column is valid. -/
def DBSystemInfoCollector.emit (c : DBSystemInfoCollector) (pkg : Pkg) (info : SystemInfo) :
    Option (List Metric) := do
  let nCpuStr := if info.NCpu.Valid then pkg.NullFloat64ToString info.NCpu else ""
  let totalPhySizeStr :=
    if info.TotalPhySize.Valid then pkg.NullFloat64ToString info.TotalPhySize else ""
  let totalVirSizeStr :=
    if info.TotalVirSize.Valid then pkg.NullFloat64ToString info.TotalVirSize else ""
  let totalDiskSizeStr :=
    if info.TotalDiskSize.Valid then pkg.NullFloat64ToString info.TotalDiskSize else ""
  let base ← MustNewConstMetric c.systemBaseInfoDesc ValueType.GaugeValue Float64.one
    [nCpuStr, totalPhySizeStr, totalVirSizeStr, totalDiskSizeStr, pkg.Hostname]
  let cpu ←
    if info.NCpu.Valid then
      (MustNewConstMetric c.cpuInfoDesc ValueType.GaugeValue
        (NullFloat64ToFloat64 info.NCpu) [pkg.Hostname]).map (fun m => [m])
    else some []
  let mem ←
    if info.TotalPhySize.Valid then
      (MustNewConstMetric c.memoryInfoDesc ValueType.GaugeValue
        (NullFloat64ToFloat64 info.TotalPhySize) [pkg.Hostname]).map (fun m => [m])
    else some []
  pure (base :: cpu ++ mem)

/-- `DBSystemInfoCollector.Collect`: one query; a query error, a scan error of the
first row or a `rows.Err()` ends the cycle without a sample; with no row at all
the zero-valued `info` is emitted. -/
def DBSystemInfoCollector.Collect (c : DBSystemInfoCollector) (pkg : Pkg)
    (q : QueryOutcome SystemInfo) : Option Emitted :=
  match q with
  | .error _ => some ⟨[], [pkg.QuerySystemInfoSqlStr]⟩
  | .ok rows =>
    match rows.scanned.head? with
    | some (.error _) => some ⟨[], [pkg.QuerySystemInfoSqlStr]⟩
    | first =>
      let info : SystemInfo :=
        match first with
        | some (.ok i) => i
        | _ => SystemInfo.zero
      match rows.err with
      | some _ => some ⟨[], [pkg.QuerySystemInfoSqlStr]⟩
      | none => (c.emit pkg info).map (fun ms => ⟨ms, [pkg.QuerySystemInfoSqlStr]⟩)

/-! ## db_instance_log_error_info_collector.go -/

/-- Go struct `InstanceLogInfo`. -/
structure InstanceLogInfo where
  Txt : NullString
  Level : NullString
  Pid : NullString
  LogTime : NullString
deriving DecidableEq, Repr

/-- The dedup key built in the loop body of `removeDuplicateLogInfos`:
`pid + "|" + level + "|" + logTime + "|" + txt` over the coerced fields. -/
def logKey (info : InstanceLogInfo) : String :=
  let pid := NullStringToString info.Pid
  let level := NullStringToString info.Level
  let logTime := NullStringToString info.LogTime
  let txt := NullStringToString info.Txt
  pid ++ "|" ++ level ++ "|" ++ logTime ++ "|" ++ txt

/-- The loop of `removeDuplicateLogInfos`; `seen` is the Go `map[string]bool`
(a missing key reads as `false`), `result` the slice appended to. -/
def removeDuplicateLogInfos.loop (seen : String → Bool) (result : List InstanceLogInfo) :
    List InstanceLogInfo → List InstanceLogInfo
  | [] => result
  | info :: rest =>
    let key := logKey info
    if seen key then
      removeDuplicateLogInfos.loop seen result rest
    else
      removeDuplicateLogInfos.loop (fun k => if k = key then true else seen k)
        (result ++ [info]) rest

/-- `removeDuplicateLogInfos`. -/
def removeDuplicateLogInfos (logs : List InstanceLogInfo) : List InstanceLogInfo :=
  removeDuplicateLogInfos.loop (fun _ => false) [] logs

/-! ## Go `strings` functions used by the collectors -/

/-- Whether `sub` occurs in the list as a contiguous block. -/
def containsList (sub : List Char) : List Char → Bool
  | [] => sub.isEmpty
  | c :: cs => sub.isPrefixOf (c :: cs) || containsList sub cs

/-- Go `strings.Contains`. -/
def stringsContains (s substr : String) : Bool :=
  containsList substr.data s.data

/-- One left-to-right pass that replaces every non-overlapping occurrence of a
non-empty `old` by `new`; `skip` counts the characters of a matched occurrence
still to be stepped over. -/
def replaceList (old new : List Char) : Nat → List Char → List Char
  | _, [] => []
  | skip + 1, _ :: cs => replaceList old new skip cs
  | 0, c :: cs =>
    if old.isPrefixOf (c :: cs) then new ++ replaceList old new (old.length - 1) cs
    else c :: replaceList old new 0 cs

/-- Go `strings.ReplaceAll(s, old, new)`, which is `strings.Replace(s, old, new, -1)`:
all non-overlapping occurrences, found left to right, are replaced; an empty
`old` matches before every code point and at the end. -/
def stringsReplaceAll (s old new : String) : String :=
  if old.data = [] then ⟨new.data ++ s.data.flatMap (fun c => c :: new.data)⟩
  else ⟨replaceList old.data new.data 0 s.data⟩

/-- Go `unicode.IsSpace`: the code points with the White_Space property. -/
def isSpace (c : Char) : Bool :=
  c.toNat ∈ [0x09, 0x0A, 0x0B, 0x0C, 0x0D, 0x20, 0x85, 0xA0, 0x1680,
             0x2028, 0x2029, 0x202F, 0x205F, 0x3000]
    || (0x2000 ≤ c.toNat && c.toNat ≤ 0x200A)

/-- Go `strings.TrimSpace`: leading and trailing white space removed. -/
def stringsTrimSpace (s : String) : String :=
  ⟨((s.data.dropWhile isSpace).reverse.dropWhile isSpace).reverse⟩

/-- Pieces of a list between occurrences of a one-character separator. -/
def splitList (sep : Char) : List Char → List (List Char)
  | [] => [[]]
  | c :: cs =>
    if c = sep then [] :: splitList sep cs
    else
      match splitList sep cs with
      | [] => [[c]]
      | p :: ps => (c :: p) :: ps

/-- Go `strings.Split(s, sep)` for a one-character separator. -/
def stringsSplit (s : String) (sep : Char) : List String :=
  (splitList sep s.data).map String.mk

/-! ## Result Cache -/

/-- A cache entry: key, serialized payload, absolute expiry time (nanoseconds). -/
structure CacheEntry where
  key : String
  payload : String
  expiry : Int
deriving DecidableEq, Repr

/-- The Result Cache: its entries, at most one per key. -/
abbrev Cache := List CacheEntry

/-- Modelled from the spec: `GetFromCache` is declared outside the files at hand;
section 4.3 gives `get` as not found when the key is absent or its expiry
timestamp has passed, and the payload otherwise. -/
def GetFromCache (cache : Cache) (now : Int) (key : String) : Option String :=
  match cache.find? (fun e => e.key == key) with
  | some e => if now ≤ e.expiry then some e.payload else none
  | none => none

/-- Modelled from the spec: `SetCache` is declared outside the files at hand;
section 4.3 gives `set` as overwriting unconditionally, the whole entry, with
the TTL counted from the time of the call. -/
def SetCache (cache : Cache) (now : Int) (key value : String) (ttl : Int) : Cache :=
  ⟨key, value, now + ttl⟩ :: cache.filter (fun e => !(e.key == key))

/-- Go `time.Duration` product, in wrapping signed 64-bit nanoseconds. -/
def durationMul (a b : Int) : Int :=
  (a * b + 2 ^ 63) % 2 ^ 64 - 2 ^ 63

/-- Go `time.Minute`, in nanoseconds. -/
def timeMinute : Int := 60000000000

/-- The fields of `Config` the collectors at hand read. -/
structure Config where
  QueryTimeout : Int
  BigKeyDataCacheTime : Int
deriving DecidableEq, Repr

/-- What a cache-aware probe produces in one cycle. -/
structure Cycle where
  metrics : List Metric
  queries : List String
  cache : Cache
deriving DecidableEq, Repr

/-! ## db_version_info_collector.go -/

/-- Go struct `DbVersionInfo`. -/
structure DbVersionInfo where
  idCode : NullString
  buildType : NullString
  innerVer : NullString
deriving DecidableEq, Repr

/-- What the database answers to the statements of the version probe: the V2
row, the `BUILD_VERSION` position row, and the version row of a V1 statement. -/
structure VersionDb where
  v2 : Except DbError DbVersionInfo
  pos : Except DbError Int
  version : String → Except DbError String

/-- `NewDbVersionCollector`: the descriptor. -/
def versionInfoDesc : Desc :=
  NewDesc dmdbms_version "Information about DM database version"
    ["host_name", "db_version_str", "build_type", "inner_ver"]

/-- The first statement of `getDbVersionV1`. -/
def v1PosQuery : String :=
  "SELECT /*+DM_EXPORTER*/ position('BUILD_VERSION', to_char(TABLEDEF('SYS', 'V$INSTANCE'))) POS FROM dual"

/-- The second statement of `getDbVersionV1`, chosen by `pos > 0`. -/
def v1VersionQuery (pos : Int) : String :=
  if pos > 0 then
    "SELECT /*+DM_EXPORTER*/ svr_version || '-' || BUILD_VERSION VERSION FROM v$instance"
  else
    "SELECT /*+DM_EXPORTER*/ TOP 1 banner || ' ' || id_code VERSION FROM v$version WHERE banner LIKE 'DM Database Server%'"

/-- The boilerplate `targetStr` of `getDbVersionV1`. -/
def targetStr : String := "DM Database Server"

/-- The normalisation at the end of `getDbVersionV1`: newlines removed, then,
only when the boilerplate occurs, the boilerplate removed and the rest trimmed. -/
def normalizeV1 (raw : String) : String :=
  let dbVersion := stringsReplaceAll raw "\n" ""
  if stringsContains dbVersion targetStr then
    stringsTrimSpace (stringsReplaceAll dbVersion targetStr "")
  else dbVersion

/-- `DbVersionCollector.getDbVersionV2`: the row or the error, and the statement issued. -/
def getDbVersionV2 (pkg : Pkg) (db : VersionDb) : Except DbError DbVersionInfo × List String :=
  (db.v2, [pkg.QueryVersionInfoSqlStr])

/-- `DbVersionCollector.getDbVersionV1`: the version string or the error
(`query error: ...`), and the statements issued. -/
def getDbVersionV1 (db : VersionDb) : Except DbError String × List String :=
  match db.pos with
  | .error e => (.error e, [v1PosQuery])
  | .ok pos =>
    let query := v1VersionQuery pos
    match db.version query with
    | .error e => (.error e, [v1PosQuery, query])
    | .ok dbVersion => (.ok (normalizeV1 dbVersion), [v1PosQuery, query])

/-- The cache value `Collect` writes for a V1 result: `fmt.Sprintf("%s||", dbVersion)`. -/
def cacheValueV1 (dbVersion : String) : String :=
  dbVersion ++ "||"

/-- The cache value `Collect` writes for a V2 result: `fmt.Sprintf("%s|%s|%s", ...)`
over the coerced fields. -/
def cacheValueV2 (versionInfo : DbVersionInfo) : String :=
  NullStringToString versionInfo.idCode ++ "|" ++
    NullStringToString versionInfo.buildType ++ "|" ++
    NullStringToString versionInfo.innerVer

/-- The cache check at the top of `DbVersionCollector.Collect`: `some r` when
the cached branch is taken and the cycle returns there (a stored value that
splits into exactly three parts), `none` when the cycle goes on to the database. -/
def DbVersionCollector.cached (pkg : Pkg) (cache : Cache) (now : Int) :
    Option (Option Cycle) :=
  match GetFromCache cache now "db_version_info" with
  | some cachedValue =>
    match stringsSplit cachedValue '|' with
    | [p0, p1, p2] =>
      some ((MustNewConstMetric versionInfoDesc ValueType.GaugeValue Float64.one
        [pkg.Hostname, p0, p1, p2]).map (fun m => ⟨[m], [], cache⟩))
    | _ => none
  | none => none

/-- `DbVersionCollector.Collect`. -/
def DbVersionCollector.Collect (pkg : Pkg) (config : Config) (db : VersionDb)
    (cache : Cache) (now : Int) : Option Cycle :=
  let cacheKey := "db_version_info"
  match DbVersionCollector.cached pkg cache now with
  | some r => r
  | none =>
    match getDbVersionV2 pkg db with
    | (.error _, q2) =>
      match getDbVersionV1 db with
      | (.error _, q1) => some ⟨[], q2 ++ q1, cache⟩
      | (.ok dbVersion, q1) =>
        let cacheValue := cacheValueV1 dbVersion
        let cache1 := SetCache cache now cacheKey cacheValue
          (durationMul timeMinute config.BigKeyDataCacheTime)
        (MustNewConstMetric versionInfoDesc ValueType.GaugeValue Float64.one
          [pkg.Hostname, dbVersion, "", ""]).map (fun m => ⟨[m], q2 ++ q1, cache1⟩)
    | (.ok versionInfo, q2) =>
      let cacheValue := cacheValueV2 versionInfo
      let cache1 := SetCache cache now cacheKey cacheValue
        (durationMul timeMinute config.BigKeyDataCacheTime)
      (MustNewConstMetric versionInfoDesc ValueType.GaugeValue Float64.one
        [pkg.Hostname, NullStringToString versionInfo.idCode,
          NullStringToString versionInfo.buildType,
          NullStringToString versionInfo.innerVer]).map (fun m => ⟨[m], q2, cache1⟩)

/-! ## encoding/json -/

/-- What `json.Unmarshal(data, &rows)` leaves behind: no error and the decoded
rows, or an error together with whatever the decoder had already written into
the slice variable. -/
inductive Unmarshaled (α : Type) where
  | ok (rows : List α)
  | error (leftover : List α)
deriving DecidableEq

/-- The `encoding/json` functions at one row type: `Marshal` of a slice (`none`
is a marshal error) and `Unmarshal` into a slice variable. -/
structure JsonCodec (α : Type) where
  Marshal : List α → Option String
  Unmarshal : String → Unmarshaled α

/-- The rows a scanning loop appends: those whose `Scan` succeeded, in order
(`continue` on a scan error). -/
def scannedRows {α : Type} : List (Except DbError α) → List α
  | [] => []
  | .ok info :: rest => info :: scannedRows rest
  | .error _ :: rest => scannedRows rest

/-! ## db_tablespace_info_collector.go -/

/-- Go struct `TableSpaceInfo`. -/
structure TableSpaceInfo where
  TablespaceName : String
  TotalSize : Float64
  FreeSize : Float64
deriving DecidableEq, Repr

/-- Go struct `TableSpaceInfoCollector` (the two descriptors). -/
structure TableSpaceInfoCollector where
  totalDesc : Desc
  freeDesc : Desc

/-- `NewTableSpaceInfoCollector`. -/
def NewTableSpaceInfoCollector : TableSpaceInfoCollector where
  totalDesc := NewDesc dmdbms_tablespace_size_total_info "Tablespace info information"
    ["host_name", "tablespace_name"]
  freeDesc := NewDesc dmdbms_tablespace_size_free_info "Tablespace info information"
    ["host_name", "tablespace_name"]

/-- The emission loop of the cached branch of `TableSpaceInfoCollector.Collect`. -/
def TableSpaceInfoCollector.emitCached (c : TableSpaceInfoCollector) (pkg : Pkg) :
    List TableSpaceInfo → Option (List Metric)
  | [] => some []
  | info :: rest => do
    let total ← MustNewConstMetric c.totalDesc ValueType.GaugeValue info.TotalSize
      [pkg.Hostname, info.TablespaceName]
    let free ← MustNewConstMetric c.freeDesc ValueType.GaugeValue info.FreeSize
      [pkg.Hostname, info.TablespaceName]
    let more ← TableSpaceInfoCollector.emitCached c pkg rest
    pure (total :: free :: more)

/-- The emission loop after the query of `TableSpaceInfoCollector.Collect`. -/
def TableSpaceInfoCollector.emitQueried (c : TableSpaceInfoCollector) (pkg : Pkg) :
    List TableSpaceInfo → Option (List Metric)
  | [] => some []
  | info :: rest => do
    let total ← MustNewConstMetric c.totalDesc ValueType.GaugeValue info.TotalSize
      [pkg.Hostname, info.TablespaceName]
    let free ← MustNewConstMetric c.freeDesc ValueType.GaugeValue info.FreeSize
      [pkg.Hostname, info.TablespaceName]
    let more ← TableSpaceInfoCollector.emitQueried c pkg rest
    pure (total :: free :: more)

/-- `TableSpaceInfoCollector.Collect` from the query on; `tablespaceInfos` is the
slice variable as the cache check left it. -/
def TableSpaceInfoCollector.queryAndStore (c : TableSpaceInfoCollector) (pkg : Pkg)
    (config : Config) (json : JsonCodec TableSpaceInfo) (q : QueryOutcome TableSpaceInfo)
    (cache : Cache) (now : Int) (cacheKey : String) (tablespaceInfos : List TableSpaceInfo) :
    Option Cycle :=
  match q with
  | .error _ => some ⟨[], [pkg.QueryTablespaceInfoSqlStr], cache⟩
  | .ok rows =>
    let tablespaceInfos := tablespaceInfos ++ scannedRows rows.scanned
    (c.emitQueried pkg tablespaceInfos).map (fun ms =>
      match json.Marshal tablespaceInfos with
      | none => ⟨ms, [pkg.QueryTablespaceInfoSqlStr], cache⟩
      | some valueJSON =>
        ⟨ms, [pkg.QueryTablespaceInfoSqlStr],
          SetCache cache now cacheKey valueJSON
            (durationMul timeMinute config.BigKeyDataCacheTime)⟩)

/-- `TableSpaceInfoCollector.Collect`. -/
def TableSpaceInfoCollector.Collect (c : TableSpaceInfoCollector) (pkg : Pkg)
    (config : Config) (json : JsonCodec TableSpaceInfo) (q : QueryOutcome TableSpaceInfo)
    (cache : Cache) (now : Int) : Option Cycle :=
  let cacheKey := dmdbms_tablespace_size_total_info
  match GetFromCache cache now cacheKey with
  | some cachedJSON =>
    match json.Unmarshal cachedJSON with
    | .error leftover => c.queryAndStore pkg config json q cache now cacheKey leftover
    | .ok tablespaceInfos =>
      (c.emitCached pkg tablespaceInfos).map (fun ms => ⟨ms, [], cache⟩)
  | none => c.queryAndStore pkg config json q cache now cacheKey []

/-! ## db_tablespace_datafile_info_collector.go -/

/-- Go struct `TableSpaceDateFileInfo`. -/
structure TableSpaceDateFileInfo where
  Path : String
  TotalSize : Float64
  FreeSize : Float64
  AutoExtend : String
  NextSize : String
  MaxSize : String
deriving DecidableEq, Repr

/-- Go struct `TableSpaceDateFileInfoCollector` (the two descriptors). -/
structure TableSpaceDateFileInfoCollector where
  totalDesc : Desc
  freeDesc : Desc

/-- `NewTableSpaceDateFileInfoCollector`. -/
def NewTableSpaceDateFileInfoCollector : TableSpaceDateFileInfoCollector where
  totalDesc := NewDesc dmdbms_tablespace_file_total_info "Tablespace file information"
    ["host_name", "tablespace_name", "auto_extend", "next_size", "max_size"]
  freeDesc := NewDesc dmdbms_tablespace_file_free_info "Tablespace file information"
    ["host_name", "tablespace_name", "auto_extend", "next_size", "max_size"]

/-- The cache key of the data-file probe: `fmt.Sprintf("%s_%s", name)` with one
operand for two verbs, so the second verb prints as a missing operand. -/
def tablespaceFileCacheKey : String :=
  dmdbms_tablespace_file_total_info ++ "_%!s(MISSING)"

/-- The emission loop of the cached branch of `TableSpaceDateFileInfoCollector.Collect`. -/
def TableSpaceDateFileInfoCollector.emitCached (c : TableSpaceDateFileInfoCollector)
    (pkg : Pkg) : List TableSpaceDateFileInfo → Option (List Metric)
  | [] => some []
  | info :: rest => do
    let total ← MustNewConstMetric c.totalDesc ValueType.GaugeValue info.TotalSize
      [pkg.Hostname, info.Path, info.AutoExtend, info.NextSize, info.MaxSize]
    let free ← MustNewConstMetric c.freeDesc ValueType.GaugeValue info.FreeSize
      [pkg.Hostname, info.Path, info.AutoExtend, info.NextSize, info.MaxSize]
    let more ← TableSpaceDateFileInfoCollector.emitCached c pkg rest
    pure (total :: free :: more)

/-- The emission loop after the query of `TableSpaceDateFileInfoCollector.Collect`. -/
def TableSpaceDateFileInfoCollector.emitQueried (c : TableSpaceDateFileInfoCollector)
    (pkg : Pkg) : List TableSpaceDateFileInfo → Option (List Metric)
  | [] => some []
  | info :: rest => do
    let total ← MustNewConstMetric c.totalDesc ValueType.GaugeValue info.TotalSize
      [pkg.Hostname, info.Path, info.AutoExtend, info.NextSize, info.MaxSize]
    let free ← MustNewConstMetric c.freeDesc ValueType.GaugeValue info.FreeSize
      [pkg.Hostname, info.Path, info.AutoExtend, info.NextSize, info.MaxSize]
    let more ← TableSpaceDateFileInfoCollector.emitQueried c pkg rest
    pure (total :: free :: more)

/-- `TableSpaceDateFileInfoCollector.Collect` from the query on; `tablespaceInfos`
is the slice variable as the cache check left it. -/
def TableSpaceDateFileInfoCollector.queryAndStore (c : TableSpaceDateFileInfoCollector)
    (pkg : Pkg) (config : Config) (json : JsonCodec TableSpaceDateFileInfo)
    (q : QueryOutcome TableSpaceDateFileInfo) (cache : Cache) (now : Int)
    (cacheKey : String) (tablespaceInfos : List TableSpaceDateFileInfo) : Option Cycle :=
  match q with
  | .error _ => some ⟨[], [pkg.QueryTablespaceFileSqlStr], cache⟩
  | .ok rows =>
    let tablespaceInfos := tablespaceInfos ++ scannedRows rows.scanned
    (c.emitQueried pkg tablespaceInfos).map (fun ms =>
      match json.Marshal tablespaceInfos with
      | none => ⟨ms, [pkg.QueryTablespaceFileSqlStr], cache⟩
      | some valueJSON =>
        ⟨ms, [pkg.QueryTablespaceFileSqlStr],
          SetCache cache now cacheKey valueJSON
            (durationMul timeMinute config.BigKeyDataCacheTime)⟩)

/-- `TableSpaceDateFileInfoCollector.Collect`. -/
def TableSpaceDateFileInfoCollector.Collect (c : TableSpaceDateFileInfoCollector)
    (pkg : Pkg) (config : Config) (json : JsonCodec TableSpaceDateFileInfo)
    (q : QueryOutcome TableSpaceDateFileInfo) (cache : Cache) (now : Int) : Option Cycle :=
  let cacheKey := tablespaceFileCacheKey
  match GetFromCache cache now cacheKey with
  | some cachedJSON =>
    match json.Unmarshal cachedJSON with
    | .error leftover => c.queryAndStore pkg config json q cache now cacheKey leftover
    | .ok tablespaceInfos =>
      (c.emitCached pkg tablespaceInfos).map (fun ms => ⟨ms, [], cache⟩)
  | none => c.queryAndStore pkg config json q cache now cacheKey []

/-! ## Contexts, issued statements, `sync.Once` -/

/-- A Go `context.Context` as the probes build it: `context.Background()`, which
carries no deadline, or `context.WithTimeout(context.Background(), d)`. -/
inductive Context where
  | Background
  | WithTimeout (timeout : Int)
deriving DecidableEq, Repr

/-- Whether a context carries a deadline. -/
def Context.hasDeadline : Context → Bool
  | .Background => false
  | .WithTimeout _ => true

/-- A statement sent to the database: the context it runs under and its SQL text. -/
structure Issued where
  ctx : Context
  sql : String
deriving DecidableEq, Repr

/-- Go `sync.Once`: whether `Do` has already run its function. -/
structure Once where
  done : Bool
deriving DecidableEq, Repr

/-- Go `time.Second`, in nanoseconds. -/
def timeSecond : Int := 1000000000

/-- Go's `sql.NullInt64`. -/
structure NullInt64 where
  Int64 : Int
  Valid : Bool
deriving DecidableEq, Repr

/-- Names the probes below use that are declared outside the files at hand: the
SQL text constants, and Go's conversion `float64(n)` of an integer. -/
structure SqlText where
  float64 : Int → Float64
  QueryDualInfoSql : String
  QueryArchiveSendStatusSql : String
  QueryArchiveSwitchRateSql : String
  QueryArchSendInfoFieldsExist : String
  QueryArchApplyInfoExists : String
  QueryArchSendDetailInfo : String
  QueryArchSendDetailInfo2 : String
  QueryDbJobRunningInfoSqlStr : String
  QueryBufferPoolHitRateInfoSql : String
  QueryMonitorInfoSqlStr : String

/-- Modelled from the spec: `NullInt64ToFloat64` is declared outside the files at
hand; section 4.1 gives nullable integers the null policy of floats, invalid to
0.0 and valid to the underlying value (converted to `float64`). -/
def NullInt64ToFloat64 (sql : SqlText) (ni : NullInt64) : Float64 :=
  if ni.Valid then sql.float64 ni.Int64 else Float64.zero

/-- What a probe of this part produces in one cycle: the samples sent and the
statements issued, each with its context. -/
structure Probed where
  metrics : List Metric
  issued : List Issued
deriving DecidableEq, Repr

def dmdbms_dual_info : String := "dmdbms_dual_info"
def dmdbms_bufferpool_info : String := "dmdbms_bufferpool_info"
def dmdbms_joblog_error_num : String := "dmdbms_joblog_error_num"
def dmdbms_monitor_info : String := "dmdbms_monitor_info"
def dmdbms_arch_switch_rate : String := "dmdbms_arch_switch_rate"
def dmdbms_arch_switch_rate_detail_info : String := "dmdbms_arch_switch_rate_detail_info"
def dmdbms_arch_status_info : String := "dmdbms_arch_status_info"
def dmdbms_arch_status : String := "dmdbms_arch_status"
def dmdbms_arch_send_detail_info : String := "dmdbms_arch_send_detail_info"
def dmdbms_arch_send_diff_value : String := "dmdbms_arch_send_diff_value"

/-! ## db_dual_info_collector.go -/

/-- Go constant `DB_DUAL_FAILUR = 0`, used as a `float64`. -/
def DB_DUAL_FAILUR : Float64 := Float64.zero

/-- `NewDbDualCollector`: the descriptor, with no labels. -/
def dualInfoDesc : Desc :=
  NewDesc dmdbms_dual_info
    "Information about DM database query dual table info,return false is 0, true is 1" []

/-- `DbDualInfoCollector.QueryDualInfo`: the value of the first row, or
`DB_DUAL_FAILUR` when the query fails or the scan fails (`rows.Next()` is called
once and its result is not looked at, so with no row the scan fails). -/
def DbDualInfoCollector.QueryDualInfo (sql : SqlText) (ctx : Context)
    (q : QueryOutcome Float64) : Float64 × List Issued :=
  match q with
  | .error _ => (DB_DUAL_FAILUR, [⟨ctx, sql.QueryDualInfoSql⟩])
  | .ok rows =>
    match rows.scanned.head? with
    | some (.ok dualValue) => (dualValue, [⟨ctx, sql.QueryDualInfoSql⟩])
    | _ => (DB_DUAL_FAILUR, [⟨ctx, sql.QueryDualInfoSql⟩])

/-- `DbDualInfoCollector.Collect`. -/
def DbDualInfoCollector.Collect (sql : SqlText) (config : Config)
    (q : QueryOutcome Float64) : Option Probed :=
  let ctx := Context.WithTimeout config.QueryTimeout
  let (dualValue, issued) := DbDualInfoCollector.QueryDualInfo sql ctx q
  (MustNewConstMetric dualInfoDesc ValueType.GaugeValue dualValue []).map
    (fun m => ⟨[m], issued⟩)

/-! ## db_buffer_pool_info_collector.go -/

/-- Go struct `BufferPoolInfo`. -/
structure BufferPoolInfo where
  bufferName : NullString
  hitRate : NullFloat64
deriving DecidableEq, Repr

/-- `NewDbBufferPoolCollector`: the descriptor. -/
def bufferPoolInfoDesc : Desc :=
  NewDesc dmdbms_bufferpool_info "Information about DM database bufferpool return hitRate"
    ["buffer_name"]

/-- The emission loop of `DbBufferPoolInfoCollector.Collect`. -/
def DbBufferPoolInfoCollector.emit : List BufferPoolInfo → Option (List Metric)
  | [] => some []
  | info :: rest => do
    let bufferName := NullStringToString info.bufferName
    let hitRate := NullFloat64ToFloat64 info.hitRate
    let m ← MustNewConstMetric bufferPoolInfoDesc ValueType.GaugeValue hitRate [bufferName]
    let more ← DbBufferPoolInfoCollector.emit rest
    pure (m :: more)

/-- `DbBufferPoolInfoCollector.Collect`: a query error ends the cycle; a row that
fails to scan is skipped; `rows.Err()` is only logged. -/
def DbBufferPoolInfoCollector.Collect (sql : SqlText) (config : Config)
    (q : QueryOutcome BufferPoolInfo) : Option Probed :=
  let ctx := Context.WithTimeout config.QueryTimeout
  match q with
  | .error _ => some ⟨[], [⟨ctx, sql.QueryBufferPoolHitRateInfoSql⟩]⟩
  | .ok rows =>
    let bufferPoolInfos := scannedRows rows.scanned
    (DbBufferPoolInfoCollector.emit bufferPoolInfos).map
      (fun ms => ⟨ms, [⟨ctx, sql.QueryBufferPoolHitRateInfoSql⟩]⟩)

/-! ## db_job_running_info_collector.go -/

/-- Go struct `ErrorCountInfo`. -/
structure ErrorCountInfo where
  ErrorNum : NullInt64
deriving DecidableEq, Repr

/-- `NewDbJobRunningInfoCollector`: the descriptor. -/
def jobErrorNumDesc : Desc :=
  NewDesc dmdbms_joblog_error_num "dmdbms_joblog_error_num info information" ["host_name"]

/-- `DbJobRunningInfoCollector.Collect`: a query error ends the cycle (with a
warning when its text names `SYSJOB`, with the error log otherwise); a scan
error of the first row ends the cycle; `rows.Err()` is only logged; with no row
the zero-valued `errorCountInfo` is emitted. -/
def DbJobRunningInfoCollector.Collect (pkg : Pkg) (sql : SqlText) (config : Config)
    (q : QueryOutcome ErrorCountInfo) : Option Probed :=
  let ctx := Context.WithTimeout config.QueryTimeout
  match q with
  | .error _ => some ⟨[], [⟨ctx, sql.QueryDbJobRunningInfoSqlStr⟩]⟩
  | .ok rows =>
    match rows.scanned.head? with
    | some (.error _) => some ⟨[], [⟨ctx, sql.QueryDbJobRunningInfoSqlStr⟩]⟩
    | first =>
      let errorCountInfo : ErrorCountInfo :=
        match first with
        | some (.ok i) => i
        | _ => ⟨⟨0, false⟩⟩
      (MustNewConstMetric jobErrorNumDesc ValueType.GaugeValue
        (NullInt64ToFloat64 sql errorCountInfo.ErrorNum) [pkg.Hostname]).map
        (fun m => ⟨[m], [⟨ctx, sql.QueryDbJobRunningInfoSqlStr⟩]⟩)

/-! ## db_monitor_info_collector.go -/

/-- Go struct `MonitorInfo`. -/
structure MonitorInfo where
  DwConnTime : NullString
  MonConfirm : NullString
  MonId : NullString
  MonIp : NullString
  MonVersion : NullString
  Mid : NullFloat64
deriving DecidableEq, Repr

/-- The mutable fields of Go struct `MonitorInfoCollector`. -/
structure MonitorInfoCollector where
  viewExists : Bool
  viewCheckOnce : Once
  viewChecked : Bool
deriving DecidableEq, Repr

/-- `NewMonitorInfoCollector`: the descriptor. -/
def monitorInfoDesc : Desc :=
  NewDesc dmdbms_monitor_info "Information about DM monitor"
    ["host_name", "dw_conn_time", "mon_confirm", "mon_id", "mon_ip", "mon_version"]

/-- `NewMonitorInfoCollector`: the fields as constructed. -/
def NewMonitorInfoCollector : MonitorInfoCollector :=
  ⟨true, ⟨false⟩, false⟩

/-- The detection statement of `checkDmMonitorExists`. -/
def dmMonitorExistsQuery : String :=
  "SELECT COUNT(1) FROM V$DYNAMIC_TABLES WHERE NAME = 'V$DMMONITOR'"

/-- The statement `c.viewCheckOnce.Do(func() ...)` of `checkDmMonitorExists`: when
the once has not run, the detection query is issued and `viewChecked` is set
to `false` on an error and to `count == 1` otherwise. -/
def MonitorInfoCollector.viewCheckDo (c : MonitorInfoCollector) (ctx : Context)
    (answer : Except DbError Int) : MonitorInfoCollector × List Issued :=
  if c.viewCheckOnce.done then (c, [])
  else
    match answer with
    | .error _ =>
      ({ c with viewChecked := false, viewCheckOnce := ⟨true⟩ }, [⟨ctx, dmMonitorExistsQuery⟩])
    | .ok count =>
      ({ c with viewChecked := decide (count = 1), viewCheckOnce := ⟨true⟩ },
        [⟨ctx, dmMonitorExistsQuery⟩])

/-- `MonitorInfoCollector.checkDmMonitorExists`: the once, then `return c.viewChecked`. -/
def MonitorInfoCollector.checkDmMonitorExists (c : MonitorInfoCollector) (ctx : Context)
    (answer : Except DbError Int) : Bool × MonitorInfoCollector × List Issued :=
  let (c1, issued) := c.viewCheckDo ctx answer
  (c1.viewChecked, c1, issued)

/-- What the database answers to the statements of the monitor probe. -/
structure MonitorDb where
  exists_ : Except DbError Int
  info : QueryOutcome MonitorInfo

/-- The emission loop of `MonitorInfoCollector.Collect`. -/
def MonitorInfoCollector.emit (pkg : Pkg) : List MonitorInfo → Option (List Metric)
  | [] => some []
  | info :: rest => do
    let dwConnTime := NullStringToString info.DwConnTime
    let monConfirm := NullStringToString info.MonConfirm
    let monId := NullStringToString info.MonId
    let monIp := NullStringToString info.MonIp
    let monVersion := NullStringToString info.MonVersion
    let m ← MustNewConstMetric monitorInfoDesc ValueType.GaugeValue
      (NullFloat64ToFloat64 info.Mid)
      [pkg.Hostname, dwConnTime, monConfirm, monId, monIp, monVersion]
    let more ← MonitorInfoCollector.emit pkg rest
    pure (m :: more)

/-- `MonitorInfoCollector.Collect`: the collector after the cycle and what the
cycle produced. -/
def MonitorInfoCollector.Collect (c : MonitorInfoCollector) (pkg : Pkg) (sql : SqlText)
    (config : Config) (db : MonitorDb) : Option (MonitorInfoCollector × Probed) :=
  let ctx := Context.WithTimeout config.QueryTimeout
  match c.checkDmMonitorExists ctx db.exists_ with
  | (false, c1, issued) => some (c1, ⟨[], issued⟩)
  | (true, c1, issued) =>
    match db.info with
    | .error _ => some (c1, ⟨[], issued ++ [⟨ctx, sql.QueryMonitorInfoSqlStr⟩]⟩)
    | .ok rows =>
      let monitorInfos := scannedRows rows.scanned
      (MonitorInfoCollector.emit pkg monitorInfos).map
        (fun ms => (c1, ⟨ms, issued ++ [⟨ctx, sql.QueryMonitorInfoSqlStr⟩]⟩))

/-! ## db_arch_status_info_collector.go -/

def DB_ARCH_NO_ENABLE : Int := -1
def DB_ARCH_VALID : Int := 1
def DB_ARCH_INVALID : Int := 2

/-- Go struct `DbArchStatusInfo`. -/
structure DbArchStatusInfo where
  archType : NullString
  archDest : NullString
  archSrc : NullString
  archStatus : NullFloat64
deriving DecidableEq, Repr

/-- `NewDbArchStatusCollector`: descriptor `archStatusInfo`. -/
def archStatusInfo : Desc :=
  NewDesc dmdbms_arch_status_info
    "Information about DM database archive status, value info: vaild = 1,invaild = 0"
    ["arch_type", "arch_dest", "arch_src"]

/-- `NewDbArchStatusCollector`: descriptor `archStatusDesc`. -/
def archStatusDesc : Desc :=
  NewDesc dmdbms_arch_status "Information about DM database archive status" ["host_name"]

/-- What the database answers to the archive-status probe: the ping, the
`ARCH_INI` row, the `LOCAL` archive status row, and the status-info query. -/
structure ArchStatusDb where
  ping : Option DbError
  archIni : Except DbError String
  archStatus : Except DbError String
  statusInfo : QueryOutcome DbArchStatusInfo

/-- The first statement of `getDbArchStatus`. -/
def archStatusIniQuery : String :=
  "select /*+DMDB_CHECK_FLAG*/ PARA_VALUE from v$dm_ini where para_name='ARCH_INI'"

/-- The second statement of `getDbArchStatus`. -/
def archStatusLocalQuery : String :=
  "select /*+DMDB_CHECK_FLAG*/ case arch_status when 'VALID' then 1 when 'INVALID' then 0 end ARCH_STATUS from v$arch_status where arch_type='LOCAL'"

/-- `setArchMetric`. -/
def setArchMetric (pkg : Pkg) (sql : SqlText) (desc : Desc) (value : Int) : Option Metric :=
  let hostname := pkg.Hostname
  MustNewConstMetric desc ValueType.GaugeValue (sql.float64 value) [hostname]

/-- `getDbArchStatus`: the status code, the error if any, the statements issued. -/
def getDbArchStatus (ctx : Context) (db : ArchStatusDb) :
    (Int × Option DbError) × List Issued :=
  match db.archIni with
  | .error e => ((DB_ARCH_INVALID, some e), [⟨ctx, archStatusIniQuery⟩])
  | .ok dbArchStatus =>
    if dbArchStatus = "1" then
      match db.archStatus with
      | .error e =>
        ((DB_ARCH_INVALID, some e), [⟨ctx, archStatusIniQuery⟩, ⟨ctx, archStatusLocalQuery⟩])
      | .ok dbArchStatus =>
        if dbArchStatus = "1" then
          ((DB_ARCH_VALID, none), [⟨ctx, archStatusIniQuery⟩, ⟨ctx, archStatusLocalQuery⟩])
        else if dbArchStatus = "0" then
          ((DB_ARCH_INVALID, none), [⟨ctx, archStatusIniQuery⟩, ⟨ctx, archStatusLocalQuery⟩])
        else
          ((DB_ARCH_INVALID, none), [⟨ctx, archStatusIniQuery⟩, ⟨ctx, archStatusLocalQuery⟩])
    else if dbArchStatus = "0" then
      ((DB_ARCH_NO_ENABLE, none), [⟨ctx, archStatusIniQuery⟩])
    else
      ((DB_ARCH_INVALID, none), [⟨ctx, archStatusIniQuery⟩])

/-- `DbArchStatusCollector.getDbArchStatusInfo`: the scanned rows or the query error. -/
def getDbArchStatusInfo (sql : SqlText) (ctx : Context) (db : ArchStatusDb) :
    Except DbError (List DbArchStatusInfo) × List Issued :=
  match db.statusInfo with
  | .error e => (.error e, [⟨ctx, sql.QueryArchiveSendStatusSql⟩])
  | .ok rows => (.ok (scannedRows rows.scanned), [⟨ctx, sql.QueryArchiveSendStatusSql⟩])

/-- The emission loop of `DbArchStatusCollector.Collect`. -/
def DbArchStatusCollector.emit : List DbArchStatusInfo → Option (List Metric)
  | [] => some []
  | dbArchStatusInfo :: rest => do
    let archType := NullStringToString dbArchStatusInfo.archType
    let archDest := NullStringToString dbArchStatusInfo.archDest
    let archSrc := NullStringToString dbArchStatusInfo.archSrc
    let archStatus := NullFloat64ToFloat64 dbArchStatusInfo.archStatus
    let m ← MustNewConstMetric archStatusInfo ValueType.GaugeValue archStatus
      [archType, archDest, archSrc]
    let more ← DbArchStatusCollector.emit rest
    pure (m :: more)

/-- `DbArchStatusCollector.Collect`. -/
def DbArchStatusCollector.Collect (pkg : Pkg) (sql : SqlText) (config : Config)
    (db : ArchStatusDb) : Option Probed :=
  match db.ping with
  | some _ => some ⟨[], []⟩
  | none =>
    let ctx := Context.WithTimeout config.QueryTimeout
    match getDbArchStatus ctx db with
    | ((_, some _), issued) =>
      (setArchMetric pkg sql archStatusDesc DB_ARCH_INVALID).map (fun m => ⟨[m], issued⟩)
    | ((dbArchStatus, none), issued) =>
      (setArchMetric pkg sql archStatusDesc dbArchStatus).bind (fun m =>
        if dbArchStatus = DB_ARCH_VALID then
          match getDbArchStatusInfo sql ctx db with
          | (.error _, issued1) => some ⟨[m], issued ++ issued1⟩
          | (.ok dbArchStatusInfos, issued1) =>
            (DbArchStatusCollector.emit dbArchStatusInfos).map
              (fun ms => ⟨m :: ms, issued ++ issued1⟩)
        else some ⟨[m], issued⟩)

/-! ## The archive-enabled precondition (db_arch_switch_collector.go, db_arch_send_collector.go) -/

/-- The first statement of both `isArchiveEnabled` methods. -/
def archIniQuery : String :=
  "SELECT /*+DMDB_CHECK_FLAG*/ PARA_VALUE FROM v$dm_ini WHERE para_name='ARCH_INI'"

/-- The second statement of both `isArchiveEnabled` methods. -/
def archValidQuery : String :=
  "SELECT /*+DMDB_CHECK_FLAG*/ CASE arch_status WHEN 'VALID' THEN '1' WHEN 'INVALID' THEN '0' END FROM v$arch_status WHERE arch_type='LOCAL'"

/-- What the database answers to the two precondition statements. -/
structure ArchEnabledDb where
  archIni : Except DbError String
  archStatus : Except DbError String

/-! ## db_arch_switch_collector.go -/

/-- Go struct `DbArchSwitchRateInfo`. -/
structure DbArchSwitchRateInfo where
  minusDiff : NullFloat64
deriving DecidableEq, Repr

/-- `NewDbArchSwitchCollector`: descriptor `archSwitchRateDesc`, with no labels. -/
def archSwitchRateDesc : Desc :=
  NewDesc dmdbms_arch_switch_rate
    "Information about DM database archive switch rate，Always output the most recent piece of data"
    []

/-- `NewDbArchSwitchCollector`: descriptor `archSwitchRateDetailInfo`, with no labels. -/
def archSwitchRateDetailInfo : Desc :=
  NewDesc dmdbms_arch_switch_rate_detail_info
    "Information about DM database archive switch rate info, return MAX_SEND_LSN - LAST_SEND_LSN = diffValue"
    []

/-- `DbArchSwitchCollector.isArchiveEnabled`: the first statement runs under
`context.Background()`, the second under the context passed in. -/
def DbArchSwitchCollector.isArchiveEnabled (ctx : Context) (db : ArchEnabledDb) :
    Bool × List Issued :=
  match db.archIni with
  | .error _ => (false, [⟨Context.Background, archIniQuery⟩])
  | .ok paraValue =>
    if paraValue ≠ "1" then (false, [⟨Context.Background, archIniQuery⟩])
    else
      match db.archStatus with
      | .error _ => (false, [⟨Context.Background, archIniQuery⟩, ⟨ctx, archValidQuery⟩])
      | .ok archStatus =>
        (decide (archStatus = "1"), [⟨Context.Background, archIniQuery⟩, ⟨ctx, archValidQuery⟩])

/-- `DbArchSwitchCollector.getDbArchSwitchRate`: a query error or a scan error of
the first row is returned as the error; with no row the zero value is returned. -/
def DbArchSwitchCollector.getDbArchSwitchRate (sql : SqlText) (ctx : Context)
    (q : QueryOutcome DbArchSwitchRateInfo) :
    Except DbError DbArchSwitchRateInfo × List Issued :=
  match q with
  | .error e => (.error e, [⟨ctx, sql.QueryArchiveSwitchRateSql⟩])
  | .ok rows =>
    match rows.scanned.head? with
    | some (.error e) => (.error e, [⟨ctx, sql.QueryArchiveSwitchRateSql⟩])
    | some (.ok info) => (.ok info, [⟨ctx, sql.QueryArchiveSwitchRateSql⟩])
    | none => (.ok ⟨⟨Float64.zero, false⟩⟩, [⟨ctx, sql.QueryArchiveSwitchRateSql⟩])

/-- `DbArchSwitchCollector.Collect`. -/
def DbArchSwitchCollector.Collect (sql : SqlText) (config : Config) (db : ArchEnabledDb)
    (q : QueryOutcome DbArchSwitchRateInfo) : Option Probed :=
  let ctx := Context.WithTimeout (durationMul config.QueryTimeout timeSecond)
  match DbArchSwitchCollector.isArchiveEnabled ctx db with
  | (false, issued) =>
    (MustNewConstMetric archSwitchRateDesc ValueType.GaugeValue Float64.zero []).map
      (fun m => ⟨[m], issued⟩)
  | (true, issued) =>
    match DbArchSwitchCollector.getDbArchSwitchRate sql ctx q with
    | (.error _, issued1) => some ⟨[], issued ++ issued1⟩
    | (.ok dbArchSwitchRateInfo, issued1) => do
      let minusDiff := NullFloat64ToFloat64 dbArchSwitchRateInfo.minusDiff
      let rate ← MustNewConstMetric archSwitchRateDesc ValueType.GaugeValue minusDiff []
      let detail ← MustNewConstMetric archSwitchRateDetailInfo ValueType.GaugeValue minusDiff []
      pure ⟨[rate, detail], issued ++ issued1⟩

/-! ## db_arch_send_collector.go -/

/-- Go struct `DbArchSendDetailInfo`. -/
structure DbArchSendDetailInfo where
  archDest : NullString
  archType : NullString
  lsnDiff : NullFloat64
deriving DecidableEq, Repr

/-- The mutable fields of Go struct `DbArchSendCollector`. -/
structure DbArchSendCollector where
  archSendFieldsCheckOnce : Once
  archSendFieldsExist : Bool
  archApplyInfoCheckOnce : Once
  archApplyInfoExists : Bool
deriving DecidableEq, Repr

/-- `NewDbArchSendCollector`: the fields as constructed. -/
def NewDbArchSendCollector : DbArchSendCollector :=
  ⟨⟨false⟩, false, ⟨false⟩, false⟩

/-- `NewDbArchSendCollector`: descriptor `archSendDetailInfo`. -/
def archSendDetailInfo : Desc :=
  NewDesc dmdbms_arch_send_detail_info
    "Information about DM database archive send detail info, return MAX_SEND_LSN - LAST_SEND_LSN = diffValue"
    ["arch_type", "arch_dest"]

/-- `NewDbArchSendCollector`: descriptor `archSendDiffValue`. -/
def archSendDiffValue : Desc :=
  NewDesc dmdbms_arch_send_diff_value
    "Information about DM database archive send diff value, return MAX_SEND_LSN - LAST_SEND_LSN = diffValue"
    ["arch_type", "arch_dest"]

/-- What the database answers to the statements of the archive-send probe. -/
structure ArchSendDb where
  enabled : ArchEnabledDb
  applyInfoExists : Except DbError Int
  sendFieldsExist : Except DbError Int
  detail : String → QueryOutcome DbArchSendDetailInfo

/-- `DbArchSendCollector.isArchiveEnabled`: both statements run under the context
passed in. -/
def DbArchSendCollector.isArchiveEnabled (ctx : Context) (db : ArchEnabledDb) :
    Bool × List Issued :=
  match db.archIni with
  | .error _ => (false, [⟨ctx, archIniQuery⟩])
  | .ok paraValue =>
    if paraValue ≠ "1" then (false, [⟨ctx, archIniQuery⟩])
    else
      match db.archStatus with
      | .error _ => (false, [⟨ctx, archIniQuery⟩, ⟨ctx, archValidQuery⟩])
      | .ok archStatus =>
        (decide (archStatus = "1"), [⟨ctx, archIniQuery⟩, ⟨ctx, archValidQuery⟩])

/-- The statement `c.archSendFieldsCheckOnce.Do(func() ...)` of
`checkArchSendInfoFields`: `archSendFieldsExist` is set to `false` on an error
and to `count == 2` otherwise. -/
def DbArchSendCollector.archSendFieldsCheckDo (c : DbArchSendCollector) (sql : SqlText)
    (ctx : Context) (answer : Except DbError Int) : DbArchSendCollector × List Issued :=
  if c.archSendFieldsCheckOnce.done then (c, [])
  else
    match answer with
    | .error _ =>
      ({ c with archSendFieldsExist := false, archSendFieldsCheckOnce := ⟨true⟩ },
        [⟨ctx, sql.QueryArchSendInfoFieldsExist⟩])
    | .ok count =>
      ({ c with archSendFieldsExist := decide (count = 2), archSendFieldsCheckOnce := ⟨true⟩ },
        [⟨ctx, sql.QueryArchSendInfoFieldsExist⟩])

/-- `DbArchSendCollector.checkArchSendInfoFields`: the once, then
`return c.archSendFieldsExist`. -/
def DbArchSendCollector.checkArchSendInfoFields (c : DbArchSendCollector) (sql : SqlText)
    (ctx : Context) (answer : Except DbError Int) :
    Bool × DbArchSendCollector × List Issued :=
  let (c1, issued) := c.archSendFieldsCheckDo sql ctx answer
  (c1.archSendFieldsExist, c1, issued)

/-- The statement `c.archApplyInfoCheckOnce.Do(func() ...)` of
`checkArchApplyInfoExists`: `archApplyInfoExists` is set to `false` on an error
and to `count == 1` otherwise. -/
def DbArchSendCollector.archApplyInfoCheckDo (c : DbArchSendCollector) (sql : SqlText)
    (ctx : Context) (answer : Except DbError Int) : DbArchSendCollector × List Issued :=
  if c.archApplyInfoCheckOnce.done then (c, [])
  else
    match answer with
    | .error _ =>
      ({ c with archApplyInfoExists := false, archApplyInfoCheckOnce := ⟨true⟩ },
        [⟨ctx, sql.QueryArchApplyInfoExists⟩])
    | .ok count =>
      ({ c with archApplyInfoExists := decide (count = 1), archApplyInfoCheckOnce := ⟨true⟩ },
        [⟨ctx, sql.QueryArchApplyInfoExists⟩])

/-- `DbArchSendCollector.checkArchApplyInfoExists`: the once, then
`return c.archApplyInfoExists`. -/
def DbArchSendCollector.checkArchApplyInfoExists (c : DbArchSendCollector) (sql : SqlText)
    (ctx : Context) (answer : Except DbError Int) :
    Bool × DbArchSendCollector × List Issued :=
  let (c1, issued) := c.archApplyInfoCheckDo sql ctx answer
  (c1.archApplyInfoExists, c1, issued)

/-- `DbArchSendCollector.getDbArchSendDetailInfo`: the SQL variant is chosen by
the two capability checks, then the query runs; a row that fails to scan is
skipped and `rows.Err()` is only logged. -/
def DbArchSendCollector.getDbArchSendDetailInfo (c : DbArchSendCollector) (sql : SqlText)
    (ctx : Context) (db : ArchSendDb) :
    Except DbError (List DbArchSendDetailInfo) × DbArchSendCollector × List Issued :=
  let (applyExists, c1, issued1) := c.checkArchApplyInfoExists sql ctx db.applyInfoExists
  let querySql := if applyExists then sql.QueryArchSendDetailInfo2 else sql.QueryArchSendDetailInfo
  let (fieldsExist, c2, issued2) := c1.checkArchSendInfoFields sql ctx db.sendFieldsExist
  let querySql :=
    if !fieldsExist then
      stringsReplaceAll
        (stringsReplaceAll querySql "LAST_SEND_CODE," "'' AS LAST_SEND_CODE,")
        "LAST_SEND_DESC," "'' AS LAST_SEND_DESC,"
    else querySql
  match db.detail querySql with
  | .error e => (.error e, c2, issued1 ++ issued2 ++ [⟨ctx, querySql⟩])
  | .ok rows => (.ok (scannedRows rows.scanned), c2, issued1 ++ issued2 ++ [⟨ctx, querySql⟩])

/-- The emission loop of `DbArchSendCollector.Collect`. -/
def DbArchSendCollector.emit : List DbArchSendDetailInfo → Option (List Metric)
  | [] => some []
  | dbArchSendInfo :: rest => do
    let archType := NullStringToString dbArchSendInfo.archType
    let archDest := NullStringToString dbArchSendInfo.archDest
    let lsnDiff := NullFloat64ToFloat64 dbArchSendInfo.lsnDiff
    let detail ← MustNewConstMetric archSendDetailInfo ValueType.GaugeValue lsnDiff
      [archType, archDest]
    let diff ← MustNewConstMetric archSendDiffValue ValueType.GaugeValue lsnDiff
      [archType, archDest]
    let more ← DbArchSendCollector.emit rest
    pure (detail :: diff :: more)

/-- `DbArchSendCollector.Collect`: the precondition is called with
`context.Background()`, the detail query with the timeout context. -/
def DbArchSendCollector.Collect (c : DbArchSendCollector) (sql : SqlText) (config : Config)
    (db : ArchSendDb) : Option (DbArchSendCollector × Probed) :=
  let ctx := Context.WithTimeout (durationMul config.QueryTimeout timeSecond)
  match DbArchSendCollector.isArchiveEnabled Context.Background db.enabled with
  | (false, issued) => some (c, ⟨[], issued⟩)
  | (true, issued) =>
    match c.getDbArchSendDetailInfo sql ctx db with
    | (.error _, c1, issued1) => some (c1, ⟨[], issued ++ issued1⟩)
    | (.ok dbArchSendInfos, c1, issued1) =>
      (DbArchSendCollector.emit dbArchSendInfos).map
        (fun ms => (c1, ⟨ms, issued ++ issued1⟩))

/-! ## Calls of a capability check, in sequence and interleaved -/

/-- The results of calling one capability check of a collector repeatedly, one
call after the other: per call the boolean returned and the statements issued. -/
def callsInSequence {σ : Type}
    (check : σ → Context → Except DbError Int → Bool × σ × List Issued) (c : σ) :
    List (Context × Except DbError Int) → List (Bool × List Issued)
  | [] => []
  | (ctx, answer) :: later =>
    match check c ctx answer with
    | (b, c1, issued) => (b, issued) :: callsInSequence check c1 later

/-- Where one call of a capability check stands: not yet at the `Do`, past the
`Do` and before the `return`, or returned with its boolean. -/
inductive CallState where
  | notStarted
  | pastDo
  | returned (b : Bool)
deriving DecidableEq, Repr

/-- Concurrent calls of one capability check on one collector: the collector,
the state of every call, the statements issued so far. -/
structure Race (σ : Type) where
  collector : σ
  calls : Nat → CallState
  issued : List Issued

/-- All calls still ahead, nothing issued. -/
def Race.start {σ : Type} (c : σ) : Race σ :=
  ⟨c, fun _ => CallState.notStarted, []⟩

/-- One step of call `t`. `sync.Once.Do` runs the function at most once and
returns in every caller only after that run has completed, so the `Do`
statement of a call is one step (`doPart`); the `return` of the field is the
next step of that call (`readPart`). Call `t` runs under context `ctx t` and
the database would answer its detection query with `answer t`. -/
def Race.step {σ : Type} (doPart : σ → Context → Except DbError Int → σ × List Issued)
    (readPart : σ → Bool) (ctx : Nat → Context) (answer : Nat → Except DbError Int)
    (w : Race σ) (t : Nat) : Race σ :=
  match w.calls t with
  | .notStarted =>
    match doPart w.collector (ctx t) (answer t) with
    | (c1, issued) => ⟨c1, Function.update w.calls t CallState.pastDo, w.issued ++ issued⟩
  | .pastDo =>
    ⟨w.collector, Function.update w.calls t (CallState.returned (readPart w.collector)),
      w.issued⟩
  | .returned _ => w

/-- An interleaving: the calls take their steps in the order of the schedule. -/
def Race.run {σ : Type} (doPart : σ → Context → Except DbError Int → σ × List Issued)
    (readPart : σ → Bool) (ctx : Nat → Context) (answer : Nat → Except DbError Int)
    (w : Race σ) (schedule : List Nat) : Race σ :=
  schedule.foldl (Race.step doPart readPart ctx answer) w

/-- Interleaved calls of `checkDmMonitorExists` on a new collector. -/
def raceDmMonitorExists (ctx : Nat → Context) (answer : Nat → Except DbError Int)
    (schedule : List Nat) : Race MonitorInfoCollector :=
  Race.run (fun c => c.viewCheckDo) (fun c => c.viewChecked) ctx answer
    (Race.start NewMonitorInfoCollector) schedule

/-- Interleaved calls of `checkArchSendInfoFields` on a new collector. -/
def raceArchSendInfoFields (sql : SqlText) (ctx : Nat → Context)
    (answer : Nat → Except DbError Int) (schedule : List Nat) : Race DbArchSendCollector :=
  Race.run (fun c => c.archSendFieldsCheckDo sql) (fun c => c.archSendFieldsExist) ctx answer
    (Race.start NewDbArchSendCollector) schedule

/-- Interleaved calls of `checkArchApplyInfoExists` on a new collector. -/
def raceArchApplyInfoExists (sql : SqlText) (ctx : Nat → Context)
    (answer : Nat → Except DbError Int) (schedule : List Nat) : Race DbArchSendCollector :=
  Race.run (fun c => c.archApplyInfoCheckDo sql) (fun c => c.archApplyInfoExists) ctx answer
    (Race.start NewDbArchSendCollector) schedule

/-- Every one of the first `n` calls has returned the boolean `b`. -/
def Race.allReturned {σ : Type} (w : Race σ) (n : Nat) (b : Bool) : Prop :=
  ∀ t, t < n → w.calls t = CallState.returned b

/-- Every one of the first `n` calls has returned. -/
def Race.finished {σ : Type} (w : Race σ) (n : Nat) : Prop :=
  ∀ t, t < n → ∃ b, w.calls t = CallState.returned b

/-- The invariant of a race on a check guarded by a once: while the once has not
run, no call has started and nothing was issued; once it has run, exactly one
detection statement was issued and every call that has returned has returned
the value the field holds. -/
def Race.Inv {σ : Type} (done : σ → Bool) (readPart : σ → Bool) (ctx : Nat → Context)
    (query : String) (w : Race σ) : Prop :=
  (done w.collector = false →
    w.issued = [] ∧ ∀ t, w.calls t = CallState.notStarted) ∧
  (done w.collector = true →
    (∃ t0, w.issued = [⟨ctx t0, query⟩]) ∧
    ∀ t b, w.calls t = CallState.returned b → b = readPart w.collector)

/-! ## db_instance_log_error_info_collector.go : Collect -/

/-- `NewInstanceLogErrorCollector`: the descriptor. -/
def instanceLogInfoDesc : Desc :=
  NewDesc dmdbms_instance_log_error_info
    "Information about DM database Instance error log info" ["pid", "level", "log_time", "txt"]

/-- The emission loop of `DbInstanceLogErrorCollector.Collect`: one sample of
value 1 per row, labelled with the coerced pid, level, log time and text. -/
def DbInstanceLogErrorCollector.emit : List InstanceLogInfo → Option (List Metric)
  | [] => some []
  | info :: rest => do
    let pid := NullStringToString info.Pid
    let level := NullStringToString info.Level
    let logTime := NullStringToString info.LogTime
    let txt := NullStringToString info.Txt
    let m ← MustNewConstMetric instanceLogInfoDesc ValueType.GaugeValue Float64.one
      [pid, level, logTime, txt]
    let more ← DbInstanceLogErrorCollector.emit rest
    pure (m :: more)

/-- `DbInstanceLogErrorCollector.Collect`: a query error ends the cycle; a row
that fails to scan is skipped; `rows.Err()` is only logged; the scanned rows
are deduplicated and emitted. -/
def DbInstanceLogErrorCollector.Collect (pkg : Pkg) (config : Config)
    (q : QueryOutcome InstanceLogInfo) : Option Probed :=
  let ctx := Context.WithTimeout config.QueryTimeout
  match q with
  | .error _ => some ⟨[], [⟨ctx, pkg.QueryInstanceErrorLogSql⟩]⟩
  | .ok rows =>
    let instanceLogInfos := scannedRows rows.scanned
    let instanceLogInfos := removeDuplicateLogInfos instanceLogInfos
    (DbInstanceLogErrorCollector.emit instanceLogInfos).map
      (fun ms => ⟨ms, [⟨ctx, pkg.QueryInstanceErrorLogSql⟩]⟩)

/-! ## db_user_list_info_collector.go -/

def dmdbms_user_list_info : String := "dmdbms_user_list_info"

/-- Go struct `UserInfo`. -/
structure UserInfo where
  Username : NullString
  ReadOnly : NullString
  AccountStatus : NullString
  ExpiryDate : NullString
  ExpiryDateDay : NullString
  DefaultTablespace : NullString
  Profile : NullString
  CreateTime : NullString
deriving DecidableEq, Repr

/-- `NewDbUserCollector`: the descriptor. -/
def userListInfoDesc : Desc :=
  NewDesc dmdbms_user_list_info "Information about DM database users"
    ["host_name", "username", "read_only", "expiry_date", "expiry_date_day",
      "default_tablespace", "profile", "create_time"]

/-- The emission loop of `DbUserCollector.Collect`: the value is 1 for a locked
account and 0 otherwise. -/
def DbUserCollector.emit (pkg : Pkg) : List UserInfo → Option (List Metric)
  | [] => some []
  | info :: rest => do
    let username := NullStringToString info.Username
    let readOnly := NullStringToString info.ReadOnly
    let expiryDate := NullStringToString info.ExpiryDate
    let expiryDateDay := NullStringToString info.ExpiryDateDay
    let defaultTablespace := NullStringToString info.DefaultTablespace
    let profile := NullStringToString info.Profile
    let createTime := NullStringToString info.CreateTime
    let accountStatusValue :=
      if NullStringToString info.AccountStatus = "锁定" then Float64.one else Float64.zero
    let m ← MustNewConstMetric userListInfoDesc ValueType.GaugeValue accountStatusValue
      [pkg.Hostname, username, readOnly, expiryDate, expiryDateDay, defaultTablespace,
        profile, createTime]
    let more ← DbUserCollector.emit pkg rest
    pure (m :: more)

/-- `DbUserCollector.Collect`; `QueryUserInfoSqlStr` is declared outside the files
at hand. A query error or a `rows.Err()` ends the cycle. -/
def DbUserCollector.Collect (pkg : Pkg) (QueryUserInfoSqlStr : String) (config : Config)
    (q : QueryOutcome UserInfo) : Option Probed :=
  let ctx := Context.WithTimeout config.QueryTimeout
  match q with
  | .error _ => some ⟨[], [⟨ctx, QueryUserInfoSqlStr⟩]⟩
  | .ok rows =>
    let userInfos := scannedRows rows.scanned
    match rows.err with
    | some _ => some ⟨[], [⟨ctx, QueryUserInfoSqlStr⟩]⟩
    | none => (DbUserCollector.emit pkg userInfos).map (fun ms => ⟨ms, [⟨ctx, QueryUserInfoSqlStr⟩]⟩)

/-! ## db_parameter_info_collector.go -/

def dmdbms_parameter_info : String := "dmdbms_parameter_info"

/-- Go struct `IniParameterInfo`. -/
structure IniParameterInfo where
  ParaName : NullString
  ParaValue : NullFloat64
deriving DecidableEq, Repr

/-- `NewIniParameterCollector`: the descriptor. -/
def parameterInfoDesc : Desc :=
  NewDesc dmdbms_parameter_info "Information about DM database parameters"
    ["host_name", "param_name"]

/-- The emission loop of `IniParameterCollector.Collect`. -/
def IniParameterCollector.emit (pkg : Pkg) : List IniParameterInfo → Option (List Metric)
  | [] => some []
  | info :: rest => do
    let paramName := NullStringToString info.ParaName
    let m ← MustNewConstMetric parameterInfoDesc ValueType.GaugeValue
      (NullFloat64ToFloat64 info.ParaValue) [pkg.Hostname, paramName]
    let more ← IniParameterCollector.emit pkg rest
    pure (m :: more)

/-- `IniParameterCollector.Collect`; `QueryParameterInfoSql` is declared outside
the files at hand. A query error or a `rows.Err()` ends the cycle. -/
def IniParameterCollector.Collect (pkg : Pkg) (QueryParameterInfoSql : String)
    (config : Config) (q : QueryOutcome IniParameterInfo) : Option Probed :=
  let ctx := Context.WithTimeout config.QueryTimeout
  match q with
  | .error _ => some ⟨[], [⟨ctx, QueryParameterInfoSql⟩]⟩
  | .ok rows =>
    let iniParameterInfos := scannedRows rows.scanned
    match rows.err with
    | some _ => some ⟨[], [⟨ctx, QueryParameterInfoSql⟩]⟩
    | none =>
      (IniParameterCollector.emit pkg iniParameterInfos).map
        (fun ms => ⟨ms, [⟨ctx, QueryParameterInfoSql⟩]⟩)

/-! ## db_statement_type_info_collector.go -/

def dmdbms_statement_type_total : String := "dmdbms_statement_type_total"

/-- Go struct `DbSqlExecTypeInfo`. -/
structure DbSqlExecTypeInfo where
  Name : NullString
  StatVal : NullFloat64
deriving DecidableEq, Repr

/-- `NewDbSqlExecTypeCollector`: the descriptor. -/
def statementTypeDesc : Desc :=
  NewDesc dmdbms_statement_type_total "Information about different types of statements"
    ["host_name", "statement_name"]

/-- The emission loop of `DbSqlExecTypeCollector.Collect` (counter samples). -/
def DbSqlExecTypeCollector.emit (pkg : Pkg) : List DbSqlExecTypeInfo → Option (List Metric)
  | [] => some []
  | info :: rest => do
    let statementName := NullStringToString info.Name
    let m ← MustNewConstMetric statementTypeDesc ValueType.CounterValue
      (NullFloat64ToFloat64 info.StatVal) [pkg.Hostname, statementName]
    let more ← DbSqlExecTypeCollector.emit pkg rest
    pure (m :: more)

/-- `DbSqlExecTypeCollector.Collect`; `QuerySqlExecuteCountSqlStr` is declared
outside the files at hand. `rows.Err()` is only logged. -/
def DbSqlExecTypeCollector.Collect (pkg : Pkg) (QuerySqlExecuteCountSqlStr : String)
    (config : Config) (q : QueryOutcome DbSqlExecTypeInfo) : Option Probed :=
  let ctx := Context.WithTimeout config.QueryTimeout
  match q with
  | .error _ => some ⟨[], [⟨ctx, QuerySqlExecuteCountSqlStr⟩]⟩
  | .ok rows =>
    let sysstatInfos := scannedRows rows.scanned
    (DbSqlExecTypeCollector.emit pkg sysstatInfos).map
      (fun ms => ⟨ms, [⟨ctx, QuerySqlExecuteCountSqlStr⟩]⟩)

/-! ## db_memory_pool_collector.go -/

def dmdbms_memory_curr_pool_info : String := "dmdbms_memory_curr_pool_info"
def dmdbms_memory_total_pool_info : String := "dmdbms_memory_total_pool_info"

/-- Go struct `MemoryPoolInfo`. -/
structure MemoryPoolInfo where
  ZoneType : NullString
  CurrVal : NullFloat64
  ResVal : NullFloat64
  TotalVal : NullFloat64
deriving DecidableEq, Repr

/-- `NewDbMemoryPoolInfoCollector`: descriptor `totalPoolDesc`. -/
def totalPoolDesc : Desc :=
  NewDesc dmdbms_memory_total_pool_info "mem total pool info information"
    ["host_name", "pool_type"]

/-- `NewDbMemoryPoolInfoCollector`: descriptor `currPoolDesc`. -/
def currPoolDesc : Desc :=
  NewDesc dmdbms_memory_curr_pool_info "mem curr pool info information"
    ["host_name", "pool_type"]

/-- The emission loop of `DbMemoryPoolInfoCollector.Collect`. -/
def DbMemoryPoolInfoCollector.emit (pkg : Pkg) : List MemoryPoolInfo → Option (List Metric)
  | [] => some []
  | info :: rest => do
    let total ← MustNewConstMetric totalPoolDesc ValueType.GaugeValue
      (NullFloat64ToFloat64 info.TotalVal) [pkg.Hostname, NullStringToString info.ZoneType]
    let curr ← MustNewConstMetric currPoolDesc ValueType.GaugeValue
      (NullFloat64ToFloat64 info.CurrVal) [pkg.Hostname, NullStringToString info.ZoneType]
    let more ← DbMemoryPoolInfoCollector.emit pkg rest
    pure (total :: curr :: more)

/-- `DbMemoryPoolInfoCollector.Collect`; `QueryMemoryPoolInfoSqlStr` is declared
outside the files at hand. `rows.Err()` is only logged. -/
def DbMemoryPoolInfoCollector.Collect (pkg : Pkg) (QueryMemoryPoolInfoSqlStr : String)
    (config : Config) (q : QueryOutcome MemoryPoolInfo) : Option Probed :=
  let ctx := Context.WithTimeout config.QueryTimeout
  match q with
  | .error _ => some ⟨[], [⟨ctx, QueryMemoryPoolInfoSqlStr⟩]⟩
  | .ok rows =>
    let memoryPoolInfos := scannedRows rows.scanned
    (DbMemoryPoolInfoCollector.emit pkg memoryPoolInfos).map
      (fun ms => ⟨ms, [⟨ctx, QueryMemoryPoolInfoSqlStr⟩]⟩)

/-! ## db_rapply_time_diff_collector.go -/

def dmdbms_rapply_time_diff : String := "dmdbms_rapply_time_diff"

/-- Go struct `RapplyTimeDiff`. -/
structure RapplyTimeDiff where
  TimeDiff : NullFloat64
deriving DecidableEq, Repr

/-- `NewDbRapplyTimeDiffCollector`: the descriptor. -/
def timeDiffDesc : Desc :=
  NewDesc dmdbms_rapply_time_diff
    "Time difference in seconds between APPLY_CMT_TIME and LAST_CMT_TIME from V$RAPPLY_STAT"
    ["host_name"]

/-- The emission loop of `DbRapplyTimeDiffCollector.Collect`. -/
def DbRapplyTimeDiffCollector.emit (pkg : Pkg) : List RapplyTimeDiff → Option (List Metric)
  | [] => some []
  | info :: rest => do
    let m ← MustNewConstMetric timeDiffDesc ValueType.GaugeValue
      (NullFloat64ToFloat64 info.TimeDiff) [pkg.Hostname]
    let more ← DbRapplyTimeDiffCollector.emit pkg rest
    pure (m :: more)

/-- `DbRapplyTimeDiffCollector.Collect`; `QueryRapplyTimeDiffSql` is declared
outside the files at hand. A query error or a `rows.Err()` ends the cycle. -/
def DbRapplyTimeDiffCollector.Collect (pkg : Pkg) (QueryRapplyTimeDiffSql : String)
    (config : Config) (q : QueryOutcome RapplyTimeDiff) : Option Probed :=
  let ctx := Context.WithTimeout config.QueryTimeout
  match q with
  | .error _ => some ⟨[], [⟨ctx, QueryRapplyTimeDiffSql⟩]⟩
  | .ok rows =>
    let rapplyTimeDiffs := scannedRows rows.scanned
    match rows.err with
    | some _ => some ⟨[], [⟨ctx, QueryRapplyTimeDiffSql⟩]⟩
    | none =>
      (DbRapplyTimeDiffCollector.emit pkg rapplyTimeDiffs).map
        (fun ms => ⟨ms, [⟨ctx, QueryRapplyTimeDiffSql⟩]⟩)

/-! ## db_purge_collector.go -/

def dmdbms_purge_objects_info : String := "dmdbms_purge_objects_info"

/-- Go struct `PurgeInfo` (`ObjNum` is an `int64`). -/
structure PurgeInfo where
  ObjNum : Int
deriving DecidableEq, Repr

/-- `NewPurgeCollector`: the descriptor. -/
def purgeObjects : Desc :=
  NewDesc dmdbms_purge_objects_info "Number of purge objects" ["host_name"]

/-- `PurgeCollector.getPurgeInfos`; `QueryPurgeInfoSqlStr` is declared outside the
files at hand. A query error or a `rows.Err()` is returned as the error. -/
def PurgeCollector.getPurgeInfos (QueryPurgeInfoSqlStr : String) (config : Config)
    (q : QueryOutcome PurgeInfo) : Except DbError (List PurgeInfo) × List Issued :=
  let ctx := Context.WithTimeout config.QueryTimeout
  match q with
  | .error e => (.error e, [⟨ctx, QueryPurgeInfoSqlStr⟩])
  | .ok rows =>
    let purgeInfos := scannedRows rows.scanned
    match rows.err with
    | some e => (.error e, [⟨ctx, QueryPurgeInfoSqlStr⟩])
    | none => (.ok purgeInfos, [⟨ctx, QueryPurgeInfoSqlStr⟩])

/-- The emission loop of `PurgeCollector.Collect`. -/
def PurgeCollector.emit (pkg : Pkg) (sql : SqlText) : List PurgeInfo → Option (List Metric)
  | [] => some []
  | info :: rest => do
    let m ← MustNewConstMetric purgeObjects ValueType.GaugeValue (sql.float64 info.ObjNum)
      [pkg.Hostname]
    let more ← PurgeCollector.emit pkg sql rest
    pure (m :: more)

/-- `PurgeCollector.Collect`. -/
def PurgeCollector.Collect (pkg : Pkg) (sql : SqlText) (QueryPurgeInfoSqlStr : String)
    (config : Config) (q : QueryOutcome PurgeInfo) : Option Probed :=
  match PurgeCollector.getPurgeInfos QueryPurgeInfoSqlStr config q with
  | (.error _, issued) => some ⟨[], issued⟩
  | (.ok purgeInfos, issued) =>
    (PurgeCollector.emit pkg sql purgeInfos).map (fun ms => ⟨ms, issued⟩)

/-! ## collector.go : the other metric names, all names -/

def dmdbms_node_uname_info : String := "dmdbms_node_uname_info"
def dmdbms_start_time_info : String := "dmdbms_start_time_info"
def dmdbms_status_info : String := "dmdbms_status_info"
def dmdbms_mode_info : String := "dmdbms_mode_info"
def dmdbms_trx_info : String := "dmdbms_trx_info"
def dmdbms_dead_lock_num_info : String := "dmdbms_dead_lock_num_info"
def dmdbms_thread_num_info : String := "dmdbms_thread_num_info"
def dmdbms_switching_occurs : String := "dmdbms_switching_occurs"
def dmdbms_db_status_occurs : String := "dmdbms_db_status_occurs"
def dmdbms_session_percentage : String := "dmdbms_session_percentage"
def dmdbms_session_type_Info : String := "dmdbms_session_type_info"
def dmdbms_ckpttime_info : String := "dmdbms_ckpttime_info"
def dmdbms_slow_sql_info : String := "dmdbms_slow_sql_info"
def dmdbms_statement_type_info : String := "dmdbms_statement_type_info"
def dmdbms_license_date : String := "dmdbms_license_date"
def dmdbms_start_day : String := "dmdbms_start_day"
def dmdbms_rapply_sys_task_mem_used : String := "dmdbms_rapply_sys_task_mem_used"
def dmdbms_rapply_sys_task_num : String := "dmdbms_rapply_sys_task_num"
def dmdbms_dmap_process_is_exit : String := "dmdbms_dmap_process_is_exit"
def dmdbms_dmserver_process_is_exit : String := "dmdbms_dmserver_process_is_exit"
def dmdbms_dmwatcher_process_is_exit : String := "dmdbms_dmwatcher_process_is_exit"
def dmdbms_dmmonitor_process_is_exit : String := "dmdbms_dmmonitor_process_is_exit"
def dmdbms_dmagent_process_is_exit : String := "dmdbms_dmagent_process_is_exit"
def dmdbms_dict_cache_total : String := "dmdbms_dict_cache_total"
def dmdbms_dw_watcher_info : String := "dmdbms_dw_watcher_info"

/-- The values of the metric-name constants of collector.go, in declaration order. -/
def metricNames : List String :=
  [dmdbms_node_uname_info, dmdbms_tablespace_file_total_info,
    dmdbms_tablespace_file_free_info, dmdbms_tablespace_size_total_info,
    dmdbms_tablespace_size_free_info, dmdbms_start_time_info, dmdbms_status_info,
    dmdbms_mode_info, dmdbms_trx_info, dmdbms_dead_lock_num_info, dmdbms_thread_num_info,
    dmdbms_switching_occurs, dmdbms_db_status_occurs, dmdbms_memory_curr_pool_info,
    dmdbms_memory_total_pool_info, dmdbms_session_percentage, dmdbms_session_type_Info,
    dmdbms_ckpttime_info, dmdbms_joblog_error_num, dmdbms_slow_sql_info, dmdbms_monitor_info,
    dmdbms_statement_type_info, dmdbms_parameter_info, dmdbms_user_list_info,
    dmdbms_license_date, dmdbms_version, dmdbms_arch_switch_rate,
    dmdbms_arch_switch_rate_detail_info, dmdbms_arch_status_info, dmdbms_arch_status,
    dmdbms_arch_send_detail_info, dmdbms_arch_send_diff_value, dmdbms_start_day,
    dmdbms_rapply_sys_task_mem_used, dmdbms_rapply_sys_task_num,
    dmdbms_instance_log_error_info, dmdbms_dmap_process_is_exit,
    dmdbms_dmserver_process_is_exit, dmdbms_dmwatcher_process_is_exit,
    dmdbms_dmmonitor_process_is_exit, dmdbms_dmagent_process_is_exit, dmdbms_bufferpool_info,
    dmdbms_dict_cache_total, dmdbms_dual_info, dmdbms_dw_watcher_info,
    dmdbms_purge_objects_info, dmdbms_rapply_time_diff, dmdbms_statement_type_total,
    dmdbms_system_cpu_info, dmdbms_system_memory_info, dmdbms_system_base_info]

/-! ## The `Describe` methods -/

/-- `DBSystemInfoCollector.Describe`. -/
def DBSystemInfoCollector.Describe (c : DBSystemInfoCollector) : List Desc :=
  [c.systemBaseInfoDesc, c.cpuInfoDesc, c.memoryInfoDesc]

/-- `TableSpaceInfoCollector.Describe`. -/
def TableSpaceInfoCollector.Describe (c : TableSpaceInfoCollector) : List Desc :=
  [c.totalDesc, c.freeDesc]

/-- `TableSpaceDateFileInfoCollector.Describe`. -/
def TableSpaceDateFileInfoCollector.Describe (c : TableSpaceDateFileInfoCollector) :
    List Desc :=
  [c.totalDesc, c.freeDesc]

/-- `DbVersionCollector.Describe`. -/
def DbVersionCollector.Describe : List Desc := [versionInfoDesc]

/-- `DbInstanceLogErrorCollector.Describe`. -/
def DbInstanceLogErrorCollector.Describe : List Desc := [instanceLogInfoDesc]

/-- `DbDualInfoCollector.Describe`. -/
def DbDualInfoCollector.Describe : List Desc := [dualInfoDesc]

/-- `DbBufferPoolInfoCollector.Describe`. -/
def DbBufferPoolInfoCollector.Describe : List Desc := [bufferPoolInfoDesc]

/-- `DbJobRunningInfoCollector.Describe`. -/
def DbJobRunningInfoCollector.Describe : List Desc := [jobErrorNumDesc]

/-- `MonitorInfoCollector.Describe`. -/
def MonitorInfoCollector.Describe : List Desc := [monitorInfoDesc]

/-- `DbArchStatusCollector.Describe`. -/
def DbArchStatusCollector.Describe : List Desc := [archStatusDesc, archStatusInfo]

/-- `DbArchSwitchCollector.Describe`. -/
def DbArchSwitchCollector.Describe : List Desc := [archSwitchRateDesc, archSwitchRateDetailInfo]

/-- `DbArchSendCollector.Describe`. -/
def DbArchSendCollector.Describe : List Desc := [archSendDetailInfo, archSendDiffValue]

/-- `DbUserCollector.Describe`. -/
def DbUserCollector.Describe : List Desc := [userListInfoDesc]

/-- `IniParameterCollector.Describe`. -/
def IniParameterCollector.Describe : List Desc := [parameterInfoDesc]

/-- `DbSqlExecTypeCollector.Describe`. -/
def DbSqlExecTypeCollector.Describe : List Desc := [statementTypeDesc]

/-- `DbMemoryPoolInfoCollector.Describe`. -/
def DbMemoryPoolInfoCollector.Describe : List Desc := [totalPoolDesc, currPoolDesc]

/-- `DbRapplyTimeDiffCollector.Describe`. -/
def DbRapplyTimeDiffCollector.Describe : List Desc := [timeDiffDesc]

/-- `PurgeCollector.Describe`. -/
def PurgeCollector.Describe : List Desc := [purgeObjects]

/-! ## collector.go : RegisterCollectors -/

/-- A Prometheus registry: the descriptors registered so far. -/
abbrev Registry := List Desc

/-- Prometheus `Registry.MustRegister` of one collector, given what its `Describe`
sends (descriptors without constant labels, so a descriptor is identified by
its name): it panics (`none`) when a name is already registered, or when two
descriptors of the collector share a name and differ in help or label names. -/
def MustRegister (reg : Registry) (descs : List Desc) : Option Registry :=
  if descs.any (fun d => reg.any (fun r => r.fqName == d.fqName)) then none
  else if descs.any (fun d => descs.any (fun d2 => d2.fqName == d.fqName && d2 != d)) then none
  else some (reg ++ descs)

/-- The loop `for _, collector := range collectors { reg.MustRegister(collector) }`. -/
def registerAll (reg : Registry) : List (List Desc) → Option Registry
  | [] => some reg
  | descs :: rest =>
    match MustRegister reg descs with
    | none => none
    | some reg1 => registerAll reg1 rest

/-- The feature toggles of `Config` that `RegisterCollectors` reads. -/
structure Toggles where
  RegisterHostMetrics : Bool
  RegisterDatabaseMetrics : Bool
  RegisterDmhsMetrics : Bool
deriving DecidableEq, Repr

def OS_LINUX : String := "Linux"
def OS_WINDOWS : String := "Windows"
def OS_UNKNOWN : String := "Unknown"

/-- `GetOS`, as a function of `runtime.GOOS`. -/
def GetOS (goos : String) : String :=
  if goos.toLower = "windows" then OS_WINDOWS
  else if goos.toLower = "linux" then OS_LINUX
  else OS_UNKNOWN

/-- What the `Describe` methods send for the collectors `RegisterCollectors`
registers whose files are not at hand. -/
structure AbsentCollectors where
  DmapProcessCollector : List Desc
  DBInstanceRunningInfoCollector : List Desc
  DBSessionsStatusCollector : List Desc
  SlowSessionInfoCollector : List Desc
  DbLicenseCollector : List Desc
  DbRapplySysCollector : List Desc
  CkptCollector : List Desc
  DbDictCacheCollector : List Desc
  DbDwWatcherInfoCollector : List Desc

/-- The collectors appended under `config.RegisterDatabaseMetrics`, in order. -/
def databaseCollectors (absent : AbsentCollectors) : List (List Desc) :=
  [NewTableSpaceDateFileInfoCollector.Describe, NewTableSpaceInfoCollector.Describe,
    absent.DBInstanceRunningInfoCollector, DbMemoryPoolInfoCollector.Describe,
    absent.DBSessionsStatusCollector, DbJobRunningInfoCollector.Describe,
    absent.SlowSessionInfoCollector, MonitorInfoCollector.Describe,
    DbSqlExecTypeCollector.Describe, IniParameterCollector.Describe, DbUserCollector.Describe,
    absent.DbLicenseCollector, DbVersionCollector.Describe, DbArchStatusCollector.Describe,
    absent.DbRapplySysCollector, DbInstanceLogErrorCollector.Describe, absent.CkptCollector,
    DbArchSendCollector.Describe, DbArchSwitchCollector.Describe,
    DbBufferPoolInfoCollector.Describe, absent.DbDictCacheCollector,
    DbDualInfoCollector.Describe, absent.DbDwWatcherInfoCollector, PurgeCollector.Describe,
    DbRapplyTimeDiffCollector.Describe]

/-- The slice `collectors` that `RegisterCollectors` builds. -/
def collectorsOf (toggles : Toggles) (goos : String) (absent : AbsentCollectors) :
    List (List Desc) :=
  [NewDBSystemInfoCollector.Describe] ++
    (if toggles.RegisterHostMetrics && GetOS goos = OS_LINUX then
      [absent.DmapProcessCollector] else []) ++
    (if toggles.RegisterDatabaseMetrics then databaseCollectors absent else [])

/-- `RegisterCollectors`: a new registry, every collector registered in turn. -/
def RegisterCollectors (toggles : Toggles) (goos : String) (absent : AbsentCollectors) :
    Option Registry :=
  registerAll [] (collectorsOf toggles goos absent)

/-- The descriptor names built by the collectors whose files are at hand. -/
def presentNames : List String :=
  (NewDBSystemInfoCollector.Describe ++ NewTableSpaceDateFileInfoCollector.Describe ++
    NewTableSpaceInfoCollector.Describe ++ DbMemoryPoolInfoCollector.Describe ++
    DbJobRunningInfoCollector.Describe ++ MonitorInfoCollector.Describe ++
    DbSqlExecTypeCollector.Describe ++ IniParameterCollector.Describe ++
    DbUserCollector.Describe ++ DbVersionCollector.Describe ++
    DbArchStatusCollector.Describe ++ DbInstanceLogErrorCollector.Describe ++
    DbArchSendCollector.Describe ++ DbArchSwitchCollector.Describe ++
    DbBufferPoolInfoCollector.Describe ++ DbDualInfoCollector.Describe ++
    PurgeCollector.Describe ++ DbRapplyTimeDiffCollector.Describe).map (fun d => d.fqName)

/-- The descriptor names of every collector `RegisterCollectors` can register. -/
def allNames (absent : AbsentCollectors) : List String :=
  (([NewDBSystemInfoCollector.Describe] ++ [absent.DmapProcessCollector] ++
    databaseCollectors absent).flatten).map (fun d => d.fqName)

/-! ## collector.go : handleDbQueryError, handleDbQueryErrorWithSQL -/

/-- A Go `error` as the handlers see it: `context.DeadlineExceeded`, an error
with a text, or an error with a text that wraps another one. -/
inductive GoError where
  | DeadlineExceeded
  | New (text : String)
  | Wrap (text : String) (cause : GoError)
deriving DecidableEq, Repr

/-- The method `Error()`. -/
def GoError.Error : GoError → String
  | .DeadlineExceeded => "context deadline exceeded"
  | .New text => text
  | .Wrap text _ => text

/-- The chain of an error: the error itself, then what it wraps, and so on. -/
def GoError.chain : GoError → List GoError
  | .DeadlineExceeded => [.DeadlineExceeded]
  | .New text => [.New text]
  | .Wrap text cause => .Wrap text cause :: cause.chain

/-- Go `errors.Is(err, target)`: some error of the chain equals the target. -/
def errorsIs (err target : GoError) : Bool :=
  err.chain.any (fun e => e == target)

/-- `handleDbQueryError`: the text passed to `logger.Errorf`. -/
def handleDbQueryError (err : GoError) : String :=
  if errorsIs err GoError.DeadlineExceeded then "Query timed out " ++ err.Error
  else "Error querying database " ++ err.Error

/-- `handleDbQueryErrorWithSQL`: the text passed to `logger.Errorf`. -/
def handleDbQueryErrorWithSQL (sql : String) (err : GoError) : String :=
  if errorsIs err GoError.DeadlineExceeded then
    "Query SQL timed out SQL:" ++ sql ++ " ,error: " ++ err.Error
  else "Error querying database SQL:" ++ sql ++ " ,error: " ++ err.Error

/-! ## Cycles of the monitor probe, one after the other -/

/-- Successive cycles of `MonitorInfoCollector.Collect` on one collector: what
each cycle produced. -/
def MonitorInfoCollector.cycles (pkg : Pkg) (sql : SqlText) (config : Config) :
    MonitorInfoCollector → List MonitorDb → Option (List Probed)
  | _, [] => some []
  | c, db :: later =>
    match MonitorInfoCollector.Collect c pkg sql config db with
    | none => none
    | some (c1, r) => (MonitorInfoCollector.cycles pkg sql config c1 later).map (fun rs => r :: rs)

/-- Every sample carries as many label values as its descriptor has label names. -/
def LabelsMatch (ms : List Metric) : Prop :=
  ∀ m ∈ ms, m.labelValues.length = m.desc.variableLabels.length

/-- Every sample references a descriptor of the list. -/
def DescribedBy (descs : List Desc) (ms : List Metric) : Prop :=
  ∀ m ∈ ms, m.desc ∈ descs

/-- Both `DescribedBy` and `LabelsMatch`. -/
def Conforms (descs : List Desc) (ms : List Metric) : Prop :=
  DescribedBy descs ms ∧ LabelsMatch ms

/-- The descriptor names of the collectors whose files are not at hand. -/
def absentNames (absent : AbsentCollectors) : List String :=
  (absent.DmapProcessCollector ++ absent.DBInstanceRunningInfoCollector ++
    absent.DBSessionsStatusCollector ++ absent.SlowSessionInfoCollector ++
    absent.DbLicenseCollector ++ absent.DbRapplySysCollector ++ absent.CkptCollector ++
    absent.DbDictCacheCollector ++ absent.DbDwWatcherInfoCollector).map (fun d => d.fqName)

/-! ## Vocabulary of the statements -/

/-- A string has neither leading nor trailing white space. -/
def Trimmed (s : String) : Prop :=
  (∀ c, s.data.head? = some c → isSpace c = false) ∧
  (∀ c, s.data.getLast? = some c → isSpace c = false)

/-- A string holds no `|`. -/
def NoBar (s : String) : Prop :=
  '|' ∉ s.data

/-! ## Concrete inputs -/

/-- A package environment: host `db01`, a formatter that prints the bit pattern. -/
def samplePkg : Pkg where
  Hostname := "db01"
  NullFloat64ToString := fun nf => toString nf.Float64.bits
  QuerySystemInfoSqlStr := "QuerySystemInfoSqlStr"
  QueryInstanceErrorLogSql := "QueryInstanceErrorLogSql"
  QueryVersionInfoSqlStr := "QueryVersionInfoSqlStr"
  QueryTablespaceInfoSqlStr := "QueryTablespaceInfoSqlStr"
  QueryTablespaceFileSqlStr := "QueryTablespaceFileSqlStr"

/-- A configuration: 30 s query timeout, 5 minutes of cache time. -/
def sampleConfig : Config := ⟨30, 5⟩

/-- A database whose V2 statement fails and whose V1 statements answer position
0 and the given version text. -/
def fallbackDb (versionText : String) : VersionDb where
  v2 := .error (.Other "connection refused")
  pos := .ok 0
  version := fun _ => .ok versionText

/-- The sample of the scenario: host `db01`, version `08.1.2.100`. -/
def storedVersionSample : Metric :=
  ⟨versionInfoDesc, ValueType.GaugeValue, Float64.one, ["db01", "08.1.2.100", "", ""]⟩

/-- The cycle of the scenario: V2 failed, V1 answered, the result was cached for
five minutes from time 0. -/
def storedVersionCycle : Cycle :=
  ⟨[storedVersionSample], ["QueryVersionInfoSqlStr", v1PosQuery, v1VersionQuery 0],
    SetCache [] 0 "db_version_info" "08.1.2.100||" 300000000000⟩

/-- Two tablespaces. -/
def sampleTablespaces : List TableSpaceInfo :=
  [⟨"SYSTEM", ⟨0x4090000000000000⟩, ⟨0x4080000000000000⟩⟩,
   ⟨"MAIN", ⟨0x40A0000000000000⟩, ⟨0x4090000000000000⟩⟩]

/-- The JSON text of `sampleTablespaces`. -/
def sampleTablespacesJSON : String :=
  "[\x7b\"TablespaceName\":\"SYSTEM\",\"TotalSize\":1024,\"FreeSize\":512\x7d," ++
  "\x7b\"TablespaceName\":\"MAIN\",\"TotalSize\":2048,\"FreeSize\":1024\x7d]"

/-- A codec table holding the one pair `sampleTablespaces`, `sampleTablespacesJSON`. -/
def sampleJson : JsonCodec TableSpaceInfo where
  Marshal := fun rows => if rows = sampleTablespaces then some sampleTablespacesJSON else none
  Unmarshal := fun text =>
    if text = sampleTablespacesJSON then .ok sampleTablespaces else .error []

/-- One data file. -/
def sampleDataFiles : List TableSpaceDateFileInfo :=
  [⟨"/dm/MAIN.DBF", ⟨0x40A0000000000000⟩, ⟨0x4090000000000000⟩, "1", "0", "0"⟩]

/-- The JSON text of `sampleDataFiles`. -/
def sampleDataFilesJSON : String :=
  "[\x7b\"Path\":\"/dm/MAIN.DBF\",\"TotalSize\":2048,\"FreeSize\":1024," ++
  "\"AutoExtend\":\"1\",\"NextSize\":\"0\",\"MaxSize\":\"0\"\x7d]"

/-- A codec table holding the one pair `sampleDataFiles`, `sampleDataFilesJSON`. -/
def sampleJsonFiles : JsonCodec TableSpaceDateFileInfo where
  Marshal := fun rows => if rows = sampleDataFiles then some sampleDataFilesJSON else none
  Unmarshal := fun text =>
    if text = sampleDataFilesJSON then .ok sampleDataFiles else .error []

/-- A result set: a row, a row that fails to scan, a row. -/
def sampleTablespaceRows : Rows TableSpaceInfo :=
  ⟨[.ok ⟨"SYSTEM", ⟨0x4090000000000000⟩, ⟨0x4080000000000000⟩⟩,
    .error (.Other "converting NULL to float64 is unsupported"),
    .ok ⟨"MAIN", ⟨0x40A0000000000000⟩, ⟨0x4090000000000000⟩⟩], none⟩

/-- A result set: a row that fails to scan, then one data-file row. -/
def sampleDataFileRows : Rows TableSpaceDateFileInfo :=
  ⟨[.error (.Other "converting NULL to string is unsupported"),
    .ok ⟨"/dm/MAIN.DBF", ⟨0x40A0000000000000⟩, ⟨0x4090000000000000⟩, "1", "0", "0"⟩], none⟩

/-- A conversion table for `float64(n)` at the integers -1, 0, 1 and 2. -/
def sampleFloat64 (n : Int) : Float64 :=
  if n = 0 then ⟨0⟩
  else if n = 1 then ⟨0x3FF0000000000000⟩
  else if n = 2 then ⟨0x4000000000000000⟩
  else if n = -1 then ⟨0xBFF0000000000000⟩
  else ⟨0x7FF8000000000000⟩

/-- SQL text constants standing for the ones declared outside the files at hand. -/
def sampleSql : SqlText where
  float64 := sampleFloat64
  QueryDualInfoSql := "QueryDualInfoSql"
  QueryArchiveSendStatusSql := "QueryArchiveSendStatusSql"
  QueryArchiveSwitchRateSql := "QueryArchiveSwitchRateSql"
  QueryArchSendInfoFieldsExist := "QueryArchSendInfoFieldsExist"
  QueryArchApplyInfoExists := "QueryArchApplyInfoExists"
  QueryArchSendDetailInfo := "QueryArchSendDetailInfo"
  QueryArchSendDetailInfo2 := "QueryArchSendDetailInfo2"
  QueryDbJobRunningInfoSqlStr := "QueryDbJobRunningInfoSqlStr"
  QueryBufferPoolHitRateInfoSql := "QueryBufferPoolHitRateInfoSql"
  QueryMonitorInfoSqlStr := "QueryMonitorInfoSqlStr"

/-- The tablespace row a corrupt cache entry leaves in the slice variable. -/
def staleTablespace : TableSpaceInfo :=
  ⟨"OLD", ⟨0x3FF0000000000000⟩, ⟨0⟩⟩

/-- The tablespace row the live query returns. -/
def liveTablespace : TableSpaceInfo :=
  ⟨"MAIN", ⟨0x40A0000000000000⟩, ⟨0x4090000000000000⟩⟩

/-- A cached text whose last field has the wrong JSON type: `json.Unmarshal`
reports the type error after it has filled in the fields before it. -/
def corruptTablespacesJSON : String :=
  "[\x7b\"TablespaceName\":\"OLD\",\"TotalSize\":1,\"FreeSize\":\"x\"\x7d]"

/-- The behaviour of `encoding/json` at the texts and row lists of the example. -/
def staleJson : JsonCodec TableSpaceInfo where
  Marshal := fun rows =>
    if rows = [liveTablespace] then
      some "[\x7b\"TablespaceName\":\"MAIN\",\"TotalSize\":2048,\"FreeSize\":1024\x7d]"
    else if rows = [staleTablespace, liveTablespace] then
      some ("[\x7b\"TablespaceName\":\"OLD\",\"TotalSize\":1,\"FreeSize\":0\x7d," ++
        "\x7b\"TablespaceName\":\"MAIN\",\"TotalSize\":2048,\"FreeSize\":1024\x7d]")
    else none
  Unmarshal := fun text =>
    if text = corruptTablespacesJSON then .error [staleTablespace] else .error []

/-- A cache holding the corrupt text under the key of the tablespace probe. -/
def corruptCache : Cache :=
  [⟨dmdbms_tablespace_size_total_info, corruptTablespacesJSON, 300000000000⟩]

/-- A precondition answer: archiving is switched off (`ARCH_INI` is `0`). -/
def archDisabledDb : ArchEnabledDb :=
  ⟨.ok "0", .ok "0"⟩

/-- A precondition answer: archiving is on and the local archive is valid. -/
def archEnabledDb : ArchEnabledDb :=
  ⟨.ok "1", .ok "1"⟩

/-- Three calls, interleaved: 0 and 1 enter, 0 returns, 2 enters and returns, 1 returns. -/
def sampleSchedule : List Nat := [0, 1, 0, 2, 2, 1]

/-- Call `t` would be answered with the count `t + 1`. -/
def sampleAnswers (t : Nat) : Except DbError Int := .ok (t + 1)

/-- A configuration whose `QueryTimeout` is the `time.Duration` of 30 seconds. -/
def config30s : Config := ⟨30000000000, 5⟩

/-- Two log rows with different pid and level whose joined keys coincide. -/
def logRowA : InstanceLogInfo :=
  ⟨⟨"disk full", true⟩, ⟨"c", true⟩, ⟨"a|b", true⟩, ⟨"2024-01-01 00:00:00", true⟩⟩

/-- The second of the two rows. -/
def logRowB : InstanceLogInfo :=
  ⟨⟨"disk full", true⟩, ⟨"b|c", true⟩, ⟨"a", true⟩, ⟨"2024-01-01 00:00:00", true⟩⟩

/-- One way the nine collectors whose files are not at hand can share out the
metric names of `collector.go` that no collector at hand uses. -/
def sampleAbsent : AbsentCollectors where
  DmapProcessCollector :=
    [NewDesc dmdbms_dmap_process_is_exit "" [], NewDesc dmdbms_dmserver_process_is_exit "" [],
      NewDesc dmdbms_dmwatcher_process_is_exit "" [],
      NewDesc dmdbms_dmmonitor_process_is_exit "" [],
      NewDesc dmdbms_dmagent_process_is_exit "" []]
  DBInstanceRunningInfoCollector :=
    [NewDesc dmdbms_start_time_info "" [], NewDesc dmdbms_status_info "" [],
      NewDesc dmdbms_mode_info "" [], NewDesc dmdbms_trx_info "" [],
      NewDesc dmdbms_dead_lock_num_info "" [], NewDesc dmdbms_thread_num_info "" [],
      NewDesc dmdbms_switching_occurs "" [], NewDesc dmdbms_db_status_occurs "" [],
      NewDesc dmdbms_start_day "" []]
  DBSessionsStatusCollector :=
    [NewDesc dmdbms_session_type_Info "" [], NewDesc dmdbms_session_percentage "" []]
  SlowSessionInfoCollector := [NewDesc dmdbms_slow_sql_info "" []]
  DbLicenseCollector := [NewDesc dmdbms_license_date "" []]
  DbRapplySysCollector :=
    [NewDesc dmdbms_rapply_sys_task_mem_used "" [], NewDesc dmdbms_rapply_sys_task_num "" []]
  CkptCollector := [NewDesc dmdbms_ckpttime_info "" []]
  DbDictCacheCollector := [NewDesc dmdbms_dict_cache_total "" []]
  DbDwWatcherInfoCollector := [NewDesc dmdbms_dw_watcher_info "" []]

/-- A database on which the V2 statement fails, the position query answers 1
(the column `BUILD_VERSION` exists) and only the statement over `v$instance`
is answered, with `versionText`. -/
def instanceDb (versionText : String) : VersionDb where
  v2 := .error (.Other "connection refused")
  pos := .ok 1
  version := fun query =>
    if query = v1VersionQuery 1 then .ok versionText
    else .error (.Other "unexpected statement")

/-- A content of the nine collectors whose files are not at hand in which the
license collector builds a descriptor under the name `dmdbms_version`. -/
def clashingAbsent : AbsentCollectors where
  DmapProcessCollector := []
  DBInstanceRunningInfoCollector := []
  DBSessionsStatusCollector := []
  SlowSessionInfoCollector := []
  DbLicenseCollector := [NewDesc dmdbms_version "" []]
  DbRapplySysCollector := []
  CkptCollector := []
  DbDictCacheCollector := []
  DbDwWatcherInfoCollector := []

/-- The rows of a list that are the first to carry their dedup key, given the
keys already met: the reference reading of "first occurrence wins". -/
def keepFirst (seenKeys : List String) : List InstanceLogInfo → List InstanceLogInfo
  | [] => []
  | info :: rest =>
    if logKey info ∈ seenKeys then keepFirst seenKeys rest
    else info :: keepFirst (logKey info :: seenKeys) rest

/-! # Theorems -/

/-! ## removeDuplicateLogInfos -/

theorem loop_eq_keepFirst (logs : List InstanceLogInfo) :
    ∀ (seen : String → Bool) (ks : List String) (result : List InstanceLogInfo),
      (∀ k, seen k = true ↔ k ∈ ks) →
      removeDuplicateLogInfos.loop seen result logs = result ++ keepFirst ks logs := by
  induction logs with
  | nil => intro seen ks result _; simp [removeDuplicateLogInfos.loop, keepFirst]
  | cons info rest ih =>
    intro seen ks result h
    by_cases hk : seen (logKey info) = true
    · have hmem : logKey info ∈ ks := (h _).1 hk
      simp only [removeDuplicateLogInfos.loop, keepFirst, hk, hmem, if_true]
      exact ih seen ks result h
    · have hmem : logKey info ∉ ks := fun hm => hk ((h _).2 hm)
      simp only [removeDuplicateLogInfos.loop, keepFirst, hk, hmem, if_false]
      rw [ih _ (logKey info :: ks) (result ++ [info])]
      · simp
      · intro k
        by_cases hkk : k = logKey info
        · simp [hkk]
        · simp [hkk, h k]

theorem removeDuplicateLogInfos_eq_keepFirst (logs : List InstanceLogInfo) :
    removeDuplicateLogInfos logs = keepFirst [] logs := by
  unfold removeDuplicateLogInfos
  rw [loop_eq_keepFirst logs (fun _ => false) [] []]
  · simp
  · intro k; simp

theorem keepFirst_sublist (logs : List InstanceLogInfo) :
    ∀ ks, (keepFirst ks logs).Sublist logs := by
  induction logs with
  | nil => intro ks; simp [keepFirst]
  | cons info rest ih =>
    intro ks
    by_cases hm : logKey info ∈ ks
    · simp only [keepFirst, hm, if_true]
      exact (ih ks).trans (List.sublist_cons_self _ _)
    · simp only [keepFirst, hm, if_false]
      exact (ih _).cons₂ info

theorem keepFirst_filter (logs : List InstanceLogInfo) (k : String) :
    ∀ ks, (keepFirst ks logs).filter (fun r => logKey r == k) =
      if k ∈ ks then [] else (logs.find? (fun r => logKey r == k)).toList := by
  induction logs with
  | nil => intro ks; simp [keepFirst]
  | cons info rest ih =>
    intro ks
    by_cases hm : logKey info ∈ ks
    · simp only [keepFirst, hm, if_true]
      rw [ih ks]
      by_cases hk : k ∈ ks
      · simp [hk]
      · have hb : (logKey info == k) = false := by
          simpa using fun e : logKey info = k => hk (e ▸ hm)
        simp [hk, List.find?_cons, hb]
    · simp only [keepFirst, hm, if_false]
      by_cases he : logKey info = k
      · have hk : k ∉ ks := fun hk => hm (he ▸ hk)
        have hb : (logKey info == k) = true := by simpa using he
        simp [List.filter_cons, List.find?_cons, hb, hk, ih, he]
      · have hb : (logKey info == k) = false := by simpa using he
        have hkk : ¬ k = logKey info := fun e => he e.symm
        simp [List.filter_cons, List.find?_cons, hb, hkk, ih]

theorem keepFirst_idem (logs : List InstanceLogInfo) :
    ∀ ks, keepFirst ks (keepFirst ks logs) = keepFirst ks logs := by
  induction logs with
  | nil => intro ks; simp [keepFirst]
  | cons info rest ih =>
    intro ks
    by_cases hm : logKey info ∈ ks
    · simp only [keepFirst, hm, if_true]
      exact ih ks
    · simp only [keepFirst, hm, if_false]
      rw [ih (logKey info :: ks)]

/-- C2. `removeDuplicateLogInfos` is idempotent: deduplicating an already
deduplicated list of log rows returns it unchanged. -/
theorem removeDuplicateLogInfos_idempotent (l : List InstanceLogInfo) :
    removeDuplicateLogInfos (removeDuplicateLogInfos l) = removeDuplicateLogInfos l := by
  rw [removeDuplicateLogInfos_eq_keepFirst (removeDuplicateLogInfos l),
    removeDuplicateLogInfos_eq_keepFirst l]
  exact keepFirst_idem l []

/-- C3. `removeDuplicateLogInfos` returns a subsequence of its input (kept rows
stay in their original relative order) in which, for every dedup key, the rows
carrying that key are exactly the first input row carrying it: one row when the
key occurs in the input, none otherwise. -/
theorem removeDuplicateLogInfos_first_occurrence (l : List InstanceLogInfo) :
    (removeDuplicateLogInfos l).Sublist l ∧
    ∀ k : String,
      (removeDuplicateLogInfos l).filter (fun r => logKey r == k) =
        (l.find? (fun r => logKey r == k)).toList := by
  rw [removeDuplicateLogInfos_eq_keepFirst]
  refine ⟨keepFirst_sublist l [], fun k => ?_⟩
  rw [keepFirst_filter l k []]
  simp

/-- C4 (the code at the failing input). Two log rows whose coerced fields differ
(pid `a|b`, level `c` against pid `a`, level `b|c`) get the same dedup key, and
the second row is dropped as a duplicate of the first. -/
theorem removeDuplicateLogInfos_drops_distinct_row :
    let r1 : InstanceLogInfo :=
      ⟨⟨"disk full", true⟩, ⟨"c", true⟩, ⟨"a|b", true⟩, ⟨"2024-01-01 00:00:00", true⟩⟩
    let r2 : InstanceLogInfo :=
      ⟨⟨"disk full", true⟩, ⟨"b|c", true⟩, ⟨"a", true⟩, ⟨"2024-01-01 00:00:00", true⟩⟩
    NullStringToString r1.Pid ≠ NullStringToString r2.Pid ∧
    NullStringToString r1.Level ≠ NullStringToString r2.Level ∧
    logKey r1 = logKey r2 ∧
    removeDuplicateLogInfos [r1, r2] = [r1] := by
  decide

/-! ## DBSystemInfoCollector -/

/-- C1 (the code at every system-info row). The `dmdbms_system_base_info` sample
is built with the label values in the order n_cpu, total_phy_size,
total_vir_size, total_disk_size, Hostname against the label names host_name,
n_cpu, total_phy_size, total_vir_size, total_disk_size: the value carried under
`host_name` is the CPU-count string and `Hostname` is carried under
`total_disk_size`. -/
theorem system_base_info_labels_shifted (pkg : Pkg) (info : SystemInfo) :
    ∃ base rest,
      DBSystemInfoCollector.Collect NewDBSystemInfoCollector pkg (.ok ⟨[.ok info], none⟩) =
        some ⟨base :: rest, [pkg.QuerySystemInfoSqlStr]⟩ ∧
      base.desc.fqName = dmdbms_system_base_info ∧
      base.desc.variableLabels =
        ["host_name", "n_cpu", "total_phy_size", "total_vir_size", "total_disk_size"] ∧
      base.label "host_name" =
        some (if info.NCpu.Valid then pkg.NullFloat64ToString info.NCpu else "") ∧
      base.label "n_cpu" =
        some (if info.TotalPhySize.Valid then pkg.NullFloat64ToString info.TotalPhySize
          else "") ∧
      base.label "total_phy_size" =
        some (if info.TotalVirSize.Valid then pkg.NullFloat64ToString info.TotalVirSize
          else "") ∧
      base.label "total_vir_size" =
        some (if info.TotalDiskSize.Valid then pkg.NullFloat64ToString info.TotalDiskSize
          else "") ∧
      base.label "total_disk_size" = some pkg.Hostname := by
  rcases info with ⟨⟨n, vn⟩, ⟨p, vp⟩, v, d⟩
  cases vn <;> cases vp <;> exact ⟨_, _, rfl, rfl, rfl, rfl, rfl, rfl, rfl, rfl⟩

/-! ## Go `strings` functions -/

theorem containsList_iff (sub : List Char) (s : List Char) :
    containsList sub s = true ↔ sub <:+: s := by
  induction s with
  | nil => simp [containsList, List.isEmpty_iff]
  | cons c cs ih =>
    simp only [containsList, Bool.or_eq_true, ih, List.infix_cons_iff]
    rw [List.isPrefixOf_iff_prefix]

theorem containsList_false_iff (sub : List Char) (s : List Char) :
    containsList sub s = false ↔ ¬ sub <:+: s := by
  rw [← containsList_iff]; simp

theorem replaceList_skip (old new : List Char) (xs rest : List Char) :
    replaceList old new xs.length (xs ++ rest) = replaceList old new 0 rest := by
  induction xs with
  | nil => simp
  | cons x xs ih => simpa [replaceList] using ih

theorem replaceList_of_not_contains (old new : List Char) (s : List Char)
    (h : ¬ old <:+: s) : replaceList old new 0 s = s := by
  induction s with
  | nil => simp [replaceList]
  | cons c cs ih =>
    rw [List.infix_cons_iff, not_or] at h
    have hp : old.isPrefixOf (c :: cs) = false := by
      rw [← Bool.not_eq_true, List.isPrefixOf_iff_prefix]; exact h.1
    simp [replaceList, hp, ih h.2]

theorem replaceList_at_occurrence (old new : List Char) (rest : List Char)
    (hne : old ≠ []) :
    replaceList old new 0 (old ++ rest) = new ++ replaceList old new 0 rest := by
  cases old with
  | nil => exact absurd rfl hne
  | cons o os =>
    have hp : (o :: os).isPrefixOf (o :: (os ++ rest)) = true := by
      rw [List.isPrefixOf_iff_prefix]; exact List.prefix_append (o :: os) rest
    have hs := replaceList_skip (o :: os) new os rest
    show replaceList (o :: os) new 0 (o :: (os ++ rest)) = _
    rw [replaceList, if_pos hp]
    simp only [List.length_cons, Nat.add_sub_cancel]
    rw [hs]

theorem singleton_infix_iff (c : Char) (s : List Char) : [c] <:+: s ↔ c ∈ s := by
  induction s with
  | nil => simp
  | cons x xs ih =>
    rw [List.infix_cons_iff, ih, List.mem_cons]
    constructor
    · rintro (h | h)
      · left; exact (List.cons_prefix_cons.1 h).1
      · right; exact h
    · rintro (h | h)
      · left; subst h; exact List.prefix_append [c] xs
      · right; exact h

theorem dropWhile_of_head_not (p : Char → Bool) (l : List Char)
    (h : ∀ c, l.head? = some c → p c = false) : l.dropWhile p = l := by
  cases l with
  | nil => rfl
  | cons x xs => simp [List.dropWhile, h x rfl]

theorem trim_head_not_space (l : List Char) (c : Char)
    (h : ((l.dropWhile isSpace).reverse.dropWhile isSpace).reverse.head? = some c) :
    isSpace c = false := by
  have hpre : ((l.dropWhile isSpace).reverse.dropWhile isSpace).reverse <+:
      l.dropWhile isSpace := List.rdropWhile_prefix isSpace (l.dropWhile isSpace)
  have hnot := List.head?_dropWhile_not isSpace l
  obtain ⟨t, ht⟩ := hpre
  cases hr : ((l.dropWhile isSpace).reverse.dropWhile isSpace).reverse with
  | nil => rw [hr] at h; simp at h
  | cons x xs =>
    rw [hr] at h ht
    simp only [List.head?_cons, Option.some.injEq] at h
    rw [← ht] at hnot
    simpa [h] using hnot

theorem trim_last_not_space (l : List Char) (c : Char)
    (h : ((l.dropWhile isSpace).reverse.dropWhile isSpace).reverse.getLast? = some c) :
    isSpace c = false := by
  rw [List.getLast?_reverse] at h
  have hnot := List.head?_dropWhile_not isSpace (l.dropWhile isSpace).reverse
  rw [h] at hnot
  exact hnot

theorem stringsTrimSpace_trimmed (s : String) : Trimmed (stringsTrimSpace s) :=
  ⟨fun c h => trim_head_not_space s.data c h, fun c h => trim_last_not_space s.data c h⟩

theorem stringsTrimSpace_of_trimmed (l : List Char)
    (hh : ∀ c, l.head? = some c → isSpace c = false)
    (hl : ∀ c, l.getLast? = some c → isSpace c = false) :
    ((l.dropWhile isSpace).reverse.dropWhile isSpace).reverse = l := by
  rw [dropWhile_of_head_not isSpace l hh,
    dropWhile_of_head_not isSpace l.reverse (by simpa using hl)]
  simp

theorem stringsTrimSpace_within (l : List Char) :
    ((l.dropWhile isSpace).reverse.dropWhile isSpace).reverse <:+: l :=
  (List.rdropWhile_prefix isSpace (l.dropWhile isSpace)).isInfix.trans
    (List.dropWhile_suffix isSpace).isInfix

theorem stringsReplaceAll_newline (s : String) (h : '\n' ∉ s.data) :
    stringsReplaceAll s "\n" "" = s := by
  have hne : ("\n" : String).data ≠ [] := by decide
  have hno : ¬ ("\n" : String).data <:+: s.data := by
    have e : ("\n" : String).data = ['\n'] := rfl
    rw [e, singleton_infix_iff]; exact h
  unfold stringsReplaceAll
  rw [if_neg hne, replaceList_of_not_contains _ _ _ hno]

theorem targetStr_data_ne : targetStr.data ≠ [] := by decide

theorem stringsReplaceAll_target (s : String) :
    (stringsReplaceAll s targetStr "").data = replaceList targetStr.data [] 0 s.data := by
  unfold stringsReplaceAll
  rw [if_neg targetStr_data_ne]

theorem not_target_infix_space_cons (rest : List Char) (h : ¬ targetStr.data <:+: rest) :
    ¬ targetStr.data <:+: ' ' :: rest := by
  rw [List.infix_cons_iff, not_or]
  refine ⟨fun hp => ?_, h⟩
  have e : targetStr.data = 'D' :: ("M Database Server" : String).data := rfl
  rw [e] at hp
  exact absurd (List.cons_prefix_cons.1 hp).1 (by decide)

/-! ## getDbVersionV1 -/

theorem normalizeV1_of_contains (raw : String) (rest : List Char)
    (hshape : (stringsReplaceAll raw "\n" "").data = targetStr.data ++ rest)
    (hno : ¬ targetStr.data <:+: rest) :
    normalizeV1 raw = stringsTrimSpace ⟨rest⟩ := by
  have hc : stringsContains (stringsReplaceAll raw "\n" "") targetStr = true := by
    unfold stringsContains
    rw [containsList_iff, hshape]
    exact (List.prefix_append _ _).isInfix
  have hr : stringsReplaceAll (stringsReplaceAll raw "\n" "") targetStr "" = ⟨rest⟩ := by
    apply String.ext
    rw [stringsReplaceAll_target, hshape,
      replaceList_at_occurrence _ _ _ targetStr_data_ne,
      replaceList_of_not_contains _ _ _ hno]
    rfl
  simp only [normalizeV1, hc, if_true, hr]

theorem normalizeV1_of_not_contains (raw : String)
    (hc : stringsContains (stringsReplaceAll raw "\n" "") targetStr = false) :
    normalizeV1 raw = stringsReplaceAll raw "\n" "" := by
  simp [normalizeV1, hc]

theorem normalizeV1_trimmed (raw : String)
    (hc : stringsContains (stringsReplaceAll raw "\n" "") targetStr = true) :
    Trimmed (normalizeV1 raw) := by
  simp only [normalizeV1, hc, if_true]
  exact stringsTrimSpace_trimmed _

theorem getDbVersionV1_ok (db : VersionDb) (pos : Int) (raw : String)
    (hpos : db.pos = .ok pos) (hver : db.version (v1VersionQuery pos) = .ok raw) :
    getDbVersionV1 db = (.ok (normalizeV1 raw), [v1PosQuery, v1VersionQuery pos]) := by
  simp [getDbVersionV1, hpos, hver]

theorem normalizeV1_banner (v : String) (hnl : '\n' ∉ v.data) (htrim : Trimmed v)
    (hno : stringsContains v targetStr = false) :
    normalizeV1 ("DM Database Server " ++ v) = v := by
  have hdata : ("DM Database Server " ++ v).data = targetStr.data ++ ' ' :: v.data := by
    rw [String.data_append]
    have e : ("DM Database Server " : String).data = targetStr.data ++ [' '] := by decide
    rw [e, List.append_assoc]; rfl
  have hnl2 : '\n' ∉ ("DM Database Server " ++ v).data := by
    rw [hdata, List.mem_append, List.mem_cons, not_or, not_or]
    exact ⟨by decide, by decide, hnl⟩
  have hno2 : ¬ targetStr.data <:+: v.data := by
    rw [← containsList_iff]; unfold stringsContains at hno; simp [hno]
  rw [normalizeV1_of_contains _ (' ' :: v.data)
    (by rw [stringsReplaceAll_newline _ hnl2, hdata])
    (not_target_infix_space_cons _ hno2)]
  apply String.ext
  show (((' ' :: v.data).dropWhile isSpace).reverse.dropWhile isSpace).reverse = v.data
  have hsp : (' ' :: v.data).dropWhile isSpace = v.data.dropWhile isSpace := by
    rw [List.dropWhile_cons]; simp [show isSpace ' ' = true by decide]
  rw [hsp]
  exact stringsTrimSpace_of_trimmed v.data htrim.1 htrim.2

/-- C5. Fallback version normalisation strips the boilerplate prefix: when the
fallback query returns `DM Database Server ` followed by a text `v` that holds no
newline, no leading or trailing white space and no `DM Database Server`,
`getDbVersionV1` returns exactly `v`, and the sample `Collect` emits in that
cycle (cache miss, V2 failed) carries `v` under `db_version_str`. -/
theorem fallback_version_strips_boilerplate (pkg : Pkg) (config : Config) (db : VersionDb)
    (cache : Cache) (now pos : Int) (e : DbError) (v : String)
    (hnl : '\n' ∉ v.data) (htrim : Trimmed v)
    (hno : stringsContains v targetStr = false)
    (hv2 : db.v2 = .error e) (hpos : db.pos = .ok pos)
    (hver : db.version (v1VersionQuery pos) = .ok ("DM Database Server " ++ v))
    (hmiss : GetFromCache cache now "db_version_info" = none) :
    (getDbVersionV1 db).1 = .ok v ∧
    ∃ m r, DbVersionCollector.Collect pkg config db cache now = some r ∧
      r.metrics = [m] ∧ m.desc = versionInfoDesc ∧
      m.labelValues = [pkg.Hostname, v, "", ""] ∧
      m.label "db_version_str" = some v := by
  have h1 := getDbVersionV1_ok db pos _ hpos hver
  rw [normalizeV1_banner v hnl htrim hno] at h1
  refine ⟨by rw [h1], ?_⟩
  refine ⟨⟨versionInfoDesc, ValueType.GaugeValue, Float64.one, [pkg.Hostname, v, "", ""]⟩,
    ⟨_, [pkg.QueryVersionInfoSqlStr, v1PosQuery, v1VersionQuery pos],
      SetCache cache now "db_version_info" (cacheValueV1 v)
        (durationMul timeMinute config.BigKeyDataCacheTime)⟩, ?_, rfl, rfl, rfl, rfl⟩
  simp only [DbVersionCollector.Collect, DbVersionCollector.cached, hmiss, getDbVersionV2,
    hv2, h1]
  rfl

/-- C5 at the scenario of the specification: the fallback query returns
`DM Database Server 08.1.2.100` and the emitted label value is `08.1.2.100`. -/
theorem fallback_version_strips_boilerplate_witness :
    (getDbVersionV1 (fallbackDb "DM Database Server 08.1.2.100")).1 = .ok "08.1.2.100" ∧
    ∃ m r, DbVersionCollector.Collect samplePkg sampleConfig
        (fallbackDb "DM Database Server 08.1.2.100") [] 0 = some r ∧
      r.metrics = [m] ∧ m.desc = versionInfoDesc ∧
      m.labelValues = [samplePkg.Hostname, "08.1.2.100", "", ""] ∧
      m.label "db_version_str" = some "08.1.2.100" :=
  fallback_version_strips_boilerplate samplePkg sampleConfig
    (fallbackDb "DM Database Server 08.1.2.100") [] 0 0 (.Other "connection refused")
    "08.1.2.100" (by decide)
    ⟨fun c h => by cases h; decide, fun c h => by cases h; decide⟩
    (by decide) rfl rfl rfl rfl

/-- C6 (counterexample). The fallback query returns a text in which the
boilerplate is nested inside another copy of itself; the single removal pass
joins the outer halves and `getDbVersionV1` returns `DM Database Server`. -/
theorem getDbVersionV1_boilerplate_survives :
    (getDbVersionV1 (fallbackDb "DM DDM Database Serveratabase Server")).1 =
      .ok "DM Database Server" ∧
    stringsContains "DM Database Server" targetStr = true := by
  have h : normalizeV1 "DM DDM Database Serveratabase Server" = "DM Database Server" := by
    decide
  exact ⟨congrArg Except.ok h, by decide⟩

/-- C6 (amended). When the text the fallback query returns, newlines removed,
either holds no `DM Database Server` or is `DM Database Server` followed by a
text that holds none, the version string `getDbVersionV1` returns does not
contain `DM Database Server`. -/
theorem getDbVersionV1_boilerplate_stripped (db : VersionDb) (pos : Int)
    (raw rest : String)
    (hpos : db.pos = .ok pos) (hver : db.version (v1VersionQuery pos) = .ok raw)
    (hshape : stringsContains (stringsReplaceAll raw "\n" "") targetStr = false ∨
      (stringsReplaceAll raw "\n" "" = targetStr ++ rest ∧
        stringsContains rest targetStr = false)) :
    ∃ out, (getDbVersionV1 db).1 = .ok out ∧ stringsContains out targetStr = false := by
  refine ⟨normalizeV1 raw, by rw [getDbVersionV1_ok db pos raw hpos hver], ?_⟩
  rcases hshape with hc | ⟨hs, hr⟩
  · rw [normalizeV1_of_not_contains raw hc]; exact hc
  · have hno : ¬ targetStr.data <:+: rest.data := by
      rw [← containsList_iff]; unfold stringsContains at hr; simp [hr]
    rw [normalizeV1_of_contains raw rest.data (by rw [hs, String.data_append]) hno]
    unfold stringsContains
    rw [containsList_false_iff]
    exact fun h => hno (h.trans (stringsTrimSpace_within rest.data))

/-- C6 (amended) at the banner `DM Database Server 08.1.2.100`. -/
theorem getDbVersionV1_boilerplate_stripped_witness :
    ∃ out, (getDbVersionV1 (fallbackDb "DM Database Server 08.1.2.100")).1 = .ok out ∧
      stringsContains out targetStr = false :=
  getDbVersionV1_boilerplate_stripped (fallbackDb "DM Database Server 08.1.2.100") 0
    "DM Database Server 08.1.2.100" " 08.1.2.100" rfl rfl
    (Or.inr ⟨by decide, by decide⟩)

/-- C7 (counterexample). The position query answers 1, so the fallback statement
is the one over `v$instance`, `svr_version || '-' || BUILD_VERSION`; it returns
a text without the boilerplate and with white space at both ends, and
`getDbVersionV1` returns it with that white space. -/
theorem getDbVersionV1_keeps_whitespace :
    getDbVersionV1 (instanceDb " 8.1.2.100-build \n") =
      (.ok " 8.1.2.100-build ",
        [v1PosQuery,
          "SELECT /*+DM_EXPORTER*/ svr_version || '-' || BUILD_VERSION VERSION FROM v$instance"]) ∧
    ¬ Trimmed " 8.1.2.100-build " := by
  have hn : normalizeV1 " 8.1.2.100-build \n" = " 8.1.2.100-build " := by decide
  have hq : v1VersionQuery 1 =
      "SELECT /*+DM_EXPORTER*/ svr_version || '-' || BUILD_VERSION VERSION FROM v$instance" :=
    by decide
  have hv : (instanceDb " 8.1.2.100-build \n").version (v1VersionQuery 1) =
      .ok " 8.1.2.100-build \n" := by
    simp [instanceDb]
  refine ⟨?_, fun h => absurd (h.1 ' ' rfl) (by decide)⟩
  have hg : getDbVersionV1 (instanceDb " 8.1.2.100-build \n") =
      (.ok (normalizeV1 " 8.1.2.100-build \n"), [v1PosQuery, v1VersionQuery 1]) := by
    simp only [getDbVersionV1, instanceDb]
    simp
  rw [hg, hn, hq]

/-- C7 (amended). The version string `getDbVersionV1` returns has no leading and
no trailing white space when the text the fallback query returns holds
`DM Database Server`; when it does not, the text is returned with its newlines
removed and otherwise unchanged. -/
theorem getDbVersionV1_trimmed_with_boilerplate (db : VersionDb) (pos : Int) (raw : String)
    (hpos : db.pos = .ok pos) (hver : db.version (v1VersionQuery pos) = .ok raw) :
    ∃ out, (getDbVersionV1 db).1 = .ok out ∧
      (stringsContains (stringsReplaceAll raw "\n" "") targetStr = true → Trimmed out) ∧
      (stringsContains (stringsReplaceAll raw "\n" "") targetStr = false →
        out = stringsReplaceAll raw "\n" "") :=
  ⟨normalizeV1 raw, by rw [getDbVersionV1_ok db pos raw hpos hver],
    normalizeV1_trimmed raw, normalizeV1_of_not_contains raw⟩

/-- C7 (amended) at the banner `DM Database Server 64 V8` joined to an
identification code that ends in a blank and a newline. -/
theorem getDbVersionV1_trimmed_with_boilerplate_witness :
    ∃ out, (getDbVersionV1 (fallbackDb "DM Database Server 64 V8 1-2-18 \n")).1 = .ok out ∧
      (stringsContains (stringsReplaceAll "DM Database Server 64 V8 1-2-18 \n" "\n" "")
          targetStr = true → Trimmed out) ∧
      (stringsContains (stringsReplaceAll "DM Database Server 64 V8 1-2-18 \n" "\n" "")
          targetStr = false →
        out = stringsReplaceAll "DM Database Server 64 V8 1-2-18 \n" "\n" "") :=
  getDbVersionV1_trimmed_with_boilerplate (fallbackDb "DM Database Server 64 V8 1-2-18 \n") 0
    "DM Database Server 64 V8 1-2-18 \n" rfl rfl

/-! ## The version cache -/

theorem splitList_no_sep (sep : Char) (a : List Char) (h : sep ∉ a) :
    splitList sep a = [a] := by
  induction a with
  | nil => rfl
  | cons x xs ih =>
    rw [List.mem_cons, not_or] at h
    have hx : ¬ x = sep := fun e => h.1 e.symm
    simp [splitList, hx, ih h.2]

theorem splitList_append_sep (sep : Char) (a r : List Char) (h : sep ∉ a) :
    splitList sep (a ++ sep :: r) = a :: splitList sep r := by
  induction a with
  | nil => simp [splitList]
  | cons x xs ih =>
    rw [List.mem_cons, not_or] at h
    have hx : ¬ x = sep := fun e => h.1 e.symm
    simp [splitList, hx, ih h.2]

theorem cacheValueV2_data (vi : DbVersionInfo) :
    (cacheValueV2 vi).data =
      (NullStringToString vi.idCode).data ++ '|' ::
        ((NullStringToString vi.buildType).data ++ '|' ::
          (NullStringToString vi.innerVer).data) := by
  simp [cacheValueV2, String.data_append]

theorem cacheValueV1_data (s : String) : (cacheValueV1 s).data = s.data ++ ['|', '|'] := by
  simp [cacheValueV1, String.data_append]

theorem stringsSplit_three (a b c : String) (ha : NoBar a) (hb : NoBar b) (hc : NoBar c)
    (v : String) (hv : v.data = a.data ++ '|' :: (b.data ++ '|' :: c.data)) :
    stringsSplit v '|' = [a, b, c] := by
  unfold stringsSplit
  rw [hv, splitList_append_sep _ _ _ ha, splitList_append_sep _ _ _ hb,
    splitList_no_sep _ _ hc]
  rfl

theorem GetFromCache_SetCache (cache : Cache) (now now1 : Int) (key value : String)
    (ttl : Int) :
    GetFromCache (SetCache cache now key value ttl) now1 key =
      if now1 ≤ now + ttl then some value else none := by
  simp [GetFromCache, SetCache, List.find?_cons]

theorem bar_tail_unique (s a b c : List Char) (hb : '|' ∉ b) (hc : '|' ∉ c)
    (h : s ++ ['|', '|'] = a ++ '|' :: (b ++ '|' :: c)) : a = s ∧ b = [] ∧ c = [] := by
  have hr := congrArg List.reverse h
  simp only [List.reverse_append, List.reverse_cons, List.reverse_nil, List.nil_append,
    List.append_assoc, List.singleton_append, List.cons_append] at hr
  cases hcr : c.reverse with
  | cons x xs =>
    rw [hcr] at hr
    simp only [List.cons_append, List.cons.injEq] at hr
    exact absurd (List.mem_reverse.1 (hcr ▸ hr.1 ▸ List.mem_cons_self _ _)) hc
  | nil =>
    rw [hcr] at hr
    simp only [List.nil_append, List.cons.injEq, true_and] at hr
    cases hbr : b.reverse with
    | cons y ys =>
      rw [hbr] at hr
      simp only [List.cons_append, List.cons.injEq] at hr
      exact absurd (List.mem_reverse.1 (hbr ▸ hr.1 ▸ List.mem_cons_self _ _)) hb
    | nil =>
      rw [hbr] at hr
      simp only [List.nil_append, List.cons.injEq, true_and] at hr
      exact ⟨(List.reverse_injective hr).symm, List.reverse_eq_nil_iff.1 hbr,
        List.reverse_eq_nil_iff.1 hcr⟩

/-- C8 (counterexample). The fallback string `8.1.2.100` and the V2 row with
idCode `8.1.2.100` and NULL build type and inner version are cached as the same
value `8.1.2.100||`. -/
theorem version_cache_values_coincide :
    cacheValueV1 "8.1.2.100" =
      cacheValueV2 ⟨⟨"8.1.2.100", true⟩, ⟨"", false⟩, ⟨"", false⟩⟩ := by
  decide

/-- C8 (amended). For a V2 result whose coerced build type and inner version hold
no `|`, the cache value written for a V1 string `s` equals the cache value
written for the V2 result exactly when the coerced idCode is `s` and the coerced
build type and inner version are both empty; for every other such V2 result the
two cache values differ. -/
theorem version_cache_values_differ (s : String) (versionInfo : DbVersionInfo)
    (hbt : NoBar (NullStringToString versionInfo.buildType))
    (hiv : NoBar (NullStringToString versionInfo.innerVer)) :
    cacheValueV1 s = cacheValueV2 versionInfo ↔
      (NullStringToString versionInfo.idCode = s ∧
        NullStringToString versionInfo.buildType = "" ∧
        NullStringToString versionInfo.innerVer = "") := by
  constructor
  · intro h
    have hd := congrArg String.data h
    rw [cacheValueV1_data, cacheValueV2_data] at hd
    obtain ⟨h1, h2, h3⟩ := bar_tail_unique _ _ _ _ hbt hiv hd
    exact ⟨String.ext h1, String.ext h2, String.ext h3⟩
  · rintro ⟨h1, h2, h3⟩
    apply String.ext
    rw [cacheValueV1_data, cacheValueV2_data, h1, h2, h3]
    rfl

/-- C8 (amended) at the V2 row (`8.1.2.100`, `ENT`, `8.1.2.100-2023`): its cache
value differs from the one of the V1 string `8.1.2.100`. -/
theorem version_cache_values_differ_witness :
    cacheValueV1 "8.1.2.100" =
        cacheValueV2 ⟨⟨"8.1.2.100", true⟩, ⟨"ENT", true⟩, ⟨"8.1.2.100-2023", true⟩⟩ ↔
      (NullStringToString (⟨"8.1.2.100", true⟩ : NullString) = "8.1.2.100" ∧
        NullStringToString (⟨"ENT", true⟩ : NullString) = "" ∧
        NullStringToString (⟨"8.1.2.100-2023", true⟩ : NullString) = "") :=
  version_cache_values_differ "8.1.2.100"
    ⟨⟨"8.1.2.100", true⟩, ⟨"ENT", true⟩, ⟨"8.1.2.100-2023", true⟩⟩
    (by unfold NoBar; decide) (by unfold NoBar; decide)

theorem MustNewConstMetric_version (host a b c : String) :
    MustNewConstMetric versionInfoDesc ValueType.GaugeValue Float64.one [host, a, b, c] =
      some ⟨versionInfoDesc, ValueType.GaugeValue, Float64.one, [host, a, b, c]⟩ := rfl

theorem cached_issues_no_query (pkg : Pkg) (cache : Cache) (now : Int) (r : Cycle)
    (h : DbVersionCollector.cached pkg cache now = some (some r)) : r.queries = [] := by
  unfold DbVersionCollector.cached at h
  split at h
  · split at h
    · rw [MustNewConstMetric_version] at h
      simp only [Option.map_some', Option.some.injEq] at h
      rw [← h]
    · exact absurd h (by simp)
  · exact absurd h (by simp)

theorem Collect_of_cached_value (pkg : Pkg) (config : Config) (db : VersionDb)
    (cache : Cache) (now : Int) (value a b c : String)
    (hget : GetFromCache cache now "db_version_info" = some value)
    (hsplit : stringsSplit value '|' = [a, b, c]) :
    DbVersionCollector.Collect pkg config db cache now =
      some ⟨[⟨versionInfoDesc, ValueType.GaugeValue, Float64.one, [pkg.Hostname, a, b, c]⟩],
        [], cache⟩ := by
  simp only [DbVersionCollector.Collect, DbVersionCollector.cached, hget, hsplit]
  rfl

theorem found_after_SetCache (cache : Cache) (now now1 : Int) (key value : String) (ttl : Int)
    (h : (GetFromCache (SetCache cache now key value ttl) now1 key).isSome) :
    GetFromCache (SetCache cache now key value ttl) now1 key = some value := by
  rw [GetFromCache_SetCache] at h ⊢
  split
  · rfl
  · rename_i hn; simp [hn] at h

theorem NoBar_empty : NoBar "" := by
  unfold NoBar; decide

/-- C9 (counterexample). The fallback query yields the version string
`8.1.2|x64`; `Collect` stores `8.1.2|x64||`; the next cycle finds that entry,
splits it into four parts, and queries the database again. -/
theorem version_cache_entry_requeried :
    ∃ r1 r2,
      DbVersionCollector.Collect samplePkg sampleConfig (fallbackDb "8.1.2|x64") [] 0 =
        some r1 ∧
      GetFromCache r1.cache 1 "db_version_info" = some "8.1.2|x64||" ∧
      DbVersionCollector.Collect samplePkg sampleConfig (fallbackDb "8.1.2|x64") r1.cache 1 =
        some r2 ∧
      r2.queries = ["QueryVersionInfoSqlStr", v1PosQuery, v1VersionQuery 0] := by
  refine ⟨_, _, rfl, ?_, rfl, ?_⟩ <;> decide

/-- C9 (amended). Version cache round trip for results free of `|`: when a cycle
of `DbVersionCollector.Collect` went to the database and emitted a sample `m`
(the cycles that store a version result, V2 triple or V1 string) and the
version label values of `m` hold no `|`, the cache was written under
`db_version_info`, and every later cycle that finds that entry emits exactly
`m`, issues no query and leaves the cache as it is, whatever the database
would answer. -/
theorem version_cache_round_trip (pkg : Pkg) (config : Config) (db : VersionDb)
    (cache : Cache) (now : Int) (r1 : Cycle) (m : Metric)
    (h1 : DbVersionCollector.Collect pkg config db cache now = some r1)
    (hq : r1.queries ≠ []) (hm : r1.metrics = [m])
    (hbar : ∀ v ∈ m.labelValues.tail, NoBar v) :
    (∃ value, r1.cache = SetCache cache now "db_version_info" value
        (durationMul timeMinute config.BigKeyDataCacheTime)) ∧
    ∀ (db1 : VersionDb) (now1 : Int),
      (GetFromCache r1.cache now1 "db_version_info").isSome →
      DbVersionCollector.Collect pkg config db1 r1.cache now1 = some ⟨[m], [], r1.cache⟩ := by
  unfold DbVersionCollector.Collect at h1
  cases hc : DbVersionCollector.cached pkg cache now with
  | some r =>
    rw [hc] at h1
    simp only at h1
    rw [h1] at hc
    exact absurd (cached_issues_no_query pkg cache now r1 hc) hq
  | none =>
    rw [hc] at h1
    simp only [getDbVersionV2] at h1
    cases hv2 : db.v2 with
    | error e =>
      rw [hv2] at h1
      simp only at h1
      cases hv1 : getDbVersionV1 db with
      | mk res q1 =>
        rw [hv1] at h1
        cases res with
        | error e1 =>
          simp only [Option.some.injEq] at h1
          rw [← h1] at hm
          exact absurd hm (by simp)
        | ok dbVersion =>
          simp only [MustNewConstMetric_version, Option.map_some', Option.some.injEq] at h1
          subst h1
          simp only [List.cons.injEq, and_true] at hm
          subst hm
          have hv : NoBar dbVersion := hbar dbVersion (by simp)
          refine ⟨⟨_, rfl⟩, fun db1 now1 hfound => ?_⟩
          exact Collect_of_cached_value pkg config db1 _ now1 _ dbVersion "" ""
            (found_after_SetCache _ _ _ _ _ _ hfound)
            (stringsSplit_three dbVersion "" "" hv NoBar_empty NoBar_empty _
              (by rw [cacheValueV1_data]; rfl))
    | ok versionInfo =>
      rw [hv2] at h1
      simp only [MustNewConstMetric_version, Option.map_some', Option.some.injEq] at h1
      subst h1
      simp only [List.cons.injEq, and_true] at hm
      subst hm
      refine ⟨⟨_, rfl⟩, fun db1 now1 hfound => ?_⟩
      exact Collect_of_cached_value pkg config db1 _ now1 _ _ _ _
        (found_after_SetCache _ _ _ _ _ _ hfound)
        (stringsSplit_three _ _ _ (hbar _ (by simp)) (hbar _ (by simp)) (hbar _ (by simp)) _
          (cacheValueV2_data versionInfo))

/-- C9 (amended) at the scenario: the V1 string `08.1.2.100`, cached at time 0,
is emitted again from the cache by every later cycle that finds it. -/
theorem version_cache_round_trip_witness :
    (∃ value, storedVersionCycle.cache = SetCache [] 0 "db_version_info" value
        (durationMul timeMinute sampleConfig.BigKeyDataCacheTime)) ∧
    ∀ (db1 : VersionDb) (now1 : Int),
      (GetFromCache storedVersionCycle.cache now1 "db_version_info").isSome →
      DbVersionCollector.Collect samplePkg sampleConfig db1 storedVersionCycle.cache now1 =
        some ⟨[storedVersionSample], [], storedVersionCycle.cache⟩ :=
  version_cache_round_trip samplePkg sampleConfig (fallbackDb "DM Database Server 08.1.2.100")
    [] 0 storedVersionCycle storedVersionSample (by decide) (by decide) rfl
    (by
      intro v hv
      simp only [storedVersionSample, List.tail_cons, List.mem_cons, List.mem_singleton,
        List.not_mem_nil, or_false] at hv
      rcases hv with rfl | rfl | rfl <;> (unfold NoBar; decide))

/-! ## The tablespace probes -/

theorem tablespace_emitQueried (pkg : Pkg) (rows : List TableSpaceInfo) :
    NewTableSpaceInfoCollector.emitQueried pkg rows =
      some (rows.flatMap (fun info =>
        [⟨NewTableSpaceInfoCollector.totalDesc, ValueType.GaugeValue, info.TotalSize,
            [pkg.Hostname, info.TablespaceName]⟩,
          ⟨NewTableSpaceInfoCollector.freeDesc, ValueType.GaugeValue, info.FreeSize,
            [pkg.Hostname, info.TablespaceName]⟩])) := by
  induction rows with
  | nil => rfl
  | cons info rest ih => rw [TableSpaceInfoCollector.emitQueried, ih]; rfl

theorem tablespace_emitCached (pkg : Pkg) (rows : List TableSpaceInfo) :
    NewTableSpaceInfoCollector.emitCached pkg rows =
      NewTableSpaceInfoCollector.emitQueried pkg rows := by
  induction rows with
  | nil => rfl
  | cons info rest ih =>
    rw [TableSpaceInfoCollector.emitCached, TableSpaceInfoCollector.emitQueried, ih]

theorem datafile_emitQueried (pkg : Pkg) (rows : List TableSpaceDateFileInfo) :
    NewTableSpaceDateFileInfoCollector.emitQueried pkg rows =
      some (rows.flatMap (fun info =>
        [⟨NewTableSpaceDateFileInfoCollector.totalDesc, ValueType.GaugeValue, info.TotalSize,
            [pkg.Hostname, info.Path, info.AutoExtend, info.NextSize, info.MaxSize]⟩,
          ⟨NewTableSpaceDateFileInfoCollector.freeDesc, ValueType.GaugeValue, info.FreeSize,
            [pkg.Hostname, info.Path, info.AutoExtend, info.NextSize, info.MaxSize]⟩])) := by
  induction rows with
  | nil => rfl
  | cons info rest ih => rw [TableSpaceDateFileInfoCollector.emitQueried, ih]; rfl

theorem datafile_emitCached (pkg : Pkg) (rows : List TableSpaceDateFileInfo) :
    NewTableSpaceDateFileInfoCollector.emitCached pkg rows =
      NewTableSpaceDateFileInfoCollector.emitQueried pkg rows := by
  induction rows with
  | nil => rfl
  | cons info rest ih =>
    rw [TableSpaceDateFileInfoCollector.emitCached,
      TableSpaceDateFileInfoCollector.emitQueried, ih]

/-- C10. Cached tablespace read, for `TableSpaceInfoCollector` and for
`TableSpaceDateFileInfoCollector`: when a cycle that found no cache entry ran a
successful query, emitted its samples and stored the serialized rows (the
marshalled text decodes back to the rows), the cycle issued the one query, and
every following cycle that finds the entry emits the identical sequence of
samples, issues no query and leaves the cache as it is, whatever the database
would answer. -/
theorem tablespace_cached_read (pkg : Pkg) (config : Config)
    (json : JsonCodec TableSpaceInfo) (jsonFiles : JsonCodec TableSpaceDateFileInfo)
    (rows : Rows TableSpaceInfo) (fileRows : Rows TableSpaceDateFileInfo)
    (cache : Cache) (now : Int) (payload filePayload : String)
    (hmiss : GetFromCache cache now dmdbms_tablespace_size_total_info = none)
    (hstore : json.Marshal (scannedRows rows.scanned) = some payload)
    (hback : json.Unmarshal payload = .ok (scannedRows rows.scanned))
    (hmissF : GetFromCache cache now tablespaceFileCacheKey = none)
    (hstoreF : jsonFiles.Marshal (scannedRows fileRows.scanned) = some filePayload)
    (hbackF : jsonFiles.Unmarshal filePayload = .ok (scannedRows fileRows.scanned)) :
    (∃ r1,
      NewTableSpaceInfoCollector.Collect pkg config json (.ok rows) cache now = some r1 ∧
      r1.queries = [pkg.QueryTablespaceInfoSqlStr] ∧
      r1.cache = SetCache cache now dmdbms_tablespace_size_total_info payload
        (durationMul timeMinute config.BigKeyDataCacheTime) ∧
      ∀ (q1 : QueryOutcome TableSpaceInfo) (now1 : Int),
        (GetFromCache r1.cache now1 dmdbms_tablespace_size_total_info).isSome →
        NewTableSpaceInfoCollector.Collect pkg config json q1 r1.cache now1 =
          some ⟨r1.metrics, [], r1.cache⟩) ∧
    (∃ r1,
      NewTableSpaceDateFileInfoCollector.Collect pkg config jsonFiles (.ok fileRows) cache now =
        some r1 ∧
      r1.queries = [pkg.QueryTablespaceFileSqlStr] ∧
      r1.cache = SetCache cache now tablespaceFileCacheKey filePayload
        (durationMul timeMinute config.BigKeyDataCacheTime) ∧
      ∀ (q1 : QueryOutcome TableSpaceDateFileInfo) (now1 : Int),
        (GetFromCache r1.cache now1 tablespaceFileCacheKey).isSome →
        NewTableSpaceDateFileInfoCollector.Collect pkg config jsonFiles q1 r1.cache now1 =
          some ⟨r1.metrics, [], r1.cache⟩) := by
  constructor
  · refine ⟨⟨(scannedRows rows.scanned).flatMap (fun info =>
        [⟨NewTableSpaceInfoCollector.totalDesc, ValueType.GaugeValue, info.TotalSize,
            [pkg.Hostname, info.TablespaceName]⟩,
          ⟨NewTableSpaceInfoCollector.freeDesc, ValueType.GaugeValue, info.FreeSize,
            [pkg.Hostname, info.TablespaceName]⟩]),
        [pkg.QueryTablespaceInfoSqlStr],
        SetCache cache now dmdbms_tablespace_size_total_info payload
          (durationMul timeMinute config.BigKeyDataCacheTime)⟩, ?_, rfl, rfl, ?_⟩
    · simp only [TableSpaceInfoCollector.Collect, hmiss,
        TableSpaceInfoCollector.queryAndStore, List.nil_append, tablespace_emitQueried,
        hstore, Option.map_some']
    · intro q1 now1 hfound
      simp only [TableSpaceInfoCollector.Collect,
        found_after_SetCache _ _ _ _ _ _ hfound, hback, tablespace_emitCached,
        tablespace_emitQueried, Option.map_some']
  · refine ⟨⟨(scannedRows fileRows.scanned).flatMap (fun info =>
        [⟨NewTableSpaceDateFileInfoCollector.totalDesc, ValueType.GaugeValue, info.TotalSize,
            [pkg.Hostname, info.Path, info.AutoExtend, info.NextSize, info.MaxSize]⟩,
          ⟨NewTableSpaceDateFileInfoCollector.freeDesc, ValueType.GaugeValue, info.FreeSize,
            [pkg.Hostname, info.Path, info.AutoExtend, info.NextSize, info.MaxSize]⟩]),
        [pkg.QueryTablespaceFileSqlStr],
        SetCache cache now tablespaceFileCacheKey filePayload
          (durationMul timeMinute config.BigKeyDataCacheTime)⟩, ?_, rfl, rfl, ?_⟩
    · simp only [TableSpaceDateFileInfoCollector.Collect, hmissF,
        TableSpaceDateFileInfoCollector.queryAndStore, List.nil_append, datafile_emitQueried,
        hstoreF, Option.map_some']
    · intro q1 now1 hfound
      simp only [TableSpaceDateFileInfoCollector.Collect,
        found_after_SetCache _ _ _ _ _ _ hfound, hbackF, datafile_emitCached,
        datafile_emitQueried, Option.map_some']

/-- C10 at a concrete first cycle: empty cache at time 0, a result set with one
unscannable row, and the two scanned rows serialized and decoded by the codec. -/
theorem tablespace_cached_read_witness :
    (∃ r1,
      NewTableSpaceInfoCollector.Collect samplePkg sampleConfig sampleJson
        (.ok sampleTablespaceRows) [] 0 = some r1 ∧
      r1.queries = [samplePkg.QueryTablespaceInfoSqlStr] ∧
      r1.cache = SetCache [] 0 dmdbms_tablespace_size_total_info sampleTablespacesJSON
        (durationMul timeMinute sampleConfig.BigKeyDataCacheTime) ∧
      ∀ (q1 : QueryOutcome TableSpaceInfo) (now1 : Int),
        (GetFromCache r1.cache now1 dmdbms_tablespace_size_total_info).isSome →
        NewTableSpaceInfoCollector.Collect samplePkg sampleConfig sampleJson q1 r1.cache now1 =
          some ⟨r1.metrics, [], r1.cache⟩) ∧
    (∃ r1,
      NewTableSpaceDateFileInfoCollector.Collect samplePkg sampleConfig sampleJsonFiles
        (.ok sampleDataFileRows) [] 0 = some r1 ∧
      r1.queries = [samplePkg.QueryTablespaceFileSqlStr] ∧
      r1.cache = SetCache [] 0 tablespaceFileCacheKey sampleDataFilesJSON
        (durationMul timeMinute sampleConfig.BigKeyDataCacheTime) ∧
      ∀ (q1 : QueryOutcome TableSpaceDateFileInfo) (now1 : Int),
        (GetFromCache r1.cache now1 tablespaceFileCacheKey).isSome →
        NewTableSpaceDateFileInfoCollector.Collect samplePkg sampleConfig sampleJsonFiles q1
            r1.cache now1 =
          some ⟨r1.metrics, [], r1.cache⟩) :=
  tablespace_cached_read samplePkg sampleConfig sampleJson sampleJsonFiles
    sampleTablespaceRows sampleDataFileRows [] 0 sampleTablespacesJSON sampleDataFilesJSON
    rfl rfl rfl rfl rfl rfl

/-! ## Emission loops and scanning -/

theorem scannedRows_map_ok {α : Type} (l : List α) :
    scannedRows (l.map (fun a => (Except.ok a : Except DbError α))) = l := by
  induction l with
  | nil => rfl
  | cons a rest ih => simp [scannedRows, ih]

theorem scannedRows_one_error {α : Type} (front back : List α) (e : DbError) :
    scannedRows (front.map (fun a => (Except.ok a : Except DbError α)) ++
      Except.error e :: back.map (fun a => (Except.ok a : Except DbError α))) =
      front ++ back := by
  induction front with
  | nil => simp [scannedRows, scannedRows_map_ok]
  | cons a rest ih => simp [scannedRows, ih]

theorem bufferPool_emit (infos : List BufferPoolInfo) :
    DbBufferPoolInfoCollector.emit infos =
      some (infos.map (fun info =>
        ⟨bufferPoolInfoDesc, ValueType.GaugeValue, NullFloat64ToFloat64 info.hitRate,
          [NullStringToString info.bufferName]⟩)) := by
  induction infos with
  | nil => rfl
  | cons info rest ih => rw [DbBufferPoolInfoCollector.emit, ih]; rfl

theorem monitor_emit (pkg : Pkg) (infos : List MonitorInfo) :
    MonitorInfoCollector.emit pkg infos =
      some (infos.map (fun info =>
        ⟨monitorInfoDesc, ValueType.GaugeValue, NullFloat64ToFloat64 info.Mid,
          [pkg.Hostname, NullStringToString info.DwConnTime,
            NullStringToString info.MonConfirm, NullStringToString info.MonId,
            NullStringToString info.MonIp, NullStringToString info.MonVersion]⟩)) := by
  induction infos with
  | nil => rfl
  | cons info rest ih => rw [MonitorInfoCollector.emit, ih]; rfl

theorem archSend_emit (infos : List DbArchSendDetailInfo) :
    DbArchSendCollector.emit infos =
      some (infos.flatMap (fun info =>
        [⟨archSendDetailInfo, ValueType.GaugeValue, NullFloat64ToFloat64 info.lsnDiff,
            [NullStringToString info.archType, NullStringToString info.archDest]⟩,
          ⟨archSendDiffValue, ValueType.GaugeValue, NullFloat64ToFloat64 info.lsnDiff,
            [NullStringToString info.archType, NullStringToString info.archDest]⟩])) := by
  induction infos with
  | nil => rfl
  | cons info rest ih => rw [DbArchSendCollector.emit, ih]; rfl

theorem archStatus_emit (infos : List DbArchStatusInfo) :
    DbArchStatusCollector.emit infos =
      some (infos.map (fun info =>
        ⟨archStatusInfo, ValueType.GaugeValue, NullFloat64ToFloat64 info.archStatus,
          [NullStringToString info.archType, NullStringToString info.archDest,
            NullStringToString info.archSrc]⟩)) := by
  induction infos with
  | nil => rfl
  | cons info rest ih => rw [DbArchStatusCollector.emit, ih]; rfl

/-! ## DbBufferPoolInfoCollector -/

/-- C17. Partial-row resilience of `DbBufferPoolInfoCollector.Collect`: for every
result set of a successful query, the samples are one per row that scanned, in
row order, each with the coerced buffer name as its label and the coerced hit
rate as its value; with one malformed row anywhere among well-formed rows the
number of samples is the number of well-formed rows (nine for nine). -/
theorem bufferPool_partial_rows (sql : SqlText) (config : Config) :
    (∀ rows : Rows BufferPoolInfo,
      DbBufferPoolInfoCollector.Collect sql config (.ok rows) =
        some ⟨(scannedRows rows.scanned).map (fun info =>
            ⟨bufferPoolInfoDesc, ValueType.GaugeValue, NullFloat64ToFloat64 info.hitRate,
              [NullStringToString info.bufferName]⟩),
          [⟨Context.WithTimeout config.QueryTimeout, sql.QueryBufferPoolHitRateInfoSql⟩]⟩) ∧
    (∀ (front back : List BufferPoolInfo) (e : DbError) (err : Option DbError),
      (DbBufferPoolInfoCollector.Collect sql config
        (.ok ⟨front.map Except.ok ++ Except.error e :: back.map Except.ok, err⟩)).map
          (fun r => r.metrics.length) = some (front.length + back.length)) ∧
    (∀ (front back : List BufferPoolInfo) (e : DbError) (err : Option DbError),
      front.length + back.length = 9 →
      (DbBufferPoolInfoCollector.Collect sql config
        (.ok ⟨front.map Except.ok ++ Except.error e :: back.map Except.ok, err⟩)).map
          (fun r => r.metrics.length) = some 9) := by
  have h1 : ∀ rows : Rows BufferPoolInfo,
      DbBufferPoolInfoCollector.Collect sql config (.ok rows) =
        some ⟨(scannedRows rows.scanned).map (fun info =>
            ⟨bufferPoolInfoDesc, ValueType.GaugeValue, NullFloat64ToFloat64 info.hitRate,
              [NullStringToString info.bufferName]⟩),
          [⟨Context.WithTimeout config.QueryTimeout, sql.QueryBufferPoolHitRateInfoSql⟩]⟩ := by
    intro rows
    simp only [DbBufferPoolInfoCollector.Collect, bufferPool_emit, Option.map_some']
  have h2 : ∀ (front back : List BufferPoolInfo) (e : DbError) (err : Option DbError),
      (DbBufferPoolInfoCollector.Collect sql config
        (.ok ⟨front.map Except.ok ++ Except.error e :: back.map Except.ok, err⟩)).map
          (fun r => r.metrics.length) = some (front.length + back.length) := by
    intro front back e err
    rw [h1]
    simp only [Option.map_some', List.length_map, scannedRows_one_error, List.length_append]
  exact ⟨h1, h2, fun front back e err h9 => by rw [h2, h9]⟩

/-! ## A cached text that does not decode -/

/-- C11 (the code at the failing input). The cache holds a text that
`json.Unmarshal` rejects after filling in one row (`OLD`); the live query
returns the row `MAIN`. `TableSpaceInfoCollector.Collect` emits the samples of
`OLD` in front of those of `MAIN` and stores both rows, while the same cycle
with no cache entry emits and stores `MAIN` alone. -/
theorem tablespace_corrupt_cache_not_a_miss :
    ∃ r r0,
      NewTableSpaceInfoCollector.Collect samplePkg sampleConfig staleJson
        (.ok ⟨[.ok liveTablespace], none⟩) corruptCache 0 = some r ∧
      NewTableSpaceInfoCollector.Collect samplePkg sampleConfig staleJson
        (.ok ⟨[.ok liveTablespace], none⟩) [] 0 = some r0 ∧
      r0.metrics.map (fun m => m.labelValues) = [["db01", "MAIN"], ["db01", "MAIN"]] ∧
      r.metrics.map (fun m => m.labelValues) =
        [["db01", "OLD"], ["db01", "OLD"], ["db01", "MAIN"], ["db01", "MAIN"]] ∧
      GetFromCache r0.cache 0 dmdbms_tablespace_size_total_info =
        some "[\x7b\"TablespaceName\":\"MAIN\",\"TotalSize\":2048,\"FreeSize\":1024\x7d]" ∧
      GetFromCache r.cache 0 dmdbms_tablespace_size_total_info =
        some ("[\x7b\"TablespaceName\":\"OLD\",\"TotalSize\":1,\"FreeSize\":0\x7d," ++
          "\x7b\"TablespaceName\":\"MAIN\",\"TotalSize\":2048,\"FreeSize\":1024\x7d]") := by
  refine ⟨_, _, rfl, rfl, ?_, ?_, ?_, ?_⟩ <;> decide

/-! ## Probes whose query fails -/

/-- C12 (counterexample). The dual query times out and
`DbDualInfoCollector.Collect` emits one `dmdbms_dual_info` sample, with value 0. -/
theorem dual_emits_on_query_error :
    DbDualInfoCollector.Collect sampleSql sampleConfig (.error DbError.DeadlineExceeded) =
      some ⟨[⟨dualInfoDesc, ValueType.GaugeValue, Float64.zero, []⟩],
        [⟨Context.WithTimeout 30, "QueryDualInfoSql"⟩]⟩ := by
  decide

theorem system_query_error (pkg : Pkg) (e : DbError) :
    DBSystemInfoCollector.Collect NewDBSystemInfoCollector pkg (.error e) =
      some ⟨[], [pkg.QuerySystemInfoSqlStr]⟩ := rfl

theorem tablespace_query_error (pkg : Pkg) (config : Config) (json : JsonCodec TableSpaceInfo)
    (e : DbError) (cache : Cache) (now : Int) (r : Cycle)
    (h : NewTableSpaceInfoCollector.Collect pkg config json (.error e) cache now = some r)
    (hq : r.queries ≠ []) : r.metrics = [] ∧ r.cache = cache := by
  simp only [TableSpaceInfoCollector.Collect] at h
  split at h
  · split at h
    · simp only [TableSpaceInfoCollector.queryAndStore, Option.some.injEq] at h
      subst h; exact ⟨rfl, rfl⟩
    · rw [tablespace_emitCached, tablespace_emitQueried] at h
      simp only [Option.map_some', Option.some.injEq] at h
      subst h; exact absurd rfl hq
  · simp only [TableSpaceInfoCollector.queryAndStore, Option.some.injEq] at h
    subst h; exact ⟨rfl, rfl⟩

theorem datafile_query_error (pkg : Pkg) (config : Config)
    (json : JsonCodec TableSpaceDateFileInfo) (e : DbError) (cache : Cache) (now : Int)
    (r : Cycle)
    (h : NewTableSpaceDateFileInfoCollector.Collect pkg config json (.error e) cache now =
      some r)
    (hq : r.queries ≠ []) : r.metrics = [] ∧ r.cache = cache := by
  simp only [TableSpaceDateFileInfoCollector.Collect] at h
  split at h
  · split at h
    · simp only [TableSpaceDateFileInfoCollector.queryAndStore, Option.some.injEq] at h
      subst h; exact ⟨rfl, rfl⟩
    · rw [datafile_emitCached, datafile_emitQueried] at h
      simp only [Option.map_some', Option.some.injEq] at h
      subst h; exact absurd rfl hq
  · simp only [TableSpaceDateFileInfoCollector.queryAndStore, Option.some.injEq] at h
    subst h; exact ⟨rfl, rfl⟩

theorem version_query_error (pkg : Pkg) (config : Config) (db : VersionDb) (cache : Cache)
    (now : Int) (e2 e1 : DbError) (r : Cycle)
    (hv2 : db.v2 = .error e2) (hv1 : (getDbVersionV1 db).1 = .error e1)
    (h : DbVersionCollector.Collect pkg config db cache now = some r)
    (hq : r.queries ≠ []) : r.metrics = [] ∧ r.cache = cache := by
  unfold DbVersionCollector.Collect at h
  cases hc : DbVersionCollector.cached pkg cache now with
  | some r1 =>
    rw [hc] at h
    simp only at h
    rw [h] at hc
    exact absurd (cached_issues_no_query pkg cache now r hc) hq
  | none =>
    rw [hc] at h
    simp only [getDbVersionV2, hv2] at h
    cases hg : getDbVersionV1 db with
    | mk res q1 =>
      rw [hg] at h hv1
      simp only at hv1
      subst hv1
      simp only [Option.some.injEq] at h
      subst h; exact ⟨rfl, rfl⟩

theorem monitor_query_error (c : MonitorInfoCollector) (pkg : Pkg) (sql : SqlText)
    (config : Config) (answer : Except DbError Int) (e : DbError) :
    ∃ c1 r, MonitorInfoCollector.Collect c pkg sql config ⟨answer, .error e⟩ = some (c1, r) ∧
      r.metrics = [] := by
  rcases h : c.checkDmMonitorExists (Context.WithTimeout config.QueryTimeout) answer with
    ⟨b, c1, issued⟩
  cases b
  · simp only [MonitorInfoCollector.Collect, h]
    exact ⟨_, _, rfl, rfl⟩
  · simp only [MonitorInfoCollector.Collect, h]
    exact ⟨_, _, rfl, rfl⟩

theorem archSend_query_error (c : DbArchSendCollector) (sql : SqlText) (config : Config)
    (enabled : ArchEnabledDb) (a1 a2 : Except DbError Int) (e : DbError) :
    ∃ c1 r, DbArchSendCollector.Collect c sql config ⟨enabled, a1, a2, fun _ => .error e⟩ =
        some (c1, r) ∧ r.metrics = [] := by
  rcases h : DbArchSendCollector.isArchiveEnabled Context.Background enabled with ⟨b, issued⟩
  cases b
  · simp only [DbArchSendCollector.Collect, h]
    exact ⟨_, _, rfl, rfl⟩
  · simp only [DbArchSendCollector.Collect, h, DbArchSendCollector.getDbArchSendDetailInfo]
    exact ⟨_, _, rfl, rfl⟩

theorem archSwitch_query_error (sql : SqlText) (config : Config) (db : ArchEnabledDb)
    (e : DbError)
    (h : (DbArchSwitchCollector.isArchiveEnabled
      (Context.WithTimeout (durationMul config.QueryTimeout timeSecond)) db).1 = true) :
    ∃ r, DbArchSwitchCollector.Collect sql config db (.error e) = some r ∧ r.metrics = [] := by
  rcases hh : DbArchSwitchCollector.isArchiveEnabled
    (Context.WithTimeout (durationMul config.QueryTimeout timeSecond)) db with ⟨b, issued⟩
  rw [hh] at h
  simp only at h
  subst h
  simp only [DbArchSwitchCollector.Collect, hh, DbArchSwitchCollector.getDbArchSwitchRate]
  exact ⟨_, rfl, rfl⟩

/-- C12 (amended). When its query fails, `DbDualInfoCollector.Collect` emits one
`dmdbms_dual_info` sample with value `DB_DUAL_FAILUR`, and
`DbArchStatusCollector.Collect` emits one `dmdbms_arch_status` sample with
value `DB_ARCH_INVALID` when a status query fails (its status sample alone
when the status-info query fails, nothing when the ping fails); the probes
that log and stop emit no sample when their query fails: system info, buffer
pool, job log, monitor info, the two tablespace probes, the version probe
when both tiers fail, archive send, the switch-rate query of archive
switch, instance error log, user list, parameters, statement types, memory
pools, redo-apply time difference, and purge objects. -/
theorem query_failure_emission (pkg : Pkg) (sql : SqlText) (config : Config) (e : DbError) :
    DbDualInfoCollector.Collect sql config (.error e) =
      some ⟨[⟨dualInfoDesc, ValueType.GaugeValue, DB_DUAL_FAILUR, []⟩],
        [⟨Context.WithTimeout config.QueryTimeout, sql.QueryDualInfoSql⟩]⟩ ∧
    (∀ (a1 a2 : Except DbError String) (q : QueryOutcome DbArchStatusInfo),
      DbArchStatusCollector.Collect pkg sql config ⟨some e, a1, a2, q⟩ = some ⟨[], []⟩) ∧
    (∀ (a2 : Except DbError String) (q : QueryOutcome DbArchStatusInfo),
      (DbArchStatusCollector.Collect pkg sql config ⟨none, .error e, a2, q⟩).map
        (fun r => r.metrics) =
        some [⟨archStatusDesc, ValueType.GaugeValue, sql.float64 DB_ARCH_INVALID,
          [pkg.Hostname]⟩]) ∧
    (∀ (q : QueryOutcome DbArchStatusInfo),
      (DbArchStatusCollector.Collect pkg sql config ⟨none, .ok "1", .error e, q⟩).map
        (fun r => r.metrics) =
        some [⟨archStatusDesc, ValueType.GaugeValue, sql.float64 DB_ARCH_INVALID,
          [pkg.Hostname]⟩]) ∧
    ((DbArchStatusCollector.Collect pkg sql config ⟨none, .ok "1", .ok "1", .error e⟩).map
        (fun r => r.metrics) =
        some [⟨archStatusDesc, ValueType.GaugeValue, sql.float64 DB_ARCH_VALID,
          [pkg.Hostname]⟩]) ∧
    DBSystemInfoCollector.Collect NewDBSystemInfoCollector pkg (.error e) =
      some ⟨[], [pkg.QuerySystemInfoSqlStr]⟩ ∧
    DbBufferPoolInfoCollector.Collect sql config (.error e) =
      some ⟨[], [⟨Context.WithTimeout config.QueryTimeout,
        sql.QueryBufferPoolHitRateInfoSql⟩]⟩ ∧
    DbJobRunningInfoCollector.Collect pkg sql config (.error e) =
      some ⟨[], [⟨Context.WithTimeout config.QueryTimeout,
        sql.QueryDbJobRunningInfoSqlStr⟩]⟩ ∧
    (∀ (c : MonitorInfoCollector) (answer : Except DbError Int),
      ∃ c1 r, MonitorInfoCollector.Collect c pkg sql config ⟨answer, .error e⟩ =
        some (c1, r) ∧ r.metrics = []) ∧
    (∀ (json : JsonCodec TableSpaceInfo) (cache : Cache) (now : Int) (r : Cycle),
      NewTableSpaceInfoCollector.Collect pkg config json (.error e) cache now = some r →
      r.queries ≠ [] → r.metrics = []) ∧
    (∀ (json : JsonCodec TableSpaceDateFileInfo) (cache : Cache) (now : Int) (r : Cycle),
      NewTableSpaceDateFileInfoCollector.Collect pkg config json (.error e) cache now =
        some r →
      r.queries ≠ [] → r.metrics = []) ∧
    (∀ (db : VersionDb) (e1 : DbError) (cache : Cache) (now : Int) (r : Cycle),
      db.v2 = .error e → (getDbVersionV1 db).1 = .error e1 →
      DbVersionCollector.Collect pkg config db cache now = some r →
      r.queries ≠ [] → r.metrics = []) ∧
    (∀ (c : DbArchSendCollector) (enabled : ArchEnabledDb) (a1 a2 : Except DbError Int),
      ∃ c1 r, DbArchSendCollector.Collect c sql config ⟨enabled, a1, a2, fun _ => .error e⟩ =
        some (c1, r) ∧ r.metrics = []) ∧
    (∀ (db : ArchEnabledDb),
      (DbArchSwitchCollector.isArchiveEnabled
        (Context.WithTimeout (durationMul config.QueryTimeout timeSecond)) db).1 = true →
      ∃ r, DbArchSwitchCollector.Collect sql config db (.error e) = some r ∧
        r.metrics = []) ∧
    DbInstanceLogErrorCollector.Collect pkg config (.error e) =
      some ⟨[], [⟨Context.WithTimeout config.QueryTimeout, pkg.QueryInstanceErrorLogSql⟩]⟩ ∧
    (∀ text : String, DbUserCollector.Collect pkg text config (.error e) =
      some ⟨[], [⟨Context.WithTimeout config.QueryTimeout, text⟩]⟩) ∧
    (∀ text : String, IniParameterCollector.Collect pkg text config (.error e) =
      some ⟨[], [⟨Context.WithTimeout config.QueryTimeout, text⟩]⟩) ∧
    (∀ text : String, DbSqlExecTypeCollector.Collect pkg text config (.error e) =
      some ⟨[], [⟨Context.WithTimeout config.QueryTimeout, text⟩]⟩) ∧
    (∀ text : String, DbMemoryPoolInfoCollector.Collect pkg text config (.error e) =
      some ⟨[], [⟨Context.WithTimeout config.QueryTimeout, text⟩]⟩) ∧
    (∀ text : String, DbRapplyTimeDiffCollector.Collect pkg text config (.error e) =
      some ⟨[], [⟨Context.WithTimeout config.QueryTimeout, text⟩]⟩) ∧
    (∀ text : String, PurgeCollector.Collect pkg sql text config (.error e) =
      some ⟨[], [⟨Context.WithTimeout config.QueryTimeout, text⟩]⟩) := by
  refine ⟨rfl, fun _ _ _ => rfl, fun _ _ => rfl, fun _ => rfl, rfl, rfl, rfl, rfl,
    fun c answer => monitor_query_error c pkg sql config answer e,
    fun json cache now r h hq => (tablespace_query_error pkg config json e cache now r h hq).1,
    fun json cache now r h hq => (datafile_query_error pkg config json e cache now r h hq).1,
    fun db e1 cache now r hv2 hv1 h hq =>
      (version_query_error pkg config db cache now e e1 r hv2 hv1 h hq).1,
    fun c enabled a1 a2 => archSend_query_error c sql config enabled a1 a2 e,
    fun db h => archSwitch_query_error sql config db e h,
    rfl, fun _ => rfl, fun _ => rfl, fun _ => rfl, fun _ => rfl, fun _ => rfl, fun _ => rfl⟩

/-! ## The archive-enabled gate -/

/-- C13 (counterexample). `ARCH_INI` is `0`, so `isArchiveEnabled` says no, and
`DbArchSwitchCollector.Collect` emits one `dmdbms_arch_switch_rate` sample. -/
theorem archSwitch_emits_when_disabled :
    (DbArchSwitchCollector.isArchiveEnabled (Context.WithTimeout 30000000000)
      archDisabledDb).1 = false ∧
    DbArchSwitchCollector.Collect sampleSql sampleConfig archDisabledDb
        (.ok ⟨[], none⟩) =
      some ⟨[⟨archSwitchRateDesc, ValueType.GaugeValue, Float64.zero, []⟩],
        [⟨Context.Background, archIniQuery⟩]⟩ := by
  decide

/-- C13 (amended). When `isArchiveEnabled` returns false,
`DbArchSwitchCollector.Collect` emits exactly one sample, the default value 0 of
`dmdbms_arch_switch_rate`, and stops: the only statements issued are those of
the precondition, the switch-rate query is not run. -/
theorem archSwitch_default_when_disabled (sql : SqlText) (config : Config)
    (db : ArchEnabledDb) (q : QueryOutcome DbArchSwitchRateInfo)
    (h : (DbArchSwitchCollector.isArchiveEnabled
      (Context.WithTimeout (durationMul config.QueryTimeout timeSecond)) db).1 = false) :
    DbArchSwitchCollector.Collect sql config db q =
      some ⟨[⟨archSwitchRateDesc, ValueType.GaugeValue, Float64.zero, []⟩],
        (DbArchSwitchCollector.isArchiveEnabled
          (Context.WithTimeout (durationMul config.QueryTimeout timeSecond)) db).2⟩ := by
  rcases hh : DbArchSwitchCollector.isArchiveEnabled
    (Context.WithTimeout (durationMul config.QueryTimeout timeSecond)) db with ⟨b, issued⟩
  rw [hh] at h
  simp only at h
  subst h
  simp only [DbArchSwitchCollector.Collect, hh]
  rfl

/-- C13 (amended) with `ARCH_INI` equal to `0`. -/
theorem archSwitch_default_when_disabled_witness :
    DbArchSwitchCollector.Collect sampleSql sampleConfig archDisabledDb (.ok ⟨[], none⟩) =
      some ⟨[⟨archSwitchRateDesc, ValueType.GaugeValue, Float64.zero, []⟩],
        (DbArchSwitchCollector.isArchiveEnabled
          (Context.WithTimeout (durationMul sampleConfig.QueryTimeout timeSecond))
          archDisabledDb).2⟩ :=
  archSwitch_default_when_disabled sampleSql sampleConfig archDisabledDb (.ok ⟨[], none⟩)
    (by decide)

theorem archSend_isArchiveEnabled_true (ctx : Context) (db : ArchEnabledDb) :
    (DbArchSendCollector.isArchiveEnabled ctx db).1 = true ↔
      (db.archIni = .ok "1" ∧ db.archStatus = .ok "1") := by
  rcases db with ⟨a1, a2⟩
  cases a1 with
  | error e => simp [DbArchSendCollector.isArchiveEnabled]
  | ok paraValue =>
    by_cases hp : paraValue = "1"
    · subst hp
      cases a2 with
      | error e => simp [DbArchSendCollector.isArchiveEnabled]
      | ok archStatus => simp [DbArchSendCollector.isArchiveEnabled]
    · simp [DbArchSendCollector.isArchiveEnabled, hp]

theorem archSend_precondition_sql (ctx : Context) (db : ArchEnabledDb) :
    ∀ i ∈ (DbArchSendCollector.isArchiveEnabled ctx db).2,
      i.ctx = ctx ∧ (i.sql = archIniQuery ∨ i.sql = archValidQuery) := by
  rcases db with ⟨a1, a2⟩
  cases a1 with
  | error e => simp [DbArchSendCollector.isArchiveEnabled]
  | ok paraValue =>
    by_cases hp : paraValue = "1"
    · subst hp
      cases a2 with
      | error e => simp [DbArchSendCollector.isArchiveEnabled]
      | ok archStatus => simp [DbArchSendCollector.isArchiveEnabled]
    · simp [DbArchSendCollector.isArchiveEnabled, hp]

/-- C14. `DbArchSendCollector.Collect` emits a sample only if the `ARCH_INI`
query succeeds with `1` and the `LOCAL` archive status query succeeds with `1`;
for every other outcome of the two checks, a failed check included, it emits
no sample, leaves the collector as it was, and issues nothing but the
statements of the precondition (no capability check, no archive-send query). -/
theorem archSend_skipped_unless_enabled (c : DbArchSendCollector) (sql : SqlText)
    (config : Config) (db : ArchSendDb) :
    ∃ c1 r, DbArchSendCollector.Collect c sql config db = some (c1, r) ∧
      (r.metrics ≠ [] → db.enabled.archIni = .ok "1" ∧ db.enabled.archStatus = .ok "1") ∧
      (¬ (db.enabled.archIni = .ok "1" ∧ db.enabled.archStatus = .ok "1") →
        r.metrics = [] ∧ c1 = c ∧
        r.issued = (DbArchSendCollector.isArchiveEnabled Context.Background db.enabled).2 ∧
        ∀ i ∈ r.issued, i.sql = archIniQuery ∨ i.sql = archValidQuery) := by
  have hiff := archSend_isArchiveEnabled_true Context.Background db.enabled
  have hsql := archSend_precondition_sql Context.Background db.enabled
  rcases h : DbArchSendCollector.isArchiveEnabled Context.Background db.enabled with
    ⟨b, issued⟩
  rw [h] at hiff hsql
  cases b
  · simp only [DbArchSendCollector.Collect, h]
    refine ⟨_, _, rfl, fun hne => absurd rfl hne, fun _ => ⟨rfl, rfl, rfl, ?_⟩⟩
    exact fun i hi => (hsql i hi).2
  · have hen := hiff.1 rfl
    rcases hd : c.getDbArchSendDetailInfo sql
      (Context.WithTimeout (durationMul config.QueryTimeout timeSecond)) db with
      ⟨res, c1, issued1⟩
    cases res with
    | error e =>
      simp only [DbArchSendCollector.Collect, h, hd]
      exact ⟨_, _, rfl, fun _ => hen, fun hn => absurd hen hn⟩
    | ok infos =>
      simp only [DbArchSendCollector.Collect, h, hd, archSend_emit, Option.map_some']
      exact ⟨_, _, rfl, fun _ => hen, fun hn => absurd hen hn⟩

/-! ## Contexts of the precondition statements -/

theorem archSend_precondition_head (ctx : Context) (db : ArchEnabledDb) :
    ∃ more, (DbArchSendCollector.isArchiveEnabled ctx db).2 = ⟨ctx, archIniQuery⟩ :: more := by
  rcases db with ⟨a1, a2⟩
  cases a1 with
  | error e => exact ⟨_, rfl⟩
  | ok paraValue =>
    by_cases hp : paraValue = "1"
    · subst hp
      cases a2 with
      | error e => exact ⟨_, rfl⟩
      | ok archStatus => exact ⟨_, rfl⟩
    · simp [DbArchSendCollector.isArchiveEnabled, hp]

theorem archSwitch_precondition_head (ctx : Context) (db : ArchEnabledDb) :
    ∃ more, (DbArchSwitchCollector.isArchiveEnabled ctx db).2 =
      ⟨Context.Background, archIniQuery⟩ :: more := by
  rcases db with ⟨a1, a2⟩
  cases a1 with
  | error e => exact ⟨_, rfl⟩
  | ok paraValue =>
    by_cases hp : paraValue = "1"
    · subst hp
      cases a2 with
      | error e => exact ⟨_, rfl⟩
      | ok archStatus => exact ⟨_, rfl⟩
    · simp [DbArchSwitchCollector.isArchiveEnabled, hp]

theorem archSend_issued (c : DbArchSendCollector) (sql : SqlText) (config : Config)
    (db : ArchSendDb) :
    ∃ c1 r later, DbArchSendCollector.Collect c sql config db = some (c1, r) ∧
      r.issued =
        (DbArchSendCollector.isArchiveEnabled Context.Background db.enabled).2 ++ later := by
  rcases h : DbArchSendCollector.isArchiveEnabled Context.Background db.enabled with
    ⟨b, issued⟩
  cases b
  · simp only [DbArchSendCollector.Collect, h]
    exact ⟨_, _, [], rfl, by simp⟩
  · rcases hd : c.getDbArchSendDetailInfo sql
      (Context.WithTimeout (durationMul config.QueryTimeout timeSecond)) db with
      ⟨res, c1, issued1⟩
    cases res with
    | error e =>
      simp only [DbArchSendCollector.Collect, h, hd]
      exact ⟨_, _, issued1, rfl, rfl⟩
    | ok infos =>
      simp only [DbArchSendCollector.Collect, h, hd, archSend_emit, Option.map_some']
      exact ⟨_, _, issued1, rfl, rfl⟩

theorem archSwitch_issued (sql : SqlText) (config : Config) (db : ArchEnabledDb)
    (q : QueryOutcome DbArchSwitchRateInfo) :
    ∃ r later, DbArchSwitchCollector.Collect sql config db q = some r ∧
      r.issued =
        (DbArchSwitchCollector.isArchiveEnabled
          (Context.WithTimeout (durationMul config.QueryTimeout timeSecond)) db).2 ++ later := by
  rcases h : DbArchSwitchCollector.isArchiveEnabled
    (Context.WithTimeout (durationMul config.QueryTimeout timeSecond)) db with ⟨b, issued⟩
  cases b
  · simp only [DbArchSwitchCollector.Collect, h]
    exact ⟨_, [], rfl, by simp⟩
  · rcases hd : DbArchSwitchCollector.getDbArchSwitchRate sql
      (Context.WithTimeout (durationMul config.QueryTimeout timeSecond)) q with ⟨res, issued1⟩
    cases res with
    | error e =>
      simp only [DbArchSwitchCollector.Collect, h, hd]
      exact ⟨_, issued1, rfl, rfl⟩
    | ok info =>
      simp only [DbArchSwitchCollector.Collect, h, hd]
      exact ⟨_, issued1, rfl, rfl⟩

/-- C15 (the code at every cycle). In every cycle of `DbArchSendCollector.Collect`
the statements of the precondition come first and each of them runs under
`context.Background()`, which carries no deadline; in every cycle of
`DbArchSwitchCollector.Collect` the first statement, the `ARCH_INI` precondition
query, runs under `context.Background()`. -/
theorem precondition_runs_without_deadline (sql : SqlText) (config : Config) :
    Context.Background.hasDeadline = false ∧
    (∀ (c : DbArchSendCollector) (db : ArchSendDb),
      ∃ c1 r later, DbArchSendCollector.Collect c sql config db = some (c1, r) ∧
        r.issued =
          (DbArchSendCollector.isArchiveEnabled Context.Background db.enabled).2 ++ later ∧
        r.issued.head? = some ⟨Context.Background, archIniQuery⟩ ∧
        ∀ i ∈ (DbArchSendCollector.isArchiveEnabled Context.Background db.enabled).2,
          i.ctx = Context.Background) ∧
    (∀ (db : ArchEnabledDb) (q : QueryOutcome DbArchSwitchRateInfo),
      ∃ r, DbArchSwitchCollector.Collect sql config db q = some r ∧
        r.issued.head? = some ⟨Context.Background, archIniQuery⟩) := by
  refine ⟨rfl, fun c db => ?_, fun db q => ?_⟩
  · obtain ⟨c1, r, later, h1, h2⟩ := archSend_issued c sql config db
    obtain ⟨more, hm⟩ := archSend_precondition_head Context.Background db.enabled
    refine ⟨c1, r, later, h1, h2, ?_, fun i hi =>
      (archSend_precondition_sql Context.Background db.enabled i hi).1⟩
    rw [h2, hm]; rfl
  · obtain ⟨r, later, h1, h2⟩ := archSwitch_issued sql config db q
    obtain ⟨more, hm⟩ := archSwitch_precondition_head
      (Context.WithTimeout (durationMul config.QueryTimeout timeSecond)) db
    refine ⟨r, h1, ?_⟩
    rw [h2, hm]; rfl

/-! ## Rows that fail to scan -/

/-- C16 (counterexample). The first row of the system-info result fails to scan
and a well-formed row follows; `DBSystemInfoCollector.Collect` emits nothing. -/
theorem system_scan_error_emits_nothing :
    DBSystemInfoCollector.Collect NewDBSystemInfoCollector samplePkg
      (.ok ⟨[.error (.Other "converting NULL to float64 is unsupported"),
        .ok ⟨⟨⟨0x4020000000000000⟩, true⟩, ⟨⟨0⟩, false⟩, ⟨⟨0⟩, false⟩, ⟨⟨0⟩, false⟩⟩],
        none⟩) =
      some ⟨[], ["QuerySystemInfoSqlStr"]⟩ := by
  decide

theorem archSend_isArchiveEnabled_ones (ctx : Context) :
    DbArchSendCollector.isArchiveEnabled ctx ⟨.ok "1", .ok "1"⟩ =
      (true, [⟨ctx, archIniQuery⟩, ⟨ctx, archValidQuery⟩]) := by
  simp [DbArchSendCollector.isArchiveEnabled]

theorem archSwitch_isArchiveEnabled_ones (ctx : Context) :
    DbArchSwitchCollector.isArchiveEnabled ctx ⟨.ok "1", .ok "1"⟩ =
      (true, [⟨Context.Background, archIniQuery⟩, ⟨ctx, archValidQuery⟩]) := by
  simp [DbArchSwitchCollector.isArchiveEnabled]

/-! ## Capability checks, one call after the other -/

theorem callsInSequence_stable {σ : Type}
    (check : σ → Context → Except DbError Int → Bool × σ × List Issued) (c1 : σ) (b : Bool)
    (h : ∀ ctx answer, check c1 ctx answer = (b, c1, []))
    (later : List (Context × Except DbError Int)) :
    callsInSequence check c1 later = later.map (fun _ => (b, [])) := by
  induction later with
  | nil => rfl
  | cons p rest ih =>
    rcases p with ⟨ctx, answer⟩
    simp only [callsInSequence, h ctx answer, ih, List.map_cons]

theorem viewCheckDo_done (c : MonitorInfoCollector) (ctx : Context)
    (answer : Except DbError Int) (h : c.viewCheckOnce.done = true) :
    c.viewCheckDo ctx answer = (c, []) := by
  simp [MonitorInfoCollector.viewCheckDo, h]

theorem viewCheckDo_fresh (c : MonitorInfoCollector) (ctx : Context)
    (answer : Except DbError Int) (h : c.viewCheckOnce.done = false) :
    (c.viewCheckDo ctx answer).1.viewCheckOnce.done = true ∧
      (c.viewCheckDo ctx answer).2 = [⟨ctx, dmMonitorExistsQuery⟩] := by
  cases answer <;> simp [MonitorInfoCollector.viewCheckDo, h]

theorem archSendFieldsCheckDo_done (c : DbArchSendCollector) (sql : SqlText) (ctx : Context)
    (answer : Except DbError Int) (h : c.archSendFieldsCheckOnce.done = true) :
    c.archSendFieldsCheckDo sql ctx answer = (c, []) := by
  simp [DbArchSendCollector.archSendFieldsCheckDo, h]

theorem archSendFieldsCheckDo_fresh (c : DbArchSendCollector) (sql : SqlText) (ctx : Context)
    (answer : Except DbError Int) (h : c.archSendFieldsCheckOnce.done = false) :
    (c.archSendFieldsCheckDo sql ctx answer).1.archSendFieldsCheckOnce.done = true ∧
      (c.archSendFieldsCheckDo sql ctx answer).2 = [⟨ctx, sql.QueryArchSendInfoFieldsExist⟩] := by
  cases answer <;> simp [DbArchSendCollector.archSendFieldsCheckDo, h]

theorem archApplyInfoCheckDo_done (c : DbArchSendCollector) (sql : SqlText) (ctx : Context)
    (answer : Except DbError Int) (h : c.archApplyInfoCheckOnce.done = true) :
    c.archApplyInfoCheckDo sql ctx answer = (c, []) := by
  simp [DbArchSendCollector.archApplyInfoCheckDo, h]

theorem archApplyInfoCheckDo_fresh (c : DbArchSendCollector) (sql : SqlText) (ctx : Context)
    (answer : Except DbError Int) (h : c.archApplyInfoCheckOnce.done = false) :
    (c.archApplyInfoCheckDo sql ctx answer).1.archApplyInfoCheckOnce.done = true ∧
      (c.archApplyInfoCheckDo sql ctx answer).2 = [⟨ctx, sql.QueryArchApplyInfoExists⟩] := by
  cases answer <;> simp [DbArchSendCollector.archApplyInfoCheckDo, h]

theorem viewCheckDo_marks_done (c : MonitorInfoCollector) (ctx : Context)
    (answer : Except DbError Int) : (c.viewCheckDo ctx answer).1.viewCheckOnce.done = true := by
  cases h : c.viewCheckOnce.done with
  | true => rw [viewCheckDo_done c ctx answer h]; exact h
  | false => exact (viewCheckDo_fresh c ctx answer h).1

theorem archSendFieldsCheckDo_marks_done (c : DbArchSendCollector) (sql : SqlText)
    (ctx : Context) (answer : Except DbError Int) :
    (c.archSendFieldsCheckDo sql ctx answer).1.archSendFieldsCheckOnce.done = true := by
  cases h : c.archSendFieldsCheckOnce.done with
  | true => rw [archSendFieldsCheckDo_done c sql ctx answer h]; exact h
  | false => exact (archSendFieldsCheckDo_fresh c sql ctx answer h).1

theorem archApplyInfoCheckDo_marks_done (c : DbArchSendCollector) (sql : SqlText)
    (ctx : Context) (answer : Except DbError Int) :
    (c.archApplyInfoCheckDo sql ctx answer).1.archApplyInfoCheckOnce.done = true := by
  cases h : c.archApplyInfoCheckOnce.done with
  | true => rw [archApplyInfoCheckDo_done c sql ctx answer h]; exact h
  | false => exact (archApplyInfoCheckDo_fresh c sql ctx answer h).1

theorem monitor_calls (c : MonitorInfoCollector) (ctx : Context)
    (answer : Except DbError Int) (later : List (Context × Except DbError Int)) :
    callsInSequence (fun c => c.checkDmMonitorExists) c ((ctx, answer) :: later) =
      ((c.checkDmMonitorExists ctx answer).1, (c.checkDmMonitorExists ctx answer).2.2) ::
        later.map (fun _ => ((c.checkDmMonitorExists ctx answer).1, [])) := by
  have hd := viewCheckDo_marks_done c ctx answer
  simp only [callsInSequence, MonitorInfoCollector.checkDmMonitorExists]
  rw [callsInSequence_stable _ (c.viewCheckDo ctx answer).1
    (c.viewCheckDo ctx answer).1.viewChecked]
  intro ctx1 answer1
  simp only [MonitorInfoCollector.checkDmMonitorExists, viewCheckDo_done _ ctx1 answer1 hd]

theorem archSendFields_calls (c : DbArchSendCollector) (sql : SqlText) (ctx : Context)
    (answer : Except DbError Int) (later : List (Context × Except DbError Int)) :
    callsInSequence (fun c => c.checkArchSendInfoFields sql) c ((ctx, answer) :: later) =
      ((c.checkArchSendInfoFields sql ctx answer).1,
          (c.checkArchSendInfoFields sql ctx answer).2.2) ::
        later.map (fun _ => ((c.checkArchSendInfoFields sql ctx answer).1, [])) := by
  have hd := archSendFieldsCheckDo_marks_done c sql ctx answer
  simp only [callsInSequence, DbArchSendCollector.checkArchSendInfoFields]
  rw [callsInSequence_stable _ (c.archSendFieldsCheckDo sql ctx answer).1
    (c.archSendFieldsCheckDo sql ctx answer).1.archSendFieldsExist]
  intro ctx1 answer1
  simp only [DbArchSendCollector.checkArchSendInfoFields,
    archSendFieldsCheckDo_done _ sql ctx1 answer1 hd]

theorem archApplyInfo_calls (c : DbArchSendCollector) (sql : SqlText) (ctx : Context)
    (answer : Except DbError Int) (later : List (Context × Except DbError Int)) :
    callsInSequence (fun c => c.checkArchApplyInfoExists sql) c ((ctx, answer) :: later) =
      ((c.checkArchApplyInfoExists sql ctx answer).1,
          (c.checkArchApplyInfoExists sql ctx answer).2.2) ::
        later.map (fun _ => ((c.checkArchApplyInfoExists sql ctx answer).1, [])) := by
  have hd := archApplyInfoCheckDo_marks_done c sql ctx answer
  simp only [callsInSequence, DbArchSendCollector.checkArchApplyInfoExists]
  rw [callsInSequence_stable _ (c.archApplyInfoCheckDo sql ctx answer).1
    (c.archApplyInfoCheckDo sql ctx answer).1.archApplyInfoExists]
  intro ctx1 answer1
  simp only [DbArchSendCollector.checkArchApplyInfoExists,
    archApplyInfoCheckDo_done _ sql ctx1 answer1 hd]

/-- C18. Capability flags are memoized: for every state of the collector, once
`checkDmMonitorExists` (likewise `checkArchSendInfoFields` and
`checkArchApplyInfoExists`) has returned a boolean, every later call on that
collector returns the same boolean and issues no statement, whatever context
it is given and whatever the database would answer then. -/
theorem capability_flag_memoized (sql : SqlText) (ctx : Context)
    (answer : Except DbError Int) (later : List (Context × Except DbError Int)) :
    (∀ c : MonitorInfoCollector,
      callsInSequence (fun c => c.checkDmMonitorExists) c ((ctx, answer) :: later) =
        ((c.checkDmMonitorExists ctx answer).1, (c.checkDmMonitorExists ctx answer).2.2) ::
          later.map (fun _ => ((c.checkDmMonitorExists ctx answer).1, []))) ∧
    (∀ c : DbArchSendCollector,
      callsInSequence (fun c => c.checkArchSendInfoFields sql) c ((ctx, answer) :: later) =
        ((c.checkArchSendInfoFields sql ctx answer).1,
            (c.checkArchSendInfoFields sql ctx answer).2.2) ::
          later.map (fun _ => ((c.checkArchSendInfoFields sql ctx answer).1, []))) ∧
    (∀ c : DbArchSendCollector,
      callsInSequence (fun c => c.checkArchApplyInfoExists sql) c ((ctx, answer) :: later) =
        ((c.checkArchApplyInfoExists sql ctx answer).1,
            (c.checkArchApplyInfoExists sql ctx answer).2.2) ::
          later.map (fun _ => ((c.checkArchApplyInfoExists sql ctx answer).1, []))) :=
  ⟨fun c => monitor_calls c ctx answer later,
    fun c => archSendFields_calls c sql ctx answer later,
    fun c => archApplyInfo_calls c sql ctx answer later⟩

/-- C19. A failed capability detection memoizes false and is never retried: when
the first detection query of `checkDmMonitorExists`, `checkArchSendInfoFields`
or `checkArchApplyInfoExists` on a new collector returns an error, that call
returns false (a boolean, no error) after issuing the one detection statement,
and every later call returns false and issues no statement. -/
theorem failed_detection_memoizes_false (sql : SqlText) (ctx : Context) (e : DbError)
    (later : List (Context × Except DbError Int)) :
    callsInSequence (fun c => c.checkDmMonitorExists) NewMonitorInfoCollector
        ((ctx, .error e) :: later) =
      (false, [⟨ctx, dmMonitorExistsQuery⟩]) :: later.map (fun _ => (false, [])) ∧
    callsInSequence (fun c => c.checkArchSendInfoFields sql) NewDbArchSendCollector
        ((ctx, .error e) :: later) =
      (false, [⟨ctx, sql.QueryArchSendInfoFieldsExist⟩]) ::
        later.map (fun _ => (false, [])) ∧
    callsInSequence (fun c => c.checkArchApplyInfoExists sql) NewDbArchSendCollector
        ((ctx, .error e) :: later) =
      (false, [⟨ctx, sql.QueryArchApplyInfoExists⟩]) ::
        later.map (fun _ => (false, [])) :=
  ⟨monitor_calls NewMonitorInfoCollector ctx (.error e) later,
    archSendFields_calls NewDbArchSendCollector sql ctx (.error e) later,
    archApplyInfo_calls NewDbArchSendCollector sql ctx (.error e) later⟩

/-! ## Capability checks, called concurrently -/

theorem race_step_inv {σ : Type}
    (doPart : σ → Context → Except DbError Int → σ × List Issued) (readPart : σ → Bool)
    (done : σ → Bool) (query : String)
    (hdone : ∀ s ctx answer, done s = true → doPart s ctx answer = (s, []))
    (hfresh : ∀ s ctx answer, done s = false →
      done (doPart s ctx answer).1 = true ∧ (doPart s ctx answer).2 = [⟨ctx, query⟩])
    (ctx : Nat → Context) (answer : Nat → Except DbError Int) (w : Race σ) (t : Nat)
    (hinv : Race.Inv done readPart ctx query w) :
    Race.Inv done readPart ctx query (Race.step doPart readPart ctx answer w t) := by
  obtain ⟨hf, hd⟩ := hinv
  unfold Race.step
  cases hc : w.calls t with
  | notStarted =>
    simp only
    cases hdn : done w.collector with
    | true =>
      rw [hdone _ _ _ hdn]
      obtain ⟨hi, hr⟩ := hd hdn
      refine ⟨fun h => ?_, fun _ => ⟨?_, fun t1 b h1 => ?_⟩⟩
      · simp only at h; rw [hdn] at h; exact absurd h (by simp)
      · simpa using hi
      · by_cases ht : t1 = t
        · subst ht; simp at h1
        · simp only [Function.update_noteq ht] at h1
          exact hr t1 b h1
    | false =>
      obtain ⟨hi, hall⟩ := hf hdn
      obtain ⟨h1, h2⟩ := hfresh w.collector (ctx t) (answer t) hdn
      rcases hp : doPart w.collector (ctx t) (answer t) with ⟨c1, issued⟩
      rw [hp] at h1 h2
      simp only at h1 h2
      refine ⟨fun h => ?_, fun _ => ⟨⟨t, ?_⟩, fun t1 b hb => ?_⟩⟩
      · simp only at h; rw [h1] at h; exact absurd h (by simp)
      · simp only [hi, h2, List.nil_append]
      · by_cases ht : t1 = t
        · subst ht; simp at hb
        · simp only [Function.update_noteq ht] at hb
          rw [hall t1] at hb
          exact absurd hb (by simp)
  | pastDo =>
    simp only
    cases hdn : done w.collector with
    | false =>
      have := (hf hdn).2 t
      rw [hc] at this
      exact absurd this (by simp)
    | true =>
      obtain ⟨hi, hr⟩ := hd hdn
      refine ⟨fun h => ?_, fun _ => ⟨hi, fun t1 b hb => ?_⟩⟩
      · simp only at h; rw [hdn] at h; exact absurd h (by simp)
      · by_cases ht : t1 = t
        · subst ht
          simp only [Function.update_same, CallState.returned.injEq] at hb
          exact hb.symm
        · simp only [Function.update_noteq ht] at hb
          exact hr t1 b hb
  | returned b0 => exact ⟨hf, hd⟩

theorem race_run_inv {σ : Type}
    (doPart : σ → Context → Except DbError Int → σ × List Issued) (readPart : σ → Bool)
    (done : σ → Bool) (query : String)
    (hdone : ∀ s ctx answer, done s = true → doPart s ctx answer = (s, []))
    (hfresh : ∀ s ctx answer, done s = false →
      done (doPart s ctx answer).1 = true ∧ (doPart s ctx answer).2 = [⟨ctx, query⟩])
    (ctx : Nat → Context) (answer : Nat → Except DbError Int) (schedule : List Nat) :
    ∀ w : Race σ, Race.Inv done readPart ctx query w →
      Race.Inv done readPart ctx query (Race.run doPart readPart ctx answer w schedule) := by
  induction schedule with
  | nil => intro w h; exact h
  | cons t rest ih =>
    intro w h
    exact ih _ (race_step_inv doPart readPart done query hdone hfresh ctx answer w t h)

theorem race_outcome {σ : Type}
    (doPart : σ → Context → Except DbError Int → σ × List Issued) (readPart : σ → Bool)
    (done : σ → Bool) (query : String)
    (hdone : ∀ s ctx answer, done s = true → doPart s ctx answer = (s, []))
    (hfresh : ∀ s ctx answer, done s = false →
      done (doPart s ctx answer).1 = true ∧ (doPart s ctx answer).2 = [⟨ctx, query⟩])
    (ctx : Nat → Context) (answer : Nat → Except DbError Int) (schedule : List Nat)
    (c : σ) (hc : done c = false) (n : Nat) (hn : 0 < n)
    (hfin : (Race.run doPart readPart ctx answer (Race.start c) schedule).finished n) :
    (∃ t0, (Race.run doPart readPart ctx answer (Race.start c) schedule).issued =
        [⟨ctx t0, query⟩]) ∧
    ∃ b, (Race.run doPart readPart ctx answer (Race.start c) schedule).allReturned n b := by
  have hstart : Race.Inv done readPart ctx query (Race.start c) :=
    ⟨fun _ => ⟨rfl, fun _ => rfl⟩, fun h => absurd (hc ▸ h) (by simp [Race.start])⟩
  have hinv := race_run_inv doPart readPart done query hdone hfresh ctx answer schedule _ hstart
  obtain ⟨b0, hb0⟩ := hfin 0 hn
  cases hdn : done (Race.run doPart readPart ctx answer (Race.start c) schedule).collector with
  | false =>
    have := (hinv.1 hdn).2 0
    rw [hb0] at this
    exact absurd this (by simp)
  | true =>
    obtain ⟨hi, hr⟩ := hinv.2 hdn
    refine ⟨hi, readPart (Race.run doPart readPart ctx answer (Race.start c) schedule).collector,
      fun t ht => ?_⟩
    obtain ⟨b, hb⟩ := hfin t ht
    rw [hb, hr t b hb]

/-- C20. Concurrent capability checks: for every number `n` of calls of
`checkDmMonitorExists` (likewise `checkArchSendInfoFields`,
`checkArchApplyInfoExists`) on one new collector and every interleaving of
their steps after which all `n` calls have returned, exactly one detection
statement was issued and all `n` calls returned the same boolean, whatever
the database would have answered to each call. -/
theorem capability_check_concurrent (sql : SqlText) (n : Nat) (ctx : Nat → Context)
    (answer : Nat → Except DbError Int) (schedule : List Nat) (hn : 0 < n) :
    ((raceDmMonitorExists ctx answer schedule).finished n →
      (∃ t0, (raceDmMonitorExists ctx answer schedule).issued =
        [⟨ctx t0, dmMonitorExistsQuery⟩]) ∧
      ∃ b, (raceDmMonitorExists ctx answer schedule).allReturned n b) ∧
    ((raceArchSendInfoFields sql ctx answer schedule).finished n →
      (∃ t0, (raceArchSendInfoFields sql ctx answer schedule).issued =
        [⟨ctx t0, sql.QueryArchSendInfoFieldsExist⟩]) ∧
      ∃ b, (raceArchSendInfoFields sql ctx answer schedule).allReturned n b) ∧
    ((raceArchApplyInfoExists sql ctx answer schedule).finished n →
      (∃ t0, (raceArchApplyInfoExists sql ctx answer schedule).issued =
        [⟨ctx t0, sql.QueryArchApplyInfoExists⟩]) ∧
      ∃ b, (raceArchApplyInfoExists sql ctx answer schedule).allReturned n b) := by
  unfold raceDmMonitorExists raceArchSendInfoFields raceArchApplyInfoExists
  refine ⟨fun hfin => ?_, fun hfin => ?_, fun hfin => ?_⟩
  · exact race_outcome (fun c => c.viewCheckDo) (fun c => c.viewChecked)
      (fun c => c.viewCheckOnce.done) dmMonitorExistsQuery
      (fun s c a h => viewCheckDo_done s c a h) (fun s c a h => viewCheckDo_fresh s c a h)
      ctx answer schedule NewMonitorInfoCollector rfl n hn hfin
  · exact race_outcome (fun c => c.archSendFieldsCheckDo sql) (fun c => c.archSendFieldsExist)
      (fun c => c.archSendFieldsCheckOnce.done) sql.QueryArchSendInfoFieldsExist
      (fun s c a h => archSendFieldsCheckDo_done s sql c a h)
      (fun s c a h => archSendFieldsCheckDo_fresh s sql c a h)
      ctx answer schedule NewDbArchSendCollector rfl n hn hfin
  · exact race_outcome (fun c => c.archApplyInfoCheckDo sql) (fun c => c.archApplyInfoExists)
      (fun c => c.archApplyInfoCheckOnce.done) sql.QueryArchApplyInfoExists
      (fun s c a h => archApplyInfoCheckDo_done s sql c a h)
      (fun s c a h => archApplyInfoCheckDo_fresh s sql c a h)
      ctx answer schedule NewDbArchSendCollector rfl n hn hfin

theorem sampleSchedule_finished_monitor :
    (raceDmMonitorExists (fun _ => Context.WithTimeout 30) sampleAnswers
      sampleSchedule).finished 3 := by
  intro t ht
  interval_cases t <;> exact ⟨_, rfl⟩

theorem sampleSchedule_finished_fields :
    (raceArchSendInfoFields sampleSql (fun _ => Context.WithTimeout 30) sampleAnswers
      sampleSchedule).finished 3 := by
  intro t ht
  interval_cases t <;> exact ⟨_, rfl⟩

theorem sampleSchedule_finished_apply :
    (raceArchApplyInfoExists sampleSql (fun _ => Context.WithTimeout 30) sampleAnswers
      sampleSchedule).finished 3 := by
  intro t ht
  interval_cases t <;> exact ⟨_, rfl⟩

/-- C20 at three calls interleaved as 0, 1, 0, 2, 2, 1: one detection statement
and one common boolean per check. -/
theorem capability_check_concurrent_witness :
    ((raceDmMonitorExists (fun _ => Context.WithTimeout 30) sampleAnswers
          sampleSchedule).issued = [⟨Context.WithTimeout 30, dmMonitorExistsQuery⟩] ∧
      ∃ b, (raceDmMonitorExists (fun _ => Context.WithTimeout 30) sampleAnswers
          sampleSchedule).allReturned 3 b) ∧
    ((raceArchSendInfoFields sampleSql (fun _ => Context.WithTimeout 30) sampleAnswers
          sampleSchedule).issued =
        [⟨Context.WithTimeout 30, sampleSql.QueryArchSendInfoFieldsExist⟩] ∧
      ∃ b, (raceArchSendInfoFields sampleSql (fun _ => Context.WithTimeout 30) sampleAnswers
          sampleSchedule).allReturned 3 b) ∧
    ((raceArchApplyInfoExists sampleSql (fun _ => Context.WithTimeout 30) sampleAnswers
          sampleSchedule).issued =
        [⟨Context.WithTimeout 30, sampleSql.QueryArchApplyInfoExists⟩] ∧
      ∃ b, (raceArchApplyInfoExists sampleSql (fun _ => Context.WithTimeout 30) sampleAnswers
          sampleSchedule).allReturned 3 b) :=
  have h := capability_check_concurrent sampleSql 3 (fun _ => Context.WithTimeout 30)
    sampleAnswers sampleSchedule (by decide)
  ⟨⟨(h.1 sampleSchedule_finished_monitor).1.elim (fun _ e => e),
      (h.1 sampleSchedule_finished_monitor).2⟩,
    ⟨(h.2.1 sampleSchedule_finished_fields).1.elim (fun _ e => e),
      (h.2.1 sampleSchedule_finished_fields).2⟩,
    ⟨(h.2.2 sampleSchedule_finished_apply).1.elim (fun _ e => e),
      (h.2.2 sampleSchedule_finished_apply).2⟩⟩

/-! ## The monitor probe when the view is absent -/

theorem monitor_cycles_absent (pkg : Pkg) (sql : SqlText) (config : Config)
    (c : MonitorInfoCollector) (hd : c.viewCheckOnce.done = true)
    (hv : c.viewChecked = false) (later : List MonitorDb) :
    MonitorInfoCollector.cycles pkg sql config c later =
      some (later.map (fun _ => ⟨[], []⟩)) := by
  induction later with
  | nil => rfl
  | cons db rest ih =>
    have hc : MonitorInfoCollector.Collect c pkg sql config db = some (c, ⟨[], []⟩) := by
      simp only [MonitorInfoCollector.Collect, MonitorInfoCollector.checkDmMonitorExists,
        viewCheckDo_done c _ _ hd, hv]
    simp only [MonitorInfoCollector.cycles, hc, ih, Option.map_some', List.map_cons]

/-- C21. Feature absent: when the existence query for `V$DMMONITOR` reports a
count other than 1 to a new collector, `checkDmMonitorExists` returns false,
and `MonitorInfoCollector.Collect` emits no sample and issues only the
existence query in that cycle, and emits no sample and issues no statement at
all in every later cycle, whatever the database would answer. -/
theorem monitor_feature_absent (pkg : Pkg) (sql : SqlText) (config : Config) (count : Int)
    (hcount : count ≠ 1) (info : QueryOutcome MonitorInfo) (later : List MonitorDb) :
    (NewMonitorInfoCollector.checkDmMonitorExists (Context.WithTimeout config.QueryTimeout)
      (.ok count)).1 = false ∧
    MonitorInfoCollector.cycles pkg sql config NewMonitorInfoCollector
        (⟨.ok count, info⟩ :: later) =
      some (⟨[], [⟨Context.WithTimeout config.QueryTimeout, dmMonitorExistsQuery⟩]⟩ ::
        later.map (fun _ => ⟨[], []⟩)) := by
  have hchk : NewMonitorInfoCollector.checkDmMonitorExists
      (Context.WithTimeout config.QueryTimeout) (.ok count) =
      (false, ⟨true, ⟨true⟩, false⟩,
        [⟨Context.WithTimeout config.QueryTimeout, dmMonitorExistsQuery⟩]) := by
    simp [MonitorInfoCollector.checkDmMonitorExists, MonitorInfoCollector.viewCheckDo,
      NewMonitorInfoCollector, hcount]
  refine ⟨by rw [hchk], ?_⟩
  have hc : MonitorInfoCollector.Collect NewMonitorInfoCollector pkg sql config
      ⟨.ok count, info⟩ =
      some (⟨true, ⟨true⟩, false⟩,
        ⟨[], [⟨Context.WithTimeout config.QueryTimeout, dmMonitorExistsQuery⟩]⟩) := by
    simp only [MonitorInfoCollector.Collect, hchk]
  simp only [MonitorInfoCollector.cycles, hc,
    monitor_cycles_absent pkg sql config ⟨true, ⟨true⟩, false⟩ rfl rfl later, Option.map_some']

/-- C21 with the count 0 and two later cycles in which the view would exist. -/
theorem monitor_feature_absent_witness :
    (NewMonitorInfoCollector.checkDmMonitorExists
      (Context.WithTimeout sampleConfig.QueryTimeout) (.ok 0)).1 = false ∧
    MonitorInfoCollector.cycles samplePkg sampleSql sampleConfig NewMonitorInfoCollector
        (⟨.ok 0, .ok ⟨[], none⟩⟩ :: [⟨.ok 1, .ok ⟨[], none⟩⟩, ⟨.ok 1, .ok ⟨[], none⟩⟩]) =
      some (⟨[], [⟨Context.WithTimeout sampleConfig.QueryTimeout, dmMonitorExistsQuery⟩]⟩ ::
        ([⟨.ok 1, .ok ⟨[], none⟩⟩, ⟨.ok 1, .ok ⟨[], none⟩⟩] : List MonitorDb).map
          (fun _ => (⟨[], []⟩ : Probed))) :=
  monitor_feature_absent samplePkg sampleSql sampleConfig 0 (by decide) (.ok ⟨[], none⟩)
    [⟨.ok 1, .ok ⟨[], none⟩⟩, ⟨.ok 1, .ok ⟨[], none⟩⟩]

/-! ## Failure classification -/

theorem errorsIs_iff (err target : GoError) : errorsIs err target = true ↔ target ∈ err.chain := by
  unfold errorsIs
  rw [List.any_eq_true]
  constructor
  · rintro ⟨x, hx, he⟩
    rw [beq_iff_eq] at he
    exact he ▸ hx
  · intro h
    exact ⟨target, h, by simp⟩

theorem timeout_text_ne (a b : String) :
    "Query timed out " ++ a ≠ "Error querying database " ++ b := by
  intro h
  have hd := congrArg String.data h
  rw [String.data_append, String.data_append] at hd
  have e1 : ("Query timed out " : String).data = 'Q' :: ("uery timed out " : String).data := rfl
  have e2 : ("Error querying database " : String).data =
      'E' :: ("rror querying database " : String).data := rfl
  rw [e1, e2] at hd
  simp at hd

theorem timeout_sql_text_ne (a b : String) :
    "Query SQL timed out SQL:" ++ a ≠ "Error querying database SQL:" ++ b := by
  intro h
  have hd := congrArg String.data h
  rw [String.data_append, String.data_append] at hd
  have e1 : ("Query SQL timed out SQL:" : String).data =
      'Q' :: ("uery SQL timed out SQL:" : String).data := rfl
  have e2 : ("Error querying database SQL:" : String).data =
      'E' :: ("rror querying database SQL:" : String).data := rfl
  rw [e1, e2] at hd
  simp at hd

/-- C23. Failure classification: `handleDbQueryError` and
`handleDbQueryErrorWithSQL` log the timeout message exactly when the chain of
the error contains `context.DeadlineExceeded` and the generic message
otherwise; a timeout message never equals a generic message; and the message
of `handleDbQueryErrorWithSQL` contains the SQL text in both classes. -/
theorem failure_classification (sql : String) (err : GoError) :
    (GoError.DeadlineExceeded ∈ err.chain →
      handleDbQueryError err = "Query timed out " ++ err.Error ∧
      handleDbQueryErrorWithSQL sql err =
        "Query SQL timed out SQL:" ++ sql ++ " ,error: " ++ err.Error) ∧
    (GoError.DeadlineExceeded ∉ err.chain →
      handleDbQueryError err = "Error querying database " ++ err.Error ∧
      handleDbQueryErrorWithSQL sql err =
        "Error querying database SQL:" ++ sql ++ " ,error: " ++ err.Error) ∧
    (∀ (sql2 : String) (err2 : GoError),
      GoError.DeadlineExceeded ∈ err.chain → GoError.DeadlineExceeded ∉ err2.chain →
      handleDbQueryError err ≠ handleDbQueryError err2 ∧
      handleDbQueryErrorWithSQL sql err ≠ handleDbQueryErrorWithSQL sql2 err2) ∧
    sql.data <:+: (handleDbQueryErrorWithSQL sql err).data := by
  have ht : ∀ e : GoError, GoError.DeadlineExceeded ∈ e.chain →
      errorsIs e GoError.DeadlineExceeded = true := fun e h => (errorsIs_iff _ _).2 h
  have hf : ∀ e : GoError, GoError.DeadlineExceeded ∉ e.chain →
      errorsIs e GoError.DeadlineExceeded = false := fun e h => by
    rw [← Bool.not_eq_true, errorsIs_iff]; exact h
  refine ⟨fun h => ?_, fun h => ?_, fun sql2 err2 h1 h2 => ?_, ?_⟩
  · simp [handleDbQueryError, handleDbQueryErrorWithSQL, ht err h]
  · simp [handleDbQueryError, handleDbQueryErrorWithSQL, hf err h]
  · simp only [handleDbQueryError, handleDbQueryErrorWithSQL, ht err h1, hf err2 h2, if_true,
      Bool.false_eq_true, if_false]
    refine ⟨timeout_text_ne _ _, ?_⟩
    rw [String.append_assoc, String.append_assoc, String.append_assoc, String.append_assoc]
    exact timeout_sql_text_ne _ _
  · unfold handleDbQueryErrorWithSQL
    split
    · refine ⟨("Query SQL timed out SQL:" : String).data,
        (" ,error: " : String).data ++ err.Error.data, ?_⟩
      simp [String.data_append, List.append_assoc]
    · refine ⟨("Error querying database SQL:" : String).data,
        (" ,error: " : String).data ++ err.Error.data, ?_⟩
      simp [String.data_append, List.append_assoc]

/-! ## The timeout of the archive probes -/

/-- C24 (the code at the failing input). With `config.QueryTimeout` the duration
of 30 seconds, a positive whole number of seconds below one hour,
`config.QueryTimeout * time.Second` wraps to a negative duration, and the
switch-rate query of `DbArchSwitchCollector.Collect` and the detail query of
`DbArchSendCollector.Collect` are issued under a context with that negative
timeout. The product is the positive duration of `k * 10^9` seconds for a
duration of `k` seconds with `k` from 1 to 9, and is negative for every `k`
from 10 to 18. -/
theorem archive_timeout_wraps_negative :
    config30s.QueryTimeout = 30 * timeSecond ∧ 0 < config30s.QueryTimeout ∧
    config30s.QueryTimeout ≤ 3600 * timeSecond ∧
    durationMul config30s.QueryTimeout timeSecond = -6893488147419103232 ∧
    (∀ k : Int, 1 ≤ k → k ≤ 9 →
      durationMul (k * timeSecond) timeSecond = k * 1000000000 * timeSecond ∧
      0 < durationMul (k * timeSecond) timeSecond) ∧
    (∀ k : Int, 10 ≤ k → k ≤ 18 → durationMul (k * timeSecond) timeSecond < 0) ∧
    (DbArchSwitchCollector.Collect sampleSql config30s archEnabledDb (.ok ⟨[], none⟩)).map
        (fun r => r.issued) =
      some [⟨Context.Background, archIniQuery⟩,
        ⟨Context.WithTimeout (-6893488147419103232), archValidQuery⟩,
        ⟨Context.WithTimeout (-6893488147419103232), "QueryArchiveSwitchRateSql"⟩] ∧
    (DbArchSendCollector.Collect NewDbArchSendCollector sampleSql config30s
        ⟨archEnabledDb, .ok 1, .ok 2, fun _ => .ok ⟨[], none⟩⟩).map (fun p => p.2.issued) =
      some [⟨Context.Background, archIniQuery⟩, ⟨Context.Background, archValidQuery⟩,
        ⟨Context.WithTimeout (-6893488147419103232), "QueryArchApplyInfoExists"⟩,
        ⟨Context.WithTimeout (-6893488147419103232), "QueryArchSendInfoFieldsExist"⟩,
        ⟨Context.WithTimeout (-6893488147419103232), "QueryArchSendDetailInfo2"⟩] := by
  refine ⟨by decide, by decide, by decide, by decide, ?_, ?_, by decide, by decide⟩
  · intro k h1 h2
    interval_cases k <;> decide
  · intro k h1 h2
    interval_cases k <;> decide

/-! ## The samples of the instance error log -/

/-- C27 (the code at the failing input). The scanned rows carry two distinct
label tuples, (`a|b`, `c`, ...) and (`a`, `b|c`, ...); their dedup keys coincide,
the second row is dropped, and `DbInstanceLogErrorCollector.Collect` emits the
first tuple only. -/
theorem instance_log_tuple_not_emitted :
    (DbInstanceLogErrorCollector.Collect samplePkg sampleConfig
        (.ok ⟨[.ok logRowA, .ok logRowB], none⟩)).map
        (fun r => r.metrics.map (fun m => m.labelValues)) =
      some [["a|b", "c", "2024-01-01 00:00:00", "disk full"]] ∧
    [NullStringToString logRowB.Pid, NullStringToString logRowB.Level,
        NullStringToString logRowB.LogTime, NullStringToString logRowB.Txt] =
      ["a", "b|c", "2024-01-01 00:00:00", "disk full"] := by
  refine ⟨by decide, by decide⟩

/-! ## The Result Cache across probes -/

theorem GetFromCache_SetCache_other (cache : Cache) (now now1 : Int) (key value : String)
    (ttl : Int) (k : String) (hk : k ≠ key) :
    GetFromCache (SetCache cache now key value ttl) now1 k = GetFromCache cache now1 k := by
  have hf : ∀ l : List CacheEntry,
      (l.filter (fun e => !(e.key == key))).find? (fun e => e.key == k) =
        l.find? (fun e => e.key == k) := by
    intro l
    induction l with
    | nil => rfl
    | cons a t ih =>
      by_cases ha : a.key = key
      · have hak : ¬ a.key = k := fun h => hk (h ▸ ha)
        simp [List.filter_cons, List.find?_cons, ha, ih, Ne.symm hk]
      · by_cases hak : a.key = k
        · simp [List.filter_cons, List.find?_cons, ha, hak, hk]
        · simp [List.filter_cons, List.find?_cons, ha, hak, ih]
  simp only [GetFromCache, SetCache, List.find?_cons, hf]
  have hb : (key == k) = false := by simpa using Ne.symm hk
  simp only [hb]

theorem tablespace_cache_written (c : TableSpaceInfoCollector) (pkg : Pkg) (config : Config)
    (json : JsonCodec TableSpaceInfo) (q : QueryOutcome TableSpaceInfo) (cache : Cache)
    (now : Int) (r : Cycle) (h : c.Collect pkg config json q cache now = some r) :
    r.cache = cache ∨ ∃ v, r.cache = SetCache cache now dmdbms_tablespace_size_total_info v
      (durationMul timeMinute config.BigKeyDataCacheTime) := by
  have hq : ∀ infos, c.queryAndStore pkg config json q cache now
      dmdbms_tablespace_size_total_info infos = some r →
      r.cache = cache ∨ ∃ v, r.cache = SetCache cache now dmdbms_tablespace_size_total_info v
        (durationMul timeMinute config.BigKeyDataCacheTime) := by
    intro infos h
    simp only [TableSpaceInfoCollector.queryAndStore] at h
    split at h
    · simp only [Option.some.injEq] at h
      subst h; exact Or.inl rfl
    · simp only [Option.map_eq_some'] at h
      obtain ⟨ms, -, h⟩ := h
      split at h
      · subst h; exact Or.inl rfl
      · subst h; exact Or.inr ⟨_, rfl⟩
  simp only [TableSpaceInfoCollector.Collect] at h
  split at h
  · split at h
    · exact hq _ h
    · simp only [Option.map_eq_some'] at h
      obtain ⟨ms, -, h⟩ := h
      subst h; exact Or.inl rfl
  · exact hq _ h

theorem datafile_cache_written (c : TableSpaceDateFileInfoCollector) (pkg : Pkg)
    (config : Config) (json : JsonCodec TableSpaceDateFileInfo)
    (q : QueryOutcome TableSpaceDateFileInfo) (cache : Cache) (now : Int) (r : Cycle)
    (h : c.Collect pkg config json q cache now = some r) :
    r.cache = cache ∨ ∃ v, r.cache = SetCache cache now tablespaceFileCacheKey v
      (durationMul timeMinute config.BigKeyDataCacheTime) := by
  have hq : ∀ infos, c.queryAndStore pkg config json q cache now
      tablespaceFileCacheKey infos = some r →
      r.cache = cache ∨ ∃ v, r.cache = SetCache cache now tablespaceFileCacheKey v
        (durationMul timeMinute config.BigKeyDataCacheTime) := by
    intro infos h
    simp only [TableSpaceDateFileInfoCollector.queryAndStore] at h
    split at h
    · simp only [Option.some.injEq] at h
      subst h; exact Or.inl rfl
    · simp only [Option.map_eq_some'] at h
      obtain ⟨ms, -, h⟩ := h
      split at h
      · subst h; exact Or.inl rfl
      · subst h; exact Or.inr ⟨_, rfl⟩
  simp only [TableSpaceDateFileInfoCollector.Collect] at h
  split at h
  · split at h
    · exact hq _ h
    · simp only [Option.map_eq_some'] at h
      obtain ⟨ms, -, h⟩ := h
      subst h; exact Or.inl rfl
  · exact hq _ h

theorem version_cache_written (pkg : Pkg) (config : Config) (db : VersionDb) (cache : Cache)
    (now : Int) (r : Cycle) (h : DbVersionCollector.Collect pkg config db cache now = some r) :
    r.cache = cache ∨ ∃ v, r.cache = SetCache cache now "db_version_info" v
      (durationMul timeMinute config.BigKeyDataCacheTime) := by
  unfold DbVersionCollector.Collect at h
  cases hc : DbVersionCollector.cached pkg cache now with
  | some r1 =>
    rw [hc] at h
    simp only at h
    subst h
    unfold DbVersionCollector.cached at hc
    split at hc
    · split at hc
      · rw [MustNewConstMetric_version] at hc
        simp only [Option.map_some', Option.some.injEq] at hc
        rw [← hc]; exact Or.inl rfl
      · exact absurd hc (by simp)
    · exact absurd hc (by simp)
  | none =>
    rw [hc] at h
    simp only [getDbVersionV2] at h
    split at h
    · split at h
      · simp only [Option.some.injEq] at h
        subst h; exact Or.inl rfl
      · rw [MustNewConstMetric_version] at h
        simp only [Option.map_some', Option.some.injEq] at h
        subst h; exact Or.inr ⟨_, rfl⟩
    · rw [MustNewConstMetric_version] at h
      simp only [Option.map_some', Option.some.injEq] at h
      subst h; exact Or.inr ⟨_, rfl⟩

theorem tablespace_reads_own_key (c : TableSpaceInfoCollector) (pkg : Pkg) (config : Config)
    (json : JsonCodec TableSpaceInfo) (q : QueryOutcome TableSpaceInfo) (c1 c2 : Cache)
    (now : Int)
    (h : GetFromCache c1 now dmdbms_tablespace_size_total_info =
      GetFromCache c2 now dmdbms_tablespace_size_total_info) :
    (c.Collect pkg config json q c1 now).map (fun r => (r.metrics, r.queries)) =
      (c.Collect pkg config json q c2 now).map (fun r => (r.metrics, r.queries)) := by
  have hq : ∀ infos,
      (c.queryAndStore pkg config json q c1 now dmdbms_tablespace_size_total_info infos).map
          (fun r => (r.metrics, r.queries)) =
        (c.queryAndStore pkg config json q c2 now dmdbms_tablespace_size_total_info infos).map
          (fun r => (r.metrics, r.queries)) := by
    intro infos
    simp only [TableSpaceInfoCollector.queryAndStore]
    cases q with
    | error e => rfl
    | ok rows =>
      simp only [Option.map_map]
      congr 1
      funext ms
      simp only [Function.comp]
      cases json.Marshal (infos ++ scannedRows rows.scanned) <;> rfl
  simp only [TableSpaceInfoCollector.Collect, h]
  cases GetFromCache c2 now dmdbms_tablespace_size_total_info with
  | none => exact hq _
  | some cachedJSON =>
    simp only
    cases json.Unmarshal cachedJSON with
    | error leftover => exact hq _
    | ok infos => simp only [Option.map_map]; rfl

theorem datafile_reads_own_key (c : TableSpaceDateFileInfoCollector) (pkg : Pkg)
    (config : Config) (json : JsonCodec TableSpaceDateFileInfo)
    (q : QueryOutcome TableSpaceDateFileInfo) (c1 c2 : Cache) (now : Int)
    (h : GetFromCache c1 now tablespaceFileCacheKey =
      GetFromCache c2 now tablespaceFileCacheKey) :
    (c.Collect pkg config json q c1 now).map (fun r => (r.metrics, r.queries)) =
      (c.Collect pkg config json q c2 now).map (fun r => (r.metrics, r.queries)) := by
  have hq : ∀ infos,
      (c.queryAndStore pkg config json q c1 now tablespaceFileCacheKey infos).map
          (fun r => (r.metrics, r.queries)) =
        (c.queryAndStore pkg config json q c2 now tablespaceFileCacheKey infos).map
          (fun r => (r.metrics, r.queries)) := by
    intro infos
    simp only [TableSpaceDateFileInfoCollector.queryAndStore]
    cases q with
    | error e => rfl
    | ok rows =>
      simp only [Option.map_map]
      congr 1
      funext ms
      simp only [Function.comp]
      cases json.Marshal (infos ++ scannedRows rows.scanned) <;> rfl
  simp only [TableSpaceDateFileInfoCollector.Collect, h]
  cases GetFromCache c2 now tablespaceFileCacheKey with
  | none => exact hq _
  | some cachedJSON =>
    simp only
    cases json.Unmarshal cachedJSON with
    | error leftover => exact hq _
    | ok infos => simp only [Option.map_map]; rfl

theorem version_reads_own_key (pkg : Pkg) (config : Config) (db : VersionDb) (c1 c2 : Cache)
    (now : Int)
    (h : GetFromCache c1 now "db_version_info" = GetFromCache c2 now "db_version_info") :
    (DbVersionCollector.Collect pkg config db c1 now).map (fun r => (r.metrics, r.queries)) =
      (DbVersionCollector.Collect pkg config db c2 now).map
        (fun r => (r.metrics, r.queries)) := by
  simp only [DbVersionCollector.Collect, DbVersionCollector.cached, h]
  cases GetFromCache c2 now "db_version_info" with
  | some cachedValue =>
    simp only
    rcases hs : stringsSplit cachedValue '|' with _ | ⟨p0, _ | ⟨p1, _ | ⟨p2, _ | ⟨p3, l⟩⟩⟩⟩
    case cons.cons.cons.nil => simp only [MustNewConstMetric_version, Option.map_some']
    all_goals
      simp only
      split <;> [split; skip] <;> simp only [MustNewConstMetric_version, Option.map_some']
  | none =>
    simp only
    split <;> [split; skip] <;> simp only [MustNewConstMetric_version, Option.map_some']

/-- C28. The cache keys of `DbVersionCollector`, `TableSpaceInfoCollector` and
`TableSpaceDateFileInfoCollector` are pairwise distinct constants. What a
`Collect` of each of the three emits and issues depends on the cache only
through the lookup of its own key, the cache it leaves is the one it found or
the one it found with a single entry set under that same key, and so the
lookup of every other key gives afterwards, at every time, what it gave
before: no probe reads a payload another probe wrote. -/
theorem cache_keys_isolated (pkg : Pkg) (config : Config) :
    ("db_version_info" ≠ dmdbms_tablespace_size_total_info ∧
      "db_version_info" ≠ tablespaceFileCacheKey ∧
      dmdbms_tablespace_size_total_info ≠ tablespaceFileCacheKey) ∧
    (∀ (c : TableSpaceInfoCollector) (json : JsonCodec TableSpaceInfo)
        (q : QueryOutcome TableSpaceInfo) (now : Int),
      (∀ c1 c2 : Cache,
        GetFromCache c1 now dmdbms_tablespace_size_total_info =
          GetFromCache c2 now dmdbms_tablespace_size_total_info →
        (c.Collect pkg config json q c1 now).map (fun r => (r.metrics, r.queries)) =
          (c.Collect pkg config json q c2 now).map (fun r => (r.metrics, r.queries))) ∧
      ∀ (cache : Cache) (r : Cycle), c.Collect pkg config json q cache now = some r →
        (r.cache = cache ∨
          ∃ v, r.cache = SetCache cache now dmdbms_tablespace_size_total_info v
            (durationMul timeMinute config.BigKeyDataCacheTime)) ∧
        ∀ (k : String) (t : Int), k ≠ dmdbms_tablespace_size_total_info →
          GetFromCache r.cache t k = GetFromCache cache t k) ∧
    (∀ (c : TableSpaceDateFileInfoCollector) (json : JsonCodec TableSpaceDateFileInfo)
        (q : QueryOutcome TableSpaceDateFileInfo) (now : Int),
      (∀ c1 c2 : Cache,
        GetFromCache c1 now tablespaceFileCacheKey =
          GetFromCache c2 now tablespaceFileCacheKey →
        (c.Collect pkg config json q c1 now).map (fun r => (r.metrics, r.queries)) =
          (c.Collect pkg config json q c2 now).map (fun r => (r.metrics, r.queries))) ∧
      ∀ (cache : Cache) (r : Cycle), c.Collect pkg config json q cache now = some r →
        (r.cache = cache ∨
          ∃ v, r.cache = SetCache cache now tablespaceFileCacheKey v
            (durationMul timeMinute config.BigKeyDataCacheTime)) ∧
        ∀ (k : String) (t : Int), k ≠ tablespaceFileCacheKey →
          GetFromCache r.cache t k = GetFromCache cache t k) ∧
    (∀ (db : VersionDb) (now : Int),
      (∀ c1 c2 : Cache,
        GetFromCache c1 now "db_version_info" = GetFromCache c2 now "db_version_info" →
        (DbVersionCollector.Collect pkg config db c1 now).map
            (fun r => (r.metrics, r.queries)) =
          (DbVersionCollector.Collect pkg config db c2 now).map
            (fun r => (r.metrics, r.queries))) ∧
      ∀ (cache : Cache) (r : Cycle),
        DbVersionCollector.Collect pkg config db cache now = some r →
        (r.cache = cache ∨
          ∃ v, r.cache = SetCache cache now "db_version_info" v
            (durationMul timeMinute config.BigKeyDataCacheTime)) ∧
        ∀ (k : String) (t : Int), k ≠ "db_version_info" →
          GetFromCache r.cache t k = GetFromCache cache t k) := by
  have frame : ∀ (cache rc : Cache) (now : Int) (key : String) (ttl : Int),
      (rc = cache ∨ ∃ v, rc = SetCache cache now key v ttl) →
      ∀ (k : String) (t : Int), k ≠ key → GetFromCache rc t k = GetFromCache cache t k := by
    intro cache rc now key ttl h k t hk
    rcases h with h | ⟨v, h⟩
    · rw [h]
    · rw [h, GetFromCache_SetCache_other _ _ _ _ _ _ _ hk]
  refine ⟨⟨by decide, by decide, by decide⟩, ?_, ?_, ?_⟩
  · intro c json q now
    refine ⟨fun c1 c2 h => tablespace_reads_own_key c pkg config json q c1 c2 now h,
      fun cache r h => ?_⟩
    have hw := tablespace_cache_written c pkg config json q cache now r h
    exact ⟨hw, frame _ _ _ _ _ hw⟩
  · intro c json q now
    refine ⟨fun c1 c2 h => datafile_reads_own_key c pkg config json q c1 c2 now h,
      fun cache r h => ?_⟩
    have hw := datafile_cache_written c pkg config json q cache now r h
    exact ⟨hw, frame _ _ _ _ _ hw⟩
  · intro db now
    refine ⟨fun c1 c2 h => version_reads_own_key pkg config db c1 c2 now h,
      fun cache r h => ?_⟩
    have hw := version_cache_written pkg config db cache now r h
    exact ⟨hw, frame _ _ _ _ _ hw⟩

/-! ## The Result Cache after a failed cycle -/

theorem tablespace_failed_query_cache (pkg : Pkg) (config : Config)
    (json : JsonCodec TableSpaceInfo) (e : DbError) (cache : Cache) (now : Int) :
    (NewTableSpaceInfoCollector.Collect pkg config json (.error e) cache now).map
      (fun r => r.cache) = some cache := by
  simp only [TableSpaceInfoCollector.Collect]
  split
  · split
    · rfl
    · rw [tablespace_emitCached, tablespace_emitQueried]; rfl
  · rfl

theorem datafile_failed_query_cache (pkg : Pkg) (config : Config)
    (json : JsonCodec TableSpaceDateFileInfo) (e : DbError) (cache : Cache) (now : Int) :
    (NewTableSpaceDateFileInfoCollector.Collect pkg config json (.error e) cache now).map
      (fun r => r.cache) = some cache := by
  simp only [TableSpaceDateFileInfoCollector.Collect]
  split
  · split
    · rfl
    · rw [datafile_emitCached, datafile_emitQueried]; rfl
  · rfl

theorem version_failed_queries_cache (pkg : Pkg) (config : Config) (db : VersionDb)
    (cache : Cache) (now : Int) (e2 e1 : DbError) (hv2 : db.v2 = .error e2)
    (hv1 : (getDbVersionV1 db).1 = .error e1) :
    (DbVersionCollector.Collect pkg config db cache now).map (fun r => r.cache) =
      some cache := by
  unfold DbVersionCollector.Collect
  cases hc : DbVersionCollector.cached pkg cache now with
  | some r1 =>
    simp only
    unfold DbVersionCollector.cached at hc
    split at hc
    · split at hc
      · rw [MustNewConstMetric_version] at hc
        simp only [Option.map_some', Option.some.injEq] at hc
        rw [← hc]; rfl
      · exact absurd hc (by simp)
    · exact absurd hc (by simp)
  | none =>
    simp only [getDbVersionV2, hv2]
    cases hg : getDbVersionV1 db with
    | mk res q1 =>
      rw [hg] at hv1
      simp only at hv1
      subst hv1
      rfl

/-- C30. A failed cycle leaves the Result Cache unchanged: when the tablespace
query of `TableSpaceInfoCollector.Collect` or of
`TableSpaceDateFileInfoCollector.Collect` fails, or when both the V2 and the V1
version queries of `DbVersionCollector.Collect` fail, the cycle returns and the
cache it leaves is the cache it found, so every later lookup of every key
answers as it would have without the cycle. -/
theorem failed_cycle_leaves_cache (pkg : Pkg) (config : Config) (cache : Cache) (now : Int) :
    (∀ (json : JsonCodec TableSpaceInfo) (e : DbError),
      ∃ r, NewTableSpaceInfoCollector.Collect pkg config json (.error e) cache now = some r ∧
        r.cache = cache ∧
        ∀ (later : Int) (k : String), GetFromCache r.cache later k = GetFromCache cache later k) ∧
    (∀ (json : JsonCodec TableSpaceDateFileInfo) (e : DbError),
      ∃ r, NewTableSpaceDateFileInfoCollector.Collect pkg config json (.error e) cache now =
          some r ∧ r.cache = cache ∧
        ∀ (later : Int) (k : String), GetFromCache r.cache later k = GetFromCache cache later k) ∧
    (∀ (db : VersionDb) (e2 e1 : DbError), db.v2 = .error e2 →
      (getDbVersionV1 db).1 = .error e1 →
      ∃ r, DbVersionCollector.Collect pkg config db cache now = some r ∧ r.cache = cache ∧
        ∀ (later : Int) (k : String), GetFromCache r.cache later k = GetFromCache cache later k) ∧
    (∀ (e2 e1 : DbError) (version : String → Except DbError String),
      (getDbVersionV1 ⟨.error e2, .error e1, version⟩).1 = .error e1) ∧
    (∀ (e2 e1 : DbError) (pos : Int),
      (getDbVersionV1 ⟨.error e2, .ok pos, fun _ => .error e1⟩).1 = .error e1) := by
  have key : ∀ (o : Option Cycle), o.map (fun r => r.cache) = some cache →
      ∃ r, o = some r ∧ r.cache = cache ∧
        ∀ (later : Int) (k : String), GetFromCache r.cache later k = GetFromCache cache later k := by
    intro o h
    cases o with
    | none => exact absurd h (by simp)
    | some r =>
      simp only [Option.map_some', Option.some.injEq] at h
      exact ⟨r, rfl, h, fun later k => by rw [h]⟩
  refine ⟨fun json e => key _ (tablespace_failed_query_cache pkg config json e cache now),
    fun json e => key _ (datafile_failed_query_cache pkg config json e cache now),
    fun db e2 e1 hv2 hv1 =>
      key _ (version_failed_queries_cache pkg config db cache now e2 e1 hv2 hv1),
    fun _ _ _ => rfl, fun _ _ _ => rfl⟩

/-! ## The archive status mapping -/

/-- C29. `getDbArchStatus` returns `DB_ARCH_VALID` exactly when both queries
succeed with `"1"`, returns `DB_ARCH_NO_ENABLE` exactly when the ARCH_INI query
succeeds with `"0"`, and returns `DB_ARCH_INVALID` in every other case and
whenever it returns an error; the three codes are 1, -1 and 2; and
`DbArchStatusCollector.Collect` emits a sample of `archStatusInfo` only when the
database answered the ping and the status is `DB_ARCH_VALID` without error. -/
theorem arch_status_mapping (ctx : Context) (db : ArchStatusDb) :
    (DB_ARCH_VALID = 1 ∧ DB_ARCH_NO_ENABLE = -1 ∧ DB_ARCH_INVALID = 2) ∧
    ((getDbArchStatus ctx db).1.1 = DB_ARCH_VALID ↔
      db.archIni = .ok "1" ∧ db.archStatus = .ok "1") ∧
    ((getDbArchStatus ctx db).1.1 = DB_ARCH_NO_ENABLE ↔ db.archIni = .ok "0") ∧
    (¬ (db.archIni = .ok "1" ∧ db.archStatus = .ok "1") → ¬ db.archIni = .ok "0" →
      (getDbArchStatus ctx db).1.1 = DB_ARCH_INVALID) ∧
    ((getDbArchStatus ctx db).1.2 ≠ none → (getDbArchStatus ctx db).1.1 = DB_ARCH_INVALID) ∧
    (∀ (pkg : Pkg) (sql : SqlText) (config : Config) (r : Probed),
      DbArchStatusCollector.Collect pkg sql config db = some r →
      (∃ m ∈ r.metrics, m.desc = archStatusInfo) →
      db.ping = none ∧
        (getDbArchStatus (Context.WithTimeout config.QueryTimeout) db).1 =
          (DB_ARCH_VALID, none)) := by
  have hvi : DB_ARCH_VALID ≠ DB_ARCH_INVALID := by decide
  have hvn : DB_ARCH_VALID ≠ DB_ARCH_NO_ENABLE := by decide
  have hni : DB_ARCH_NO_ENABLE ≠ DB_ARCH_INVALID := by decide
  have h10 : ("1" : String) ≠ "0" := by decide
  have hdesc : archStatusDesc ≠ archStatusInfo := by decide
  refine ⟨⟨rfl, rfl, rfl⟩, ?_, ?_, ?_, ?_, ?_⟩
  · unfold getDbArchStatus
    cases hi : db.archIni with
    | error e => simp [hvi.symm]
    | ok s =>
      by_cases h1 : s = "1"
      · subst h1
        cases hs : db.archStatus with
        | error e => simp [hvi.symm]
        | ok t =>
          by_cases h2 : t = "1"
          · subst h2; simp
          · by_cases h3 : t = "0" <;> simp [h2, h3, hvi.symm]
      · by_cases h0 : s = "0" <;> simp [h1, h0, hvi.symm, hvn.symm]
  · unfold getDbArchStatus
    cases hi : db.archIni with
    | error e => simp [hni.symm]
    | ok s =>
      by_cases h1 : s = "1"
      · subst h1
        cases hs : db.archStatus with
        | error e => simp [hni.symm, h10]
        | ok t =>
          by_cases h2 : t = "1"
          · subst h2; simp [hvn, h10]
          · by_cases h3 : t = "0" <;> simp [h2, h3, hni.symm, h10]
      · by_cases h0 : s = "0" <;> simp [h1, h0, hni.symm]
  · intro hnv hn0
    unfold getDbArchStatus
    cases hi : db.archIni with
    | error e => rfl
    | ok s =>
      rw [hi] at hnv hn0
      by_cases h1 : s = "1"
      · subst h1
        cases hs : db.archStatus with
        | error e => simp
        | ok t =>
          rw [hs] at hnv
          have h2 : t ≠ "1" := fun h => hnv ⟨rfl, by rw [h]⟩
          by_cases h3 : t = "0" <;> simp [h2, h3]
      · have h0 : s ≠ "0" := fun h => hn0 (by rw [h])
        simp [h1, h0]
  · unfold getDbArchStatus
    cases hi : db.archIni with
    | error e => simp
    | ok s =>
      by_cases h1 : s = "1"
      · subst h1
        cases hs : db.archStatus with
        | error e => simp
        | ok t =>
          by_cases h2 : t = "1"
          · subst h2; simp
          · by_cases h3 : t = "0" <;> simp [h2, h3]
      · by_cases h0 : s = "0" <;> simp [h1, h0]
  · intro pkg sql config r h hm
    simp only [DbArchStatusCollector.Collect] at h
    cases hp : db.ping with
    | some e =>
      rw [hp] at h
      simp only [Option.some.injEq] at h
      subst h
      obtain ⟨m, hmem, -⟩ := hm
      exact absurd hmem (by simp)
    | none =>
      rw [hp] at h
      simp only at h
      refine ⟨rfl, ?_⟩
      rcases hg : getDbArchStatus (Context.WithTimeout config.QueryTimeout) db with
        ⟨⟨st, err⟩, issued⟩
      rw [hg] at h
      have hone : ∀ (v : Int) (m : Metric), setArchMetric pkg sql archStatusDesc v = some m →
          m.desc = archStatusDesc := by
        intro v m hs
        simp only [setArchMetric, MustNewConstMetric] at hs
        split at hs
        · simp only [Option.some.injEq] at hs
          rw [← hs]
        · exact absurd hs (by simp)
      cases err with
      | some e =>
        simp only [Option.map_eq_some'] at h
        obtain ⟨m, hs, h⟩ := h
        subst h
        obtain ⟨m1, hmem, hd⟩ := hm
        simp only [List.mem_singleton] at hmem
        subst hmem
        exact absurd ((hone _ _ hs).symm.trans hd) hdesc
      | none =>
        simp only [Option.bind_eq_some] at h
        obtain ⟨m, hs, h⟩ := h
        by_cases hv : st = DB_ARCH_VALID
        · rw [hv]
        · rw [if_neg hv] at h
          simp only [Option.some.injEq] at h
          subst h
          obtain ⟨m1, hmem, hd⟩ := hm
          simp only [List.mem_singleton] at hmem
          subst hmem
          exact absurd ((hone _ _ hs).symm.trans hd) hdesc

/-! ## Samples against descriptors -/

theorem Conforms_nil (descs : List Desc) : Conforms descs [] :=
  ⟨fun _ h => absurd h (List.not_mem_nil _), fun _ h => absurd h (List.not_mem_nil _)⟩

theorem Conforms_cons (descs : List Desc) (m : Metric) (ms : List Metric)
    (hd : m.desc ∈ descs) (hl : m.labelValues.length = m.desc.variableLabels.length)
    (h : Conforms descs ms) : Conforms descs (m :: ms) := by
  constructor
  · intro x hx
    rcases List.mem_cons.1 hx with rfl | hx
    · exact hd
    · exact h.1 x hx
  · intro x hx
    rcases List.mem_cons.1 hx with rfl | hx
    · exact hl
    · exact h.2 x hx

theorem Conforms_append (descs : List Desc) (as bs : List Metric)
    (ha : Conforms descs as) (hb : Conforms descs bs) : Conforms descs (as ++ bs) := by
  constructor
  · intro x hx
    rcases List.mem_append.1 hx with hx | hx
    · exact ha.1 x hx
    · exact hb.1 x hx
  · intro x hx
    rcases List.mem_append.1 hx with hx | hx
    · exact ha.2 x hx
    · exact hb.2 x hx

theorem Conforms_map {α : Type} (descs : List Desc) (f : α → Metric) (l : List α)
    (h : ∀ a, (f a).desc ∈ descs ∧
      (f a).labelValues.length = (f a).desc.variableLabels.length) :
    Conforms descs (l.map f) := by
  constructor
  · intro x hx
    obtain ⟨a, -, rfl⟩ := List.mem_map.1 hx
    exact (h a).1
  · intro x hx
    obtain ⟨a, -, rfl⟩ := List.mem_map.1 hx
    exact (h a).2

theorem Conforms_flatMap {α : Type} (descs : List Desc) (f : α → List Metric) (l : List α)
    (h : ∀ a, Conforms descs (f a)) : Conforms descs (l.flatMap f) := by
  constructor
  · intro x hx
    obtain ⟨a, -, hxa⟩ := List.mem_flatMap.1 hx
    exact (h a).1 x hxa
  · intro x hx
    obtain ⟨a, -, hxa⟩ := List.mem_flatMap.1 hx
    exact (h a).2 x hxa

theorem instanceLog_emit (infos : List InstanceLogInfo) :
    DbInstanceLogErrorCollector.emit infos =
      some (infos.map (fun info =>
        ⟨instanceLogInfoDesc, ValueType.GaugeValue, Float64.one,
          [NullStringToString info.Pid, NullStringToString info.Level,
            NullStringToString info.LogTime, NullStringToString info.Txt]⟩)) := by
  induction infos with
  | nil => rfl
  | cons info rest ih => rw [DbInstanceLogErrorCollector.emit, ih]; rfl

theorem user_emit (pkg : Pkg) (infos : List UserInfo) :
    DbUserCollector.emit pkg infos =
      some (infos.map (fun info =>
        ⟨userListInfoDesc, ValueType.GaugeValue,
          if NullStringToString info.AccountStatus = "锁定" then Float64.one else Float64.zero,
          [pkg.Hostname, NullStringToString info.Username, NullStringToString info.ReadOnly,
            NullStringToString info.ExpiryDate, NullStringToString info.ExpiryDateDay,
            NullStringToString info.DefaultTablespace, NullStringToString info.Profile,
            NullStringToString info.CreateTime]⟩)) := by
  induction infos with
  | nil => rfl
  | cons info rest ih => rw [DbUserCollector.emit, ih]; rfl

theorem parameter_emit (pkg : Pkg) (infos : List IniParameterInfo) :
    IniParameterCollector.emit pkg infos =
      some (infos.map (fun info =>
        ⟨parameterInfoDesc, ValueType.GaugeValue, NullFloat64ToFloat64 info.ParaValue,
          [pkg.Hostname, NullStringToString info.ParaName]⟩)) := by
  induction infos with
  | nil => rfl
  | cons info rest ih => rw [IniParameterCollector.emit, ih]; rfl

theorem statementType_emit (pkg : Pkg) (infos : List DbSqlExecTypeInfo) :
    DbSqlExecTypeCollector.emit pkg infos =
      some (infos.map (fun info =>
        ⟨statementTypeDesc, ValueType.CounterValue, NullFloat64ToFloat64 info.StatVal,
          [pkg.Hostname, NullStringToString info.Name]⟩)) := by
  induction infos with
  | nil => rfl
  | cons info rest ih => rw [DbSqlExecTypeCollector.emit, ih]; rfl

theorem memoryPool_emit (pkg : Pkg) (infos : List MemoryPoolInfo) :
    DbMemoryPoolInfoCollector.emit pkg infos =
      some (infos.flatMap (fun info =>
        [⟨totalPoolDesc, ValueType.GaugeValue, NullFloat64ToFloat64 info.TotalVal,
            [pkg.Hostname, NullStringToString info.ZoneType]⟩,
          ⟨currPoolDesc, ValueType.GaugeValue, NullFloat64ToFloat64 info.CurrVal,
            [pkg.Hostname, NullStringToString info.ZoneType]⟩])) := by
  induction infos with
  | nil => rfl
  | cons info rest ih => rw [DbMemoryPoolInfoCollector.emit, ih]; rfl

theorem rapply_emit (pkg : Pkg) (infos : List RapplyTimeDiff) :
    DbRapplyTimeDiffCollector.emit pkg infos =
      some (infos.map (fun info =>
        ⟨timeDiffDesc, ValueType.GaugeValue, NullFloat64ToFloat64 info.TimeDiff,
          [pkg.Hostname]⟩)) := by
  induction infos with
  | nil => rfl
  | cons info rest ih => rw [DbRapplyTimeDiffCollector.emit, ih]; rfl

theorem purge_emit (pkg : Pkg) (sql : SqlText) (infos : List PurgeInfo) :
    PurgeCollector.emit pkg sql infos =
      some (infos.map (fun info =>
        ⟨purgeObjects, ValueType.GaugeValue, sql.float64 info.ObjNum, [pkg.Hostname]⟩)) := by
  induction infos with
  | nil => rfl
  | cons info rest ih => rw [PurgeCollector.emit, ih]; rfl

theorem instanceLog_conforms (pkg : Pkg) (config : Config) (q : QueryOutcome InstanceLogInfo) :
    ∃ r, DbInstanceLogErrorCollector.Collect pkg config q = some r ∧
      Conforms DbInstanceLogErrorCollector.Describe r.metrics := by
  cases q with
  | error e => exact ⟨_, rfl, Conforms_nil _⟩
  | ok rows =>
    simp only [DbInstanceLogErrorCollector.Collect, instanceLog_emit, Option.map_some']
    exact ⟨_, rfl, Conforms_map _ _ _ (fun _ => ⟨List.mem_cons_self _ _, rfl⟩)⟩

theorem dual_conforms (sql : SqlText) (config : Config) (q : QueryOutcome Float64) :
    ∃ r, DbDualInfoCollector.Collect sql config q = some r ∧
      Conforms DbDualInfoCollector.Describe r.metrics :=
  ⟨_, rfl, Conforms_cons _ _ _ (List.mem_cons_self _ _) rfl (Conforms_nil _)⟩

theorem bufferPool_conforms (sql : SqlText) (config : Config)
    (q : QueryOutcome BufferPoolInfo) :
    ∃ r, DbBufferPoolInfoCollector.Collect sql config q = some r ∧
      Conforms DbBufferPoolInfoCollector.Describe r.metrics := by
  cases q with
  | error e => exact ⟨_, rfl, Conforms_nil _⟩
  | ok rows =>
    simp only [DbBufferPoolInfoCollector.Collect, bufferPool_emit, Option.map_some']
    exact ⟨_, rfl, Conforms_map _ _ _ (fun _ => ⟨List.mem_cons_self _ _, rfl⟩)⟩

theorem user_conforms (pkg : Pkg) (text : String) (config : Config)
    (q : QueryOutcome UserInfo) :
    ∃ r, DbUserCollector.Collect pkg text config q = some r ∧
      Conforms DbUserCollector.Describe r.metrics := by
  cases q with
  | error e => exact ⟨_, rfl, Conforms_nil _⟩
  | ok rows =>
    simp only [DbUserCollector.Collect, user_emit, Option.map_some']
    cases rows.err with
    | some e => exact ⟨_, rfl, Conforms_nil _⟩
    | none => exact ⟨_, rfl, Conforms_map _ _ _ (fun _ => ⟨List.mem_cons_self _ _, rfl⟩)⟩

theorem parameter_conforms (pkg : Pkg) (text : String) (config : Config)
    (q : QueryOutcome IniParameterInfo) :
    ∃ r, IniParameterCollector.Collect pkg text config q = some r ∧
      Conforms IniParameterCollector.Describe r.metrics := by
  cases q with
  | error e => exact ⟨_, rfl, Conforms_nil _⟩
  | ok rows =>
    simp only [IniParameterCollector.Collect, parameter_emit, Option.map_some']
    cases rows.err with
    | some e => exact ⟨_, rfl, Conforms_nil _⟩
    | none => exact ⟨_, rfl, Conforms_map _ _ _ (fun _ => ⟨List.mem_cons_self _ _, rfl⟩)⟩

theorem statementType_conforms (pkg : Pkg) (text : String) (config : Config)
    (q : QueryOutcome DbSqlExecTypeInfo) :
    ∃ r, DbSqlExecTypeCollector.Collect pkg text config q = some r ∧
      Conforms DbSqlExecTypeCollector.Describe r.metrics := by
  cases q with
  | error e => exact ⟨_, rfl, Conforms_nil _⟩
  | ok rows =>
    simp only [DbSqlExecTypeCollector.Collect, statementType_emit, Option.map_some']
    exact ⟨_, rfl, Conforms_map _ _ _ (fun _ => ⟨List.mem_cons_self _ _, rfl⟩)⟩

theorem memoryPool_conforms (pkg : Pkg) (text : String) (config : Config)
    (q : QueryOutcome MemoryPoolInfo) :
    ∃ r, DbMemoryPoolInfoCollector.Collect pkg text config q = some r ∧
      Conforms DbMemoryPoolInfoCollector.Describe r.metrics := by
  cases q with
  | error e => exact ⟨_, rfl, Conforms_nil _⟩
  | ok rows =>
    simp only [DbMemoryPoolInfoCollector.Collect, memoryPool_emit, Option.map_some']
    exact ⟨_, rfl, Conforms_flatMap _ _ _ (fun _ =>
      Conforms_cons _ _ _ (List.mem_cons_self _ _) rfl
        (Conforms_cons _ _ _ (List.mem_cons_of_mem _ (List.mem_cons_self _ _)) rfl
          (Conforms_nil _)))⟩

theorem rapply_conforms (pkg : Pkg) (text : String) (config : Config)
    (q : QueryOutcome RapplyTimeDiff) :
    ∃ r, DbRapplyTimeDiffCollector.Collect pkg text config q = some r ∧
      Conforms DbRapplyTimeDiffCollector.Describe r.metrics := by
  cases q with
  | error e => exact ⟨_, rfl, Conforms_nil _⟩
  | ok rows =>
    simp only [DbRapplyTimeDiffCollector.Collect, rapply_emit, Option.map_some']
    cases rows.err with
    | some e => exact ⟨_, rfl, Conforms_nil _⟩
    | none => exact ⟨_, rfl, Conforms_map _ _ _ (fun _ => ⟨List.mem_cons_self _ _, rfl⟩)⟩

theorem purge_conforms (pkg : Pkg) (sql : SqlText) (text : String) (config : Config)
    (q : QueryOutcome PurgeInfo) :
    ∃ r, PurgeCollector.Collect pkg sql text config q = some r ∧
      Conforms PurgeCollector.Describe r.metrics := by
  cases q with
  | error e => exact ⟨_, rfl, Conforms_nil _⟩
  | ok rows =>
    simp only [PurgeCollector.Collect, PurgeCollector.getPurgeInfos, purge_emit]
    cases rows.err with
    | some e => exact ⟨_, rfl, Conforms_nil _⟩
    | none => exact ⟨_, rfl, Conforms_map _ _ _ (fun _ => ⟨List.mem_cons_self _ _, rfl⟩)⟩

theorem system_conforms (pkg : Pkg) (q : QueryOutcome SystemInfo) :
    ∃ r, NewDBSystemInfoCollector.Collect pkg q = some r ∧
      Conforms NewDBSystemInfoCollector.Describe r.metrics := by
  have hemit : ∀ info : SystemInfo, ∃ ms, NewDBSystemInfoCollector.emit pkg info = some ms ∧
      Conforms NewDBSystemInfoCollector.Describe ms := by
    intro info
    have hb := List.mem_cons_self NewDBSystemInfoCollector.systemBaseInfoDesc
      [NewDBSystemInfoCollector.cpuInfoDesc, NewDBSystemInfoCollector.memoryInfoDesc]
    have hc := List.mem_cons_of_mem NewDBSystemInfoCollector.systemBaseInfoDesc
      (List.mem_cons_self NewDBSystemInfoCollector.cpuInfoDesc
        [NewDBSystemInfoCollector.memoryInfoDesc])
    have hm := List.mem_cons_of_mem NewDBSystemInfoCollector.systemBaseInfoDesc
      (List.mem_cons_of_mem NewDBSystemInfoCollector.cpuInfoDesc
        (List.mem_cons_self NewDBSystemInfoCollector.memoryInfoDesc []))
    unfold DBSystemInfoCollector.emit
    cases h1 : info.NCpu.Valid <;> cases h2 : info.TotalPhySize.Valid
    · exact ⟨_, rfl, Conforms_cons _ _ _ hb rfl (Conforms_nil _)⟩
    · exact ⟨_, rfl, Conforms_cons _ _ _ hb rfl
        (Conforms_cons _ _ _ hm rfl (Conforms_nil _))⟩
    · exact ⟨_, rfl, Conforms_cons _ _ _ hb rfl
        (Conforms_cons _ _ _ hc rfl (Conforms_nil _))⟩
    · exact ⟨_, rfl, Conforms_cons _ _ _ hb rfl
        (Conforms_cons _ _ _ hc rfl (Conforms_cons _ _ _ hm rfl (Conforms_nil _)))⟩
  have hwrap : ∀ info : SystemInfo,
      ∃ r, (NewDBSystemInfoCollector.emit pkg info).map
          (fun ms => (⟨ms, [pkg.QuerySystemInfoSqlStr]⟩ : Emitted)) = some r ∧
        Conforms NewDBSystemInfoCollector.Describe r.metrics := by
    intro info
    obtain ⟨ms, h, hc⟩ := hemit info
    rw [h]
    exact ⟨_, rfl, hc⟩
  cases q with
  | error e => exact ⟨_, rfl, Conforms_nil _⟩
  | ok rows =>
    simp only [DBSystemInfoCollector.Collect]
    split
    · exact ⟨_, rfl, Conforms_nil _⟩
    · cases rows.err with
      | some e => exact ⟨_, rfl, Conforms_nil _⟩
      | none => exact hwrap _

theorem version_conforms (pkg : Pkg) (config : Config) (db : VersionDb) (cache : Cache)
    (now : Int) :
    ∃ r, DbVersionCollector.Collect pkg config db cache now = some r ∧
      Conforms DbVersionCollector.Describe r.metrics := by
  have one : ∀ (vt : ValueType) (v : Float64) (lv : List String),
      lv.length = versionInfoDesc.variableLabels.length →
      Conforms DbVersionCollector.Describe [⟨versionInfoDesc, vt, v, lv⟩] :=
    fun vt v lv h => Conforms_cons _ _ _ (List.mem_cons_self _ _) h (Conforms_nil _)
  unfold DbVersionCollector.Collect
  cases hc : DbVersionCollector.cached pkg cache now with
  | some r1 =>
    simp only
    unfold DbVersionCollector.cached at hc
    split at hc
    · split at hc
      · rw [MustNewConstMetric_version] at hc
        simp only [Option.map_some', Option.some.injEq] at hc
        rw [← hc]
        exact ⟨_, rfl, one _ _ _ rfl⟩
      · exact absurd hc (by simp)
    · exact absurd hc (by simp)
  | none =>
    simp only [getDbVersionV2]
    split
    · split
      · exact ⟨_, rfl, Conforms_nil _⟩
      · exact ⟨_, rfl, one _ _ _ rfl⟩
    · exact ⟨_, rfl, one _ _ _ rfl⟩

theorem tablespace_conforms (pkg : Pkg) (config : Config) (json : JsonCodec TableSpaceInfo)
    (q : QueryOutcome TableSpaceInfo) (cache : Cache) (now : Int) :
    ∃ r, NewTableSpaceInfoCollector.Collect pkg config json q cache now = some r ∧
      Conforms NewTableSpaceInfoCollector.Describe r.metrics := by
  have hrows : ∀ rows : List TableSpaceInfo,
      Conforms NewTableSpaceInfoCollector.Describe (rows.flatMap (fun info =>
        [⟨NewTableSpaceInfoCollector.totalDesc, ValueType.GaugeValue, info.TotalSize,
            [pkg.Hostname, info.TablespaceName]⟩,
          ⟨NewTableSpaceInfoCollector.freeDesc, ValueType.GaugeValue, info.FreeSize,
            [pkg.Hostname, info.TablespaceName]⟩])) :=
    fun rows => Conforms_flatMap _ _ _ (fun _ =>
      Conforms_cons _ _ _ (List.mem_cons_self _ _) rfl
        (Conforms_cons _ _ _ (List.mem_cons_of_mem _ (List.mem_cons_self _ _)) rfl
          (Conforms_nil _)))
  have hq : ∀ infos, ∃ r, NewTableSpaceInfoCollector.queryAndStore pkg config json q cache now
      dmdbms_tablespace_size_total_info infos = some r ∧
      Conforms NewTableSpaceInfoCollector.Describe r.metrics := by
    intro infos
    simp only [TableSpaceInfoCollector.queryAndStore]
    cases q with
    | error e => exact ⟨_, rfl, Conforms_nil _⟩
    | ok rows =>
      simp only [tablespace_emitQueried, Option.map_some']
      cases json.Marshal (infos ++ scannedRows rows.scanned) with
      | none => exact ⟨_, rfl, hrows _⟩
      | some v => exact ⟨_, rfl, hrows _⟩
  simp only [TableSpaceInfoCollector.Collect]
  split
  · split
    · exact hq _
    · rw [tablespace_emitCached, tablespace_emitQueried]
      exact ⟨_, rfl, hrows _⟩
  · exact hq _

theorem datafile_conforms (pkg : Pkg) (config : Config)
    (json : JsonCodec TableSpaceDateFileInfo) (q : QueryOutcome TableSpaceDateFileInfo)
    (cache : Cache) (now : Int) :
    ∃ r, NewTableSpaceDateFileInfoCollector.Collect pkg config json q cache now = some r ∧
      Conforms NewTableSpaceDateFileInfoCollector.Describe r.metrics := by
  have hrows : ∀ rows : List TableSpaceDateFileInfo,
      Conforms NewTableSpaceDateFileInfoCollector.Describe (rows.flatMap (fun info =>
        [⟨NewTableSpaceDateFileInfoCollector.totalDesc, ValueType.GaugeValue, info.TotalSize,
            [pkg.Hostname, info.Path, info.AutoExtend, info.NextSize, info.MaxSize]⟩,
          ⟨NewTableSpaceDateFileInfoCollector.freeDesc, ValueType.GaugeValue, info.FreeSize,
            [pkg.Hostname, info.Path, info.AutoExtend, info.NextSize, info.MaxSize]⟩])) :=
    fun rows => Conforms_flatMap _ _ _ (fun _ =>
      Conforms_cons _ _ _ (List.mem_cons_self _ _) rfl
        (Conforms_cons _ _ _ (List.mem_cons_of_mem _ (List.mem_cons_self _ _)) rfl
          (Conforms_nil _)))
  have hq : ∀ infos, ∃ r, NewTableSpaceDateFileInfoCollector.queryAndStore pkg config json q
      cache now tablespaceFileCacheKey infos = some r ∧
      Conforms NewTableSpaceDateFileInfoCollector.Describe r.metrics := by
    intro infos
    simp only [TableSpaceDateFileInfoCollector.queryAndStore]
    cases q with
    | error e => exact ⟨_, rfl, Conforms_nil _⟩
    | ok rows =>
      simp only [datafile_emitQueried, Option.map_some']
      cases json.Marshal (infos ++ scannedRows rows.scanned) with
      | none => exact ⟨_, rfl, hrows _⟩
      | some v => exact ⟨_, rfl, hrows _⟩
  simp only [TableSpaceDateFileInfoCollector.Collect]
  split
  · split
    · exact hq _
    · rw [datafile_emitCached, datafile_emitQueried]
      exact ⟨_, rfl, hrows _⟩
  · exact hq _

theorem job_conforms (pkg : Pkg) (sql : SqlText) (config : Config)
    (q : QueryOutcome ErrorCountInfo) :
    ∃ r, DbJobRunningInfoCollector.Collect pkg sql config q = some r ∧
      Conforms DbJobRunningInfoCollector.Describe r.metrics := by
  cases q with
  | error e => exact ⟨_, rfl, Conforms_nil _⟩
  | ok rows =>
    simp only [DbJobRunningInfoCollector.Collect]
    split
    · exact ⟨_, rfl, Conforms_nil _⟩
    · exact ⟨_, rfl, Conforms_cons _ _ _ (List.mem_cons_self _ _) rfl (Conforms_nil _)⟩

theorem monitor_conforms (c : MonitorInfoCollector) (pkg : Pkg) (sql : SqlText)
    (config : Config) (db : MonitorDb) :
    ∃ r, c.Collect pkg sql config db = some r ∧
      Conforms MonitorInfoCollector.Describe r.2.metrics := by
  simp only [MonitorInfoCollector.Collect, monitor_emit, Option.map_some']
  split
  · exact ⟨_, rfl, Conforms_nil _⟩
  · cases db.info with
    | error e => exact ⟨_, rfl, Conforms_nil _⟩
    | ok rows =>
      exact ⟨_, rfl, Conforms_map _ _ _ (fun _ => ⟨List.mem_cons_self _ _, rfl⟩)⟩

theorem archStatus_conforms (pkg : Pkg) (sql : SqlText) (config : Config)
    (db : ArchStatusDb) :
    ∃ r, DbArchStatusCollector.Collect pkg sql config db = some r ∧
      Conforms DbArchStatusCollector.Describe r.metrics := by
  have hset : ∀ v : Int, setArchMetric pkg sql archStatusDesc v =
      some ⟨archStatusDesc, ValueType.GaugeValue, sql.float64 v, [pkg.Hostname]⟩ :=
    fun _ => rfl
  have hone : ∀ v : Int, Conforms DbArchStatusCollector.Describe
      [⟨archStatusDesc, ValueType.GaugeValue, sql.float64 v, [pkg.Hostname]⟩] :=
    fun _ => Conforms_cons _ _ _ (List.mem_cons_self _ _) rfl (Conforms_nil _)
  simp only [DbArchStatusCollector.Collect, hset, Option.map_some', Option.some_bind,
    getDbArchStatusInfo, archStatus_emit]
  cases db.ping with
  | some e => exact ⟨_, rfl, Conforms_nil _⟩
  | none =>
    simp only
    split
    · exact ⟨_, rfl, hone _⟩
    · split
      · cases db.statusInfo with
        | error e => exact ⟨_, rfl, hone _⟩
        | ok rows =>
          exact ⟨_, rfl, Conforms_cons _ _ _ (List.mem_cons_self _ _) rfl
            (Conforms_map _ _ _ (fun _ =>
              ⟨List.mem_cons_of_mem _ (List.mem_cons_self _ _), rfl⟩))⟩
      · exact ⟨_, rfl, hone _⟩

theorem archSwitch_conforms (sql : SqlText) (config : Config) (db : ArchEnabledDb)
    (q : QueryOutcome DbArchSwitchRateInfo) :
    ∃ r, DbArchSwitchCollector.Collect sql config db q = some r ∧
      Conforms DbArchSwitchCollector.Describe r.metrics := by
  simp only [DbArchSwitchCollector.Collect]
  split
  · exact ⟨_, rfl, Conforms_cons _ _ _ (List.mem_cons_self _ _) rfl (Conforms_nil _)⟩
  · split
    · exact ⟨_, rfl, Conforms_nil _⟩
    · exact ⟨_, rfl, Conforms_cons _ _ _ (List.mem_cons_self _ _) rfl
        (Conforms_cons _ _ _ (List.mem_cons_of_mem _ (List.mem_cons_self _ _)) rfl
          (Conforms_nil _))⟩

theorem archSend_conforms (c : DbArchSendCollector) (sql : SqlText) (config : Config)
    (db : ArchSendDb) :
    ∃ r, c.Collect sql config db = some r ∧
      Conforms DbArchSendCollector.Describe r.2.metrics := by
  simp only [DbArchSendCollector.Collect, archSend_emit, Option.map_some']
  split
  · exact ⟨_, rfl, Conforms_nil _⟩
  · split
    · exact ⟨_, rfl, Conforms_nil _⟩
    · exact ⟨_, rfl, Conforms_flatMap _ _ _ (fun _ =>
        Conforms_cons _ _ _ (List.mem_cons_self _ _) rfl
          (Conforms_cons _ _ _ (List.mem_cons_of_mem _ (List.mem_cons_self _ _)) rfl
            (Conforms_nil _)))⟩

/-! ## Label counts and descriptors of every probe -/

/-- C25. Sample construction never aborts on label cardinality: for every
outcome of the database, every cache content and every collector state, the
`Collect` of each of the eighteen collectors returns, no `MustNewConstMetric`
in it having met a label count different from that of its descriptor, and
every sample it emits carries as many label values as its descriptor has
label names. -/
theorem samples_match_label_count (pkg : Pkg) (sql : SqlText) (config : Config) :
    (∀ q, ∃ r, NewDBSystemInfoCollector.Collect pkg q = some r ∧ LabelsMatch r.metrics) ∧
    (∀ db cache now, ∃ r, DbVersionCollector.Collect pkg config db cache now = some r ∧
      LabelsMatch r.metrics) ∧
    (∀ json q cache now, ∃ r,
      NewTableSpaceInfoCollector.Collect pkg config json q cache now = some r ∧
      LabelsMatch r.metrics) ∧
    (∀ json q cache now, ∃ r,
      NewTableSpaceDateFileInfoCollector.Collect pkg config json q cache now = some r ∧
      LabelsMatch r.metrics) ∧
    (∀ q, ∃ r, DbInstanceLogErrorCollector.Collect pkg config q = some r ∧
      LabelsMatch r.metrics) ∧
    (∀ q, ∃ r, DbDualInfoCollector.Collect sql config q = some r ∧ LabelsMatch r.metrics) ∧
    (∀ q, ∃ r, DbBufferPoolInfoCollector.Collect sql config q = some r ∧
      LabelsMatch r.metrics) ∧
    (∀ q, ∃ r, DbJobRunningInfoCollector.Collect pkg sql config q = some r ∧
      LabelsMatch r.metrics) ∧
    (∀ (c : MonitorInfoCollector) db, ∃ r, c.Collect pkg sql config db = some r ∧
      LabelsMatch r.2.metrics) ∧
    (∀ db, ∃ r, DbArchStatusCollector.Collect pkg sql config db = some r ∧
      LabelsMatch r.metrics) ∧
    (∀ db q, ∃ r, DbArchSwitchCollector.Collect sql config db q = some r ∧
      LabelsMatch r.metrics) ∧
    (∀ (c : DbArchSendCollector) db, ∃ r, c.Collect sql config db = some r ∧
      LabelsMatch r.2.metrics) ∧
    (∀ text q, ∃ r, DbUserCollector.Collect pkg text config q = some r ∧
      LabelsMatch r.metrics) ∧
    (∀ text q, ∃ r, IniParameterCollector.Collect pkg text config q = some r ∧
      LabelsMatch r.metrics) ∧
    (∀ text q, ∃ r, DbSqlExecTypeCollector.Collect pkg text config q = some r ∧
      LabelsMatch r.metrics) ∧
    (∀ text q, ∃ r, DbMemoryPoolInfoCollector.Collect pkg text config q = some r ∧
      LabelsMatch r.metrics) ∧
    (∀ text q, ∃ r, DbRapplyTimeDiffCollector.Collect pkg text config q = some r ∧
      LabelsMatch r.metrics) ∧
    (∀ text q, ∃ r, PurgeCollector.Collect pkg sql text config q = some r ∧
      LabelsMatch r.metrics) := by
  have k : ∀ {α : Type} (o : Option α) (f : α → List Metric) (descs : List Desc),
      (∃ r, o = some r ∧ Conforms descs (f r)) → ∃ r, o = some r ∧ LabelsMatch (f r) :=
    fun _ _ _ ⟨r, h, hc⟩ => ⟨r, h, hc.2⟩
  refine ⟨fun q => k _ _ _ (system_conforms pkg q),
    fun db cache now => k _ _ _ (version_conforms pkg config db cache now),
    fun json q cache now => k _ _ _ (tablespace_conforms pkg config json q cache now),
    fun json q cache now => k _ _ _ (datafile_conforms pkg config json q cache now),
    fun q => k _ _ _ (instanceLog_conforms pkg config q),
    fun q => k _ _ _ (dual_conforms sql config q),
    fun q => k _ _ _ (bufferPool_conforms sql config q),
    fun q => k _ _ _ (job_conforms pkg sql config q),
    fun c db => k _ (fun r => r.2.metrics) _ (monitor_conforms c pkg sql config db),
    fun db => k _ _ _ (archStatus_conforms pkg sql config db),
    fun db q => k _ _ _ (archSwitch_conforms sql config db q),
    fun c db => k _ (fun r => r.2.metrics) _ (archSend_conforms c sql config db),
    fun text q => k _ _ _ (user_conforms pkg text config q),
    fun text q => k _ _ _ (parameter_conforms pkg text config q),
    fun text q => k _ _ _ (statementType_conforms pkg text config q),
    fun text q => k _ _ _ (memoryPool_conforms pkg text config q),
    fun text q => k _ _ _ (rapply_conforms pkg text config q),
    fun text q => k _ _ _ (purge_conforms pkg sql text config q)⟩

/-- C26. Describe/Collect consistency: for every outcome of the database, every
cache content and every collector state, each sample the `Collect` of each of
the eighteen collectors emits references a descriptor of the list the same
collector's `Describe` enumerates; that list is the list of the descriptors
the constructor built, a value that no database answer, cache content or
collector state enters. -/
theorem describe_collect_consistent (pkg : Pkg) (sql : SqlText) (config : Config) :
    ((∀ q, ∃ r, NewDBSystemInfoCollector.Collect pkg q = some r ∧
        DescribedBy NewDBSystemInfoCollector.Describe r.metrics) ∧
      (∀ db cache now, ∃ r, DbVersionCollector.Collect pkg config db cache now = some r ∧
        DescribedBy DbVersionCollector.Describe r.metrics) ∧
      (∀ json q cache now, ∃ r,
        NewTableSpaceInfoCollector.Collect pkg config json q cache now = some r ∧
        DescribedBy NewTableSpaceInfoCollector.Describe r.metrics) ∧
      (∀ json q cache now, ∃ r,
        NewTableSpaceDateFileInfoCollector.Collect pkg config json q cache now = some r ∧
        DescribedBy NewTableSpaceDateFileInfoCollector.Describe r.metrics) ∧
      (∀ q, ∃ r, DbInstanceLogErrorCollector.Collect pkg config q = some r ∧
        DescribedBy DbInstanceLogErrorCollector.Describe r.metrics) ∧
      (∀ q, ∃ r, DbDualInfoCollector.Collect sql config q = some r ∧
        DescribedBy DbDualInfoCollector.Describe r.metrics) ∧
      (∀ q, ∃ r, DbBufferPoolInfoCollector.Collect sql config q = some r ∧
        DescribedBy DbBufferPoolInfoCollector.Describe r.metrics) ∧
      (∀ q, ∃ r, DbJobRunningInfoCollector.Collect pkg sql config q = some r ∧
        DescribedBy DbJobRunningInfoCollector.Describe r.metrics) ∧
      (∀ (c : MonitorInfoCollector) db, ∃ r, c.Collect pkg sql config db = some r ∧
        DescribedBy MonitorInfoCollector.Describe r.2.metrics) ∧
      (∀ db, ∃ r, DbArchStatusCollector.Collect pkg sql config db = some r ∧
        DescribedBy DbArchStatusCollector.Describe r.metrics) ∧
      (∀ db q, ∃ r, DbArchSwitchCollector.Collect sql config db q = some r ∧
        DescribedBy DbArchSwitchCollector.Describe r.metrics) ∧
      (∀ (c : DbArchSendCollector) db, ∃ r, c.Collect sql config db = some r ∧
        DescribedBy DbArchSendCollector.Describe r.2.metrics) ∧
      (∀ text q, ∃ r, DbUserCollector.Collect pkg text config q = some r ∧
        DescribedBy DbUserCollector.Describe r.metrics) ∧
      (∀ text q, ∃ r, IniParameterCollector.Collect pkg text config q = some r ∧
        DescribedBy IniParameterCollector.Describe r.metrics) ∧
      (∀ text q, ∃ r, DbSqlExecTypeCollector.Collect pkg text config q = some r ∧
        DescribedBy DbSqlExecTypeCollector.Describe r.metrics) ∧
      (∀ text q, ∃ r, DbMemoryPoolInfoCollector.Collect pkg text config q = some r ∧
        DescribedBy DbMemoryPoolInfoCollector.Describe r.metrics) ∧
      (∀ text q, ∃ r, DbRapplyTimeDiffCollector.Collect pkg text config q = some r ∧
        DescribedBy DbRapplyTimeDiffCollector.Describe r.metrics) ∧
      (∀ text q, ∃ r, PurgeCollector.Collect pkg sql text config q = some r ∧
        DescribedBy PurgeCollector.Describe r.metrics)) ∧
    (NewDBSystemInfoCollector.Describe =
        [NewDBSystemInfoCollector.systemBaseInfoDesc, NewDBSystemInfoCollector.cpuInfoDesc,
          NewDBSystemInfoCollector.memoryInfoDesc] ∧
      NewTableSpaceInfoCollector.Describe =
        [NewTableSpaceInfoCollector.totalDesc, NewTableSpaceInfoCollector.freeDesc] ∧
      NewTableSpaceDateFileInfoCollector.Describe =
        [NewTableSpaceDateFileInfoCollector.totalDesc,
          NewTableSpaceDateFileInfoCollector.freeDesc] ∧
      DbVersionCollector.Describe = [versionInfoDesc] ∧
      DbInstanceLogErrorCollector.Describe = [instanceLogInfoDesc] ∧
      DbDualInfoCollector.Describe = [dualInfoDesc] ∧
      DbBufferPoolInfoCollector.Describe = [bufferPoolInfoDesc] ∧
      DbJobRunningInfoCollector.Describe = [jobErrorNumDesc] ∧
      MonitorInfoCollector.Describe = [monitorInfoDesc] ∧
      DbArchStatusCollector.Describe = [archStatusDesc, archStatusInfo] ∧
      DbArchSwitchCollector.Describe = [archSwitchRateDesc, archSwitchRateDetailInfo] ∧
      DbArchSendCollector.Describe = [archSendDetailInfo, archSendDiffValue] ∧
      DbUserCollector.Describe = [userListInfoDesc] ∧
      IniParameterCollector.Describe = [parameterInfoDesc] ∧
      DbSqlExecTypeCollector.Describe = [statementTypeDesc] ∧
      DbMemoryPoolInfoCollector.Describe = [totalPoolDesc, currPoolDesc] ∧
      DbRapplyTimeDiffCollector.Describe = [timeDiffDesc] ∧
      PurgeCollector.Describe = [purgeObjects]) := by
  have k : ∀ {α : Type} (o : Option α) (f : α → List Metric) (descs : List Desc),
      (∃ r, o = some r ∧ Conforms descs (f r)) → ∃ r, o = some r ∧ DescribedBy descs (f r) :=
    fun _ _ _ ⟨r, h, hc⟩ => ⟨r, h, hc.1⟩
  refine ⟨⟨fun q => k _ _ _ (system_conforms pkg q),
    fun db cache now => k _ _ _ (version_conforms pkg config db cache now),
    fun json q cache now => k _ _ _ (tablespace_conforms pkg config json q cache now),
    fun json q cache now => k _ _ _ (datafile_conforms pkg config json q cache now),
    fun q => k _ _ _ (instanceLog_conforms pkg config q),
    fun q => k _ _ _ (dual_conforms sql config q),
    fun q => k _ _ _ (bufferPool_conforms sql config q),
    fun q => k _ _ _ (job_conforms pkg sql config q),
    fun c db => k _ (fun r => r.2.metrics) _ (monitor_conforms c pkg sql config db),
    fun db => k _ _ _ (archStatus_conforms pkg sql config db),
    fun db q => k _ _ _ (archSwitch_conforms sql config db q),
    fun c db => k _ (fun r => r.2.metrics) _ (archSend_conforms c sql config db),
    fun text q => k _ _ _ (user_conforms pkg text config q),
    fun text q => k _ _ _ (parameter_conforms pkg text config q),
    fun text q => k _ _ _ (statementType_conforms pkg text config q),
    fun text q => k _ _ _ (memoryPool_conforms pkg text config q),
    fun text q => k _ _ _ (rapply_conforms pkg text config q),
    fun text q => k _ _ _ (purge_conforms pkg sql text config q)⟩,
    rfl, rfl, rfl, rfl, rfl, rfl, rfl, rfl, rfl, rfl, rfl, rfl, rfl, rfl, rfl, rfl, rfl, rfl⟩

/-! ## Registration -/

set_option maxRecDepth 100000 in
theorem metricNames_nodup : metricNames.Nodup := by decide

set_option maxRecDepth 100000 in
theorem presentNames_nodup : presentNames.Nodup := by decide

set_option maxRecDepth 100000 in
theorem presentNames_declared : ∀ n ∈ presentNames, n ∈ metricNames := by decide

theorem MustRegister_of_nodup (reg : Registry) (descs : List Desc)
    (h : ((reg ++ descs).map (fun d => d.fqName)).Nodup) :
    MustRegister reg descs = some (reg ++ descs) := by
  rw [List.map_append, List.nodup_append] at h
  obtain ⟨-, hd, hdis⟩ := h
  have h1 : descs.any (fun d => reg.any (fun r => r.fqName == d.fqName)) = false := by
    rw [Bool.eq_false_iff]
    intro hany
    rw [List.any_eq_true] at hany
    obtain ⟨d, hdm, hr⟩ := hany
    rw [List.any_eq_true] at hr
    obtain ⟨r, hrm, he⟩ := hr
    rw [beq_iff_eq] at he
    exact hdis (List.mem_map_of_mem _ hrm) (he ▸ List.mem_map_of_mem (fun d => d.fqName) hdm)
  have h2 : descs.any
      (fun d => descs.any (fun d2 => d2.fqName == d.fqName && d2 != d)) = false := by
    rw [Bool.eq_false_iff]
    intro hany
    rw [List.any_eq_true] at hany
    obtain ⟨d, hdm, hr⟩ := hany
    rw [List.any_eq_true] at hr
    obtain ⟨d2, hd2m, he⟩ := hr
    rw [Bool.and_eq_true, beq_iff_eq] at he
    have heq : d2 = d := List.inj_on_of_nodup_map hd hd2m hdm he.1
    rw [heq] at he
    simp at he
  simp only [MustRegister, h1, h2, Bool.false_eq_true, if_false]

theorem registerAll_of_nodup (collectors : List (List Desc)) :
    ∀ reg : Registry, ((reg ++ collectors.flatten).map (fun d => d.fqName)).Nodup →
      registerAll reg collectors = some (reg ++ collectors.flatten) := by
  induction collectors with
  | nil => intro reg _; simp [registerAll]
  | cons descs rest ih =>
    intro reg h
    rw [List.flatten_cons, ← List.append_assoc] at h
    have hhead : ((reg ++ descs).map (fun d => d.fqName)).Nodup := by
      rw [List.map_append] at h
      exact (List.nodup_append.1 h).1
    rw [registerAll, MustRegister_of_nodup reg descs hhead]
    simp only
    rw [ih (reg ++ descs) h, List.flatten_cons, List.append_assoc]

theorem collectorsOf_flatten_sublist (toggles : Toggles) (goos : String)
    (absent : AbsentCollectors) :
    (collectorsOf toggles goos absent).flatten.Sublist
      (([NewDBSystemInfoCollector.Describe] ++ [absent.DmapProcessCollector] ++
        databaseCollectors absent).flatten) := by
  unfold collectorsOf
  simp only [List.flatten_append]
  refine List.Sublist.append (List.Sublist.append (List.Sublist.refl _) ?_) ?_
  · split
    · exact List.Sublist.refl _
    · simp
  · split
    · exact List.Sublist.refl _
    · simp

theorem allNames_perm (absent : AbsentCollectors) :
    (allNames absent).Perm (presentNames ++ absentNames absent) := by
  rw [List.perm_iff_count]
  intro n
  simp only [allNames, presentNames, absentNames, databaseCollectors, List.cons_append,
    List.nil_append, List.flatten_cons, List.flatten_nil, List.append_nil, List.map_append,
    List.count_append]
  omega

theorem allNames_nodup (absent : AbsentCollectors) (habsent : (absentNames absent).Nodup)
    (hfresh : ∀ n ∈ absentNames absent, n ∉ presentNames) : (allNames absent).Nodup := by
  rw [(allNames_perm absent).nodup_iff, List.nodup_append]
  exact ⟨presentNames_nodup, habsent, fun n hp ha => hfresh n ha hp⟩

/-- Registration when the collectors not at hand bring fresh names: the
metric-name constants of `collector.go` are pairwise distinct; the descriptors
of the collectors at hand have pairwise distinct names, all of them among
those constants; and when the descriptors of the nine collectors whose files
are not at hand have pairwise distinct names that no collector at hand uses,
every `MustRegister` of `RegisterCollectors` succeeds, for every setting of the
toggles and every operating system. -/
theorem registerCollectors_of_fresh_names (toggles : Toggles) (goos : String)
    (absent : AbsentCollectors) (habsent : (absentNames absent).Nodup)
    (hfresh : ∀ n ∈ absentNames absent, n ∉ presentNames) :
    metricNames.Nodup ∧ presentNames.Nodup ∧ (∀ n ∈ presentNames, n ∈ metricNames) ∧
    (allNames absent).Nodup ∧
    RegisterCollectors toggles goos absent =
      some (collectorsOf toggles goos absent).flatten := by
  have hall := allNames_nodup absent habsent hfresh
  refine ⟨metricNames_nodup, presentNames_nodup, presentNames_declared, hall, ?_⟩
  have hsub := (collectorsOf_flatten_sublist toggles goos absent).map (fun d => d.fqName)
  have hnd : ((([] : Registry) ++ (collectorsOf toggles goos absent).flatten).map
      (fun d => d.fqName)).Nodup := by
    rw [List.nil_append]
    exact List.Nodup.sublist hsub hall
  have hreg := registerAll_of_nodup (collectorsOf toggles goos absent) [] hnd
  rw [List.nil_append] at hreg
  exact hreg

set_option maxRecDepth 100000 in
/-- The names no collector at hand uses, shared out among the nine collectors
not at hand, are fresh: registration succeeds with every toggle on, on Linux. -/
theorem registerCollectors_of_fresh_names_sample :
    (absentNames sampleAbsent).Nodup ∧ (∀ n ∈ absentNames sampleAbsent, n ∉ presentNames) ∧
    RegisterCollectors ⟨true, true, true⟩ "linux" sampleAbsent =
      some (collectorsOf ⟨true, true, true⟩ "linux" sampleAbsent).flatten :=
  ⟨by decide, by decide,
    (registerCollectors_of_fresh_names ⟨true, true, true⟩ "linux" sampleAbsent (by decide)
      (by decide)).2.2.2.2⟩

set_option maxRecDepth 100000 in
/-- Registration depends on the collectors not at hand: were the license
collector to build a descriptor named `dmdbms_version`, the `MustRegister` of
`DbVersionCollector` would abort; with the database toggle off the collectors
not at hand are not registered and registration succeeds. -/
theorem registerCollectors_depends_on_absent :
    RegisterCollectors ⟨false, true, false⟩ "linux" clashingAbsent = none ∧
    ∀ (goos : String) (absent : AbsentCollectors),
      RegisterCollectors ⟨false, false, false⟩ goos absent =
        some NewDBSystemInfoCollector.Describe := by
  refine ⟨by decide, fun goos absent => ?_⟩
  have h : collectorsOf ⟨false, false, false⟩ goos absent =
      [NewDBSystemInfoCollector.Describe] := by
    simp [collectorsOf]
  rw [RegisterCollectors, h]
  decide

/-! ## Rows that fail to scan, every probe -/

/-- C16 (amended). In the probes that iterate over all rows (buffer pool, monitor
info, the two tablespace probes, archive send, the archive status details,
instance error log, user list, parameters, statement types, memory pools,
redo-apply time difference, purge objects) a row that fails to scan is
skipped and the samples of the rows that scanned are emitted, in order (of the
deduplicated rows for the instance error log; when the iteration ends without
a `rows.Err()` for the user list, parameters, redo-apply time difference and
purge objects, which stop on it). The probes that read a single row
(`DBSystemInfoCollector.Collect`, `DbJobRunningInfoCollector.Collect`,
`DbArchSwitchCollector.getDbArchSwitchRate`) stop the cycle when that row fails
to scan and emit nothing; `DbDualInfoCollector.Collect` emits its one sample
with the value `DB_DUAL_FAILUR` when its row fails to scan. -/
theorem scan_failure_handling (pkg : Pkg) (sql : SqlText) (config : Config) :
    (∀ rows : Rows BufferPoolInfo,
      (DbBufferPoolInfoCollector.Collect sql config (.ok rows)).map (fun r => r.metrics) =
        some ((scannedRows rows.scanned).map (fun info =>
          ⟨bufferPoolInfoDesc, ValueType.GaugeValue, NullFloat64ToFloat64 info.hitRate,
            [NullStringToString info.bufferName]⟩))) ∧
    (∀ rows : Rows MonitorInfo,
      (MonitorInfoCollector.Collect NewMonitorInfoCollector pkg sql config
          ⟨.ok 1, .ok rows⟩).map (fun p => p.2.metrics) =
        some ((scannedRows rows.scanned).map (fun info =>
          ⟨monitorInfoDesc, ValueType.GaugeValue, NullFloat64ToFloat64 info.Mid,
            [pkg.Hostname, NullStringToString info.DwConnTime,
              NullStringToString info.MonConfirm, NullStringToString info.MonId,
              NullStringToString info.MonIp, NullStringToString info.MonVersion]⟩))) ∧
    (∀ (json : JsonCodec TableSpaceInfo) (rows : Rows TableSpaceInfo) (now : Int),
      (NewTableSpaceInfoCollector.Collect pkg config json (.ok rows) [] now).map
          (fun r => r.metrics) =
        some ((scannedRows rows.scanned).flatMap (fun info =>
          [⟨NewTableSpaceInfoCollector.totalDesc, ValueType.GaugeValue, info.TotalSize,
              [pkg.Hostname, info.TablespaceName]⟩,
            ⟨NewTableSpaceInfoCollector.freeDesc, ValueType.GaugeValue, info.FreeSize,
              [pkg.Hostname, info.TablespaceName]⟩]))) ∧
    (∀ (json : JsonCodec TableSpaceDateFileInfo) (rows : Rows TableSpaceDateFileInfo)
        (now : Int),
      (NewTableSpaceDateFileInfoCollector.Collect pkg config json (.ok rows) [] now).map
          (fun r => r.metrics) =
        some ((scannedRows rows.scanned).flatMap (fun info =>
          [⟨NewTableSpaceDateFileInfoCollector.totalDesc, ValueType.GaugeValue,
              info.TotalSize,
              [pkg.Hostname, info.Path, info.AutoExtend, info.NextSize, info.MaxSize]⟩,
            ⟨NewTableSpaceDateFileInfoCollector.freeDesc, ValueType.GaugeValue,
              info.FreeSize,
              [pkg.Hostname, info.Path, info.AutoExtend, info.NextSize, info.MaxSize]⟩]))) ∧
    (∀ (c : DbArchSendCollector) (a1 a2 : Except DbError Int)
        (rows : Rows DbArchSendDetailInfo),
      (DbArchSendCollector.Collect c sql config
          ⟨⟨.ok "1", .ok "1"⟩, a1, a2, fun _ => .ok rows⟩).map (fun p => p.2.metrics) =
        some ((scannedRows rows.scanned).flatMap (fun info =>
          [⟨archSendDetailInfo, ValueType.GaugeValue, NullFloat64ToFloat64 info.lsnDiff,
              [NullStringToString info.archType, NullStringToString info.archDest]⟩,
            ⟨archSendDiffValue, ValueType.GaugeValue, NullFloat64ToFloat64 info.lsnDiff,
              [NullStringToString info.archType, NullStringToString info.archDest]⟩]))) ∧
    (∀ rows : Rows DbArchStatusInfo,
      (DbArchStatusCollector.Collect pkg sql config ⟨none, .ok "1", .ok "1", .ok rows⟩).map
          (fun r => r.metrics) =
        some (⟨archStatusDesc, ValueType.GaugeValue, sql.float64 DB_ARCH_VALID,
            [pkg.Hostname]⟩ ::
          (scannedRows rows.scanned).map (fun info =>
            ⟨archStatusInfo, ValueType.GaugeValue, NullFloat64ToFloat64 info.archStatus,
              [NullStringToString info.archType, NullStringToString info.archDest,
                NullStringToString info.archSrc]⟩))) ∧
    (∀ (e : DbError) (rest : List (Except DbError SystemInfo)) (err : Option DbError),
      DBSystemInfoCollector.Collect NewDBSystemInfoCollector pkg
          (.ok ⟨.error e :: rest, err⟩) =
        some ⟨[], [pkg.QuerySystemInfoSqlStr]⟩) ∧
    (∀ (e : DbError) (rest : List (Except DbError ErrorCountInfo)) (err : Option DbError),
      DbJobRunningInfoCollector.Collect pkg sql config (.ok ⟨.error e :: rest, err⟩) =
        some ⟨[], [⟨Context.WithTimeout config.QueryTimeout,
          sql.QueryDbJobRunningInfoSqlStr⟩]⟩) ∧
    (∀ (e : DbError) (rest : List (Except DbError DbArchSwitchRateInfo))
        (err : Option DbError),
      (DbArchSwitchCollector.Collect sql config ⟨.ok "1", .ok "1"⟩
          (.ok ⟨.error e :: rest, err⟩)).map (fun r => r.metrics) = some []) ∧
    (∀ rows : Rows InstanceLogInfo,
      (DbInstanceLogErrorCollector.Collect pkg config (.ok rows)).map (fun r => r.metrics) =
        some ((removeDuplicateLogInfos (scannedRows rows.scanned)).map (fun info =>
          ⟨instanceLogInfoDesc, ValueType.GaugeValue, Float64.one,
            [NullStringToString info.Pid, NullStringToString info.Level,
              NullStringToString info.LogTime, NullStringToString info.Txt]⟩))) ∧
    (∀ (text : String) (scanned : List (Except DbError UserInfo)),
      (DbUserCollector.Collect pkg text config (.ok ⟨scanned, none⟩)).map
          (fun r => r.metrics) =
        some ((scannedRows scanned).map (fun info =>
          ⟨userListInfoDesc, ValueType.GaugeValue,
            if NullStringToString info.AccountStatus = "锁定" then Float64.one
            else Float64.zero,
            [pkg.Hostname, NullStringToString info.Username,
              NullStringToString info.ReadOnly, NullStringToString info.ExpiryDate,
              NullStringToString info.ExpiryDateDay,
              NullStringToString info.DefaultTablespace, NullStringToString info.Profile,
              NullStringToString info.CreateTime]⟩))) ∧
    (∀ (text : String) (scanned : List (Except DbError IniParameterInfo)),
      (IniParameterCollector.Collect pkg text config (.ok ⟨scanned, none⟩)).map
          (fun r => r.metrics) =
        some ((scannedRows scanned).map (fun info =>
          ⟨parameterInfoDesc, ValueType.GaugeValue, NullFloat64ToFloat64 info.ParaValue,
            [pkg.Hostname, NullStringToString info.ParaName]⟩))) ∧
    (∀ (text : String) (rows : Rows DbSqlExecTypeInfo),
      (DbSqlExecTypeCollector.Collect pkg text config (.ok rows)).map (fun r => r.metrics) =
        some ((scannedRows rows.scanned).map (fun info =>
          ⟨statementTypeDesc, ValueType.CounterValue, NullFloat64ToFloat64 info.StatVal,
            [pkg.Hostname, NullStringToString info.Name]⟩))) ∧
    (∀ (text : String) (rows : Rows MemoryPoolInfo),
      (DbMemoryPoolInfoCollector.Collect pkg text config (.ok rows)).map
          (fun r => r.metrics) =
        some ((scannedRows rows.scanned).flatMap (fun info =>
          [⟨totalPoolDesc, ValueType.GaugeValue, NullFloat64ToFloat64 info.TotalVal,
              [pkg.Hostname, NullStringToString info.ZoneType]⟩,
            ⟨currPoolDesc, ValueType.GaugeValue, NullFloat64ToFloat64 info.CurrVal,
              [pkg.Hostname, NullStringToString info.ZoneType]⟩]))) ∧
    (∀ (text : String) (scanned : List (Except DbError RapplyTimeDiff)),
      (DbRapplyTimeDiffCollector.Collect pkg text config (.ok ⟨scanned, none⟩)).map
          (fun r => r.metrics) =
        some ((scannedRows scanned).map (fun info =>
          ⟨timeDiffDesc, ValueType.GaugeValue, NullFloat64ToFloat64 info.TimeDiff,
            [pkg.Hostname]⟩))) ∧
    (∀ (text : String) (scanned : List (Except DbError PurgeInfo)),
      (PurgeCollector.Collect pkg sql text config (.ok ⟨scanned, none⟩)).map
          (fun r => r.metrics) =
        some ((scannedRows scanned).map (fun info =>
          ⟨purgeObjects, ValueType.GaugeValue, sql.float64 info.ObjNum,
            [pkg.Hostname]⟩))) ∧
    (∀ (e : DbError) (rest : List (Except DbError Float64)) (err : Option DbError),
      DbDualInfoCollector.Collect sql config (.ok ⟨.error e :: rest, err⟩) =
        some ⟨[⟨dualInfoDesc, ValueType.GaugeValue, DB_DUAL_FAILUR, []⟩],
          [⟨Context.WithTimeout config.QueryTimeout, sql.QueryDualInfoSql⟩]⟩) := by
  refine ⟨?_, ?_, ?_, ?_, ?_, ?_, fun _ _ _ => rfl, fun _ _ _ => rfl, ?_, ?_, ?_, ?_, ?_, ?_,
    ?_, ?_, fun _ _ _ => rfl⟩
  · intro rows
    simp only [DbBufferPoolInfoCollector.Collect, bufferPool_emit, Option.map_some',
      Option.map_map]
  · intro rows
    have hc : NewMonitorInfoCollector.checkDmMonitorExists
        (Context.WithTimeout config.QueryTimeout) (.ok 1) =
        (true, ⟨true, ⟨true⟩, true⟩,
          [⟨Context.WithTimeout config.QueryTimeout, dmMonitorExistsQuery⟩]) := rfl
    simp only [MonitorInfoCollector.Collect, hc, monitor_emit, Option.map_some']
  · intro json rows now
    have hg : GetFromCache [] now dmdbms_tablespace_size_total_info = none := rfl
    simp only [TableSpaceInfoCollector.Collect, hg, TableSpaceInfoCollector.queryAndStore,
      List.nil_append, tablespace_emitQueried, Option.map_some']
    cases json.Marshal (scannedRows rows.scanned) <;> rfl
  · intro json rows now
    have hg : GetFromCache [] now tablespaceFileCacheKey = none := rfl
    simp only [TableSpaceDateFileInfoCollector.Collect, hg,
      TableSpaceDateFileInfoCollector.queryAndStore, List.nil_append, datafile_emitQueried,
      Option.map_some']
    cases jsonFiles : json.Marshal (scannedRows rows.scanned) <;> rfl
  · intro c a1 a2 rows
    simp only [DbArchSendCollector.Collect, archSend_isArchiveEnabled_ones,
      DbArchSendCollector.getDbArchSendDetailInfo, archSend_emit, Option.map_some']
  · intro rows
    have hs : getDbArchStatus (Context.WithTimeout config.QueryTimeout)
        ⟨none, .ok "1", .ok "1", .ok rows⟩ =
        ((DB_ARCH_VALID, none),
          [⟨Context.WithTimeout config.QueryTimeout, archStatusIniQuery⟩,
            ⟨Context.WithTimeout config.QueryTimeout, archStatusLocalQuery⟩]) := by
      simp [getDbArchStatus]
    have hm : setArchMetric pkg sql archStatusDesc DB_ARCH_VALID =
        some ⟨archStatusDesc, ValueType.GaugeValue, sql.float64 DB_ARCH_VALID,
          [pkg.Hostname]⟩ := rfl
    simp only [DbArchStatusCollector.Collect, hs, hm, Option.some_bind, if_true,
      getDbArchStatusInfo, archStatus_emit, Option.map_some']
  · intro e rest err
    simp only [DbArchSwitchCollector.Collect, archSwitch_isArchiveEnabled_ones,
      DbArchSwitchCollector.getDbArchSwitchRate, List.head?_cons, Option.map_some']
  · intro rows
    simp only [DbInstanceLogErrorCollector.Collect, instanceLog_emit, Option.map_some']
  · intro text scanned
    simp only [DbUserCollector.Collect, user_emit, Option.map_some']
  · intro text scanned
    simp only [IniParameterCollector.Collect, parameter_emit, Option.map_some']
  · intro text rows
    simp only [DbSqlExecTypeCollector.Collect, statementType_emit, Option.map_some']
  · intro text rows
    simp only [DbMemoryPoolInfoCollector.Collect, memoryPool_emit, Option.map_some']
  · intro text scanned
    simp only [DbRapplyTimeDiffCollector.Collect, rapply_emit, Option.map_some']
  · intro text scanned
    simp only [PurgeCollector.Collect, PurgeCollector.getPurgeInfos, purge_emit,
      Option.map_some']

end Dm8
